import Mathlib

/-!
# Aura: device, device pointer and argument packing

A shallow embedding of parts of the `aura` accelerator abstraction layer:

* `boost/aura/base/base_device_ptr.hpp`   (offset based device pointer)
* `boost/aura/base/metal/device_ptr.hpp`  (Metal allocation and free)
* `boost/aura/base/opencl/device.hpp`     (OpenCL device construction)
* `boost/aura/backend/cuda/args.hpp`      (kernel argument packing)
* `boost/aura/backend/cuda/device.hpp`,
  `boost/aura/backend/opencl/device.hpp`  (backend device with module cache)
* `aura/copy.hpp`, `boost/aura/copy.hpp`  (copy overloads)
* `boost/aura/base/metal/library.hpp`     (Metal library)

Conventions of the embedding.

* `std::size_t` is a natural number reduced modulo `2 ^ 64`, `unsigned int`
  one reduced modulo `2 ^ 32`.
* A C++ function that can throw or run into undefined behaviour returns
  `Except Fault _`.
* A pointer to a `device` object is the address of that object
  (`Option Nat`, `none` being `nullptr`); the objects themselves live in a
  `DeviceHeap`.
* A `char*` into the block returned by `malloc` is the byte offset into that
  block.
* The life of device objects is a sequence of `DeviceOp` steps on a world
  that holds the live objects by address and the log of released contexts.
-/

namespace Aura

/-! ## Machine integers -/

/-- Number of values of `std::size_t`. -/
def SIZE_T_MOD : Nat := 2 ^ 64

/-- Number of values of `unsigned int`. -/
def UINT_MOD : Nat := 2 ^ 32

/-- Unary minus on a `std::size_t`, as in `-b` for `const std::size_t& b`. -/
def size_t_neg (b : Nat) : Nat := (SIZE_T_MOD - b % SIZE_T_MOD) % SIZE_T_MOD

/-! ## Failures -/

/-- The ways an embedded operation can fail to return a value. -/
inductive Fault where
  /-- Raised by `AURA_CHECK_INITIALIZED` on an empty device. -/
  | invalid_state
  /-- Raised by a failed backend check, with the error code the check was given
  (`0` when it was given a condition only). -/
  | backend (code : Int)
  /-- The resource error of the specification (no device available, device
  index out of range, lock unavailable). -/
  | resource
  /-- The C++ abstract machine gives the operation no meaning. -/
  | undefined_behaviour
  deriving DecidableEq, Repr

/-- Modelled from the spec: `memory_access_tag` of the missing header
`boost/aura/memory_tag.hpp`, an access mode that is read-write, read-only or
write-only. -/
inductive memory_access_tag where
  | ro
  | rw
  | wo
  deriving DecidableEq, Repr

/-! ## OpenCL base device (`base/opencl/device.hpp`) -/

/-- The data members of `base_detail::opencl::device`. A handle that was never
assigned is `none`. -/
structure device where
  initialized_ : Bool
  ordinal_ : Nat
  device_ : Option Nat
  context_ : Option Nat
  deriving DecidableEq, Repr

/-- Modelled from the spec: the macro `AURA_CHECK_INITIALIZED` of the missing
header `boost/aura/base/check_initialized.hpp`; accessors fail with the
invalid-state error if the device is empty. -/
def AURA_CHECK_INITIALIZED (initialized : Bool) : Except Fault Unit :=
  if initialized then .ok () else .error .invalid_state

/-- The accessor `device::get_ordinal() const`. -/
def device.get_ordinal (d : device) : Except Fault Nat := do
  AURA_CHECK_INITIALIZED d.initialized_
  pure d.ordinal_

/-- The live `device` objects, by address. -/
abbrev DeviceHeap := Nat → Option device

/-- The call `device_->get_ordinal()` through a non-null `device*`. -/
def deref_get_ordinal (heap : DeviceHeap) (addr : Nat) : Except Fault Nat :=
  match heap addr with
  | none => .error .undefined_behaviour
  | some d => d.get_ordinal

/-! ## Base device pointer (`base/base_device_ptr.hpp`) -/

/-- The data members of `detail::base_device_ptr<T, BaseType>`. -/
structure base_device_ptr (BaseType : Type) where
  memory_ : BaseType
  offset_ : Nat
  device_ : Option Nat
  tag_ : memory_access_tag
  deriving DecidableEq, Repr

namespace base_device_ptr

variable {BaseType : Type}

/-- The constructor `base_device_ptr()`. Here and in `reset` and
`operator==(std::nullptr_t)` the `BaseType` is an integer or a pointer
(`CUdeviceptr`, `cl_mem`), for which `memory_(0)`, `memory_ = 0` and
`0 == memory_` are the built-in operations with the zero of the type. -/
def default [Zero BaseType] : base_device_ptr BaseType :=
  { memory_ := 0, offset_ := 0, device_ := none, tag_ := .rw }

/-- The constructor `base_device_ptr(std::nullptr_t)`. -/
def of_nullptr [Zero BaseType] : base_device_ptr BaseType :=
  { memory_ := 0, offset_ := 0, device_ := none, tag_ := .rw }

/-- The constructor `base_device_ptr(base_type& m, device& d, tag)`; `d` is the
address of the device object. A call that leaves `tag` out passes the default
argument `memory_access_tag::rw`. -/
def of_memory (m : BaseType) (d : Nat) (tag : memory_access_tag) :
    base_device_ptr BaseType :=
  { memory_ := m, offset_ := 0, device_ := some d, tag_ := tag }

/-- The constructor
`base_device_ptr(const_base_type& m, const std::size_t& o, device& d, tag)`. A
call that leaves `tag` out passes the default argument `memory_access_tag::rw`. -/
def of_memory_offset (m : BaseType) (o : Nat) (d : Nat) (tag : memory_access_tag) :
    base_device_ptr BaseType :=
  { memory_ := m, offset_ := o, device_ := some d, tag_ := tag }

/-- The member `reset()`. -/
def reset [Zero BaseType] (_p : base_device_ptr BaseType) : base_device_ptr BaseType :=
  { memory_ := 0, device_ := none, offset_ := 0, tag_ := .rw }

/-- The expression `*device_`: the address of the referenced device, undefined
for a null `device_`. -/
def deref_device (p : base_device_ptr BaseType) : Except Fault Nat :=
  match p.device_ with
  | none => .error .undefined_behaviour
  | some d => .ok d

/-- The copy assignment `operator=(base_device_ptr const&)`: the new `*this`. -/
def assign (_p b : base_device_ptr BaseType) : base_device_ptr BaseType :=
  { memory_ := b.memory_, offset_ := b.offset_, device_ := b.device_, tag_ := b.tag_ }

/-- The assignment `operator=(std::nullptr_t)`: the new `*this`. -/
def assign_nullptr [Zero BaseType] (p : base_device_ptr BaseType) :
    base_device_ptr BaseType :=
  p.reset

/-- The operator `operator+(const std::size_t& b) const`. -/
def add (p : base_device_ptr BaseType) (b : Nat) : Except Fault (base_device_ptr BaseType) := do
  let d ← p.deref_device
  pure (of_memory_offset p.memory_ ((p.offset_ + b) % SIZE_T_MOD) d p.tag_)

/-- The operator `operator+=(const std::size_t& b)`: the new `*this`, which is
also the returned reference. -/
def add_assign (p : base_device_ptr BaseType) (b : Nat) : base_device_ptr BaseType :=
  { p with offset_ := (p.offset_ + b) % SIZE_T_MOD }

/-- The prefix `operator++()`: the new `*this`, also the returned reference. -/
def pre_inc (p : base_device_ptr BaseType) : base_device_ptr BaseType :=
  { p with offset_ := (p.offset_ + 1) % SIZE_T_MOD }

/-- The postfix `operator++(int)`: the returned pointer (`*this` is not
assigned to). The source calls the constructor with three arguments,
`base_device_ptr(memory_, offset_ + 1, *device_)`, so the tag is the default. -/
def post_inc (p : base_device_ptr BaseType) : Except Fault (base_device_ptr BaseType) := do
  let d ← p.deref_device
  pure (of_memory_offset p.memory_ ((p.offset_ + 1) % SIZE_T_MOD) d memory_access_tag.rw)

/-- The operator `operator-(const std::size_t& b) const`. -/
def sub (p : base_device_ptr BaseType) (b : Nat) : Except Fault (base_device_ptr BaseType) :=
  p.add (size_t_neg b)

/-- The operator `operator-=(const std::size_t& b)`. -/
def sub_assign (p : base_device_ptr BaseType) (b : Nat) : base_device_ptr BaseType :=
  p.add_assign (size_t_neg b)

/-- The prefix `operator--()`: the new `*this`, also the returned reference. -/
def pre_dec (p : base_device_ptr BaseType) : base_device_ptr BaseType :=
  { p with offset_ := (p.offset_ + (SIZE_T_MOD - 1)) % SIZE_T_MOD }

/-- The postfix `operator--(int)`: the returned pointer, built by
`base_device_ptr(memory_, offset_ - 1, *device_, tag_)`. -/
def post_dec (p : base_device_ptr BaseType) : Except Fault (base_device_ptr BaseType) := do
  let d ← p.deref_device
  pure (of_memory_offset p.memory_ ((p.offset_ + (SIZE_T_MOD - 1)) % SIZE_T_MOD) d p.tag_)

/-- The operator `operator==(const base_device_ptr&) const`. -/
def eq [DecidableEq BaseType] (heap : DeviceHeap) (a b : base_device_ptr BaseType) :
    Except Fault Bool :=
  match a.device_, b.device_ with
  | some da, some db => do
    let oa ← deref_get_ordinal heap da
    let ob ← deref_get_ordinal heap db
    pure (decide (oa = ob) && decide (a.offset_ = b.offset_) &&
      decide (a.memory_ = b.memory_) && decide (a.tag_ = b.tag_))
  | x, y =>
    pure (decide (x = none) && decide (y = none) && decide (a.offset_ = b.offset_) &&
      decide (a.memory_ = b.memory_) && decide (a.tag_ = b.tag_))

/-- The operator `operator==(std::nullptr_t) const`. -/
def eq_nullptr [Zero BaseType] [DecidableEq BaseType] (a : base_device_ptr BaseType) : Bool :=
  decide (a.device_ = none) && decide (0 = a.offset_) && decide (0 = a.memory_)

/-- The operator `operator!=(const base_device_ptr&) const`. -/
def ne [DecidableEq BaseType] (heap : DeviceHeap) (a b : base_device_ptr BaseType) :
    Except Fault Bool := do
  let r ← eq heap a b
  pure (!r)

/-- The operator `operator!=(std::nullptr_t) const`. -/
def ne_nullptr [Zero BaseType] [DecidableEq BaseType] (a : base_device_ptr BaseType) : Bool :=
  !a.eq_nullptr

end base_device_ptr

/-! ## Metal device pointer (`base/metal/device_ptr.hpp`) -/

/-- The data members of `metal::device_ptr_base_type<T>`: the `id<MTLBuffer>`
(`none` is `nil`) and the `std::shared_ptr<T>` (`none` is empty). -/
structure device_ptr_base_type where
  device_buffer : Option Nat
  host_ptr : Option Nat
  deriving DecidableEq, Repr

/-- The operator `device_ptr_base_type::operator=(int a)`. -/
def device_ptr_base_type.assign_int (self : device_ptr_base_type) (a : Int) :
    device_ptr_base_type :=
  if a = 0 then { device_buffer := none, host_ptr := none } else self

/-- The expression `a == m` for an `int` `a` and a handle `m`. The struct
declares `operator==` and `operator!=` for an operand of its own type only and
no conversion from `int`, so no operator is viable and the expression does not
compile (`none`). -/
def device_ptr_base_type.int_eq (_a : Int) (_m : device_ptr_base_type) : Option Bool :=
  none

/-- The alias `metal::device_ptr<T>`. -/
abbrev metal_device_ptr := base_device_ptr device_ptr_base_type

/-- The member `reset()` of `metal::device_ptr<T>`: for this `BaseType` the
statement `memory_ = 0;` calls `device_ptr_base_type::operator=(int)` on the
handle of the pointer. -/
def metal_device_ptr.reset (p : metal_device_ptr) : metal_device_ptr :=
  { memory_ := p.memory_.assign_int 0, device_ := none, offset_ := 0,
    tag_ := memory_access_tag.rw }

/-- The member `operator==(std::nullptr_t)` of `metal::device_ptr<T>`, which is
`return (nullptr == device_ && 0 == offset_ && 0 == memory_);`. It has a value
only if each comparison compiles. -/
def metal_device_ptr.eq_nullptr (p : metal_device_ptr) : Option Bool :=
  match device_ptr_base_type.int_eq 0 p.memory_ with
  | none => none
  | some m => some (decide (p.device_ = none) && decide (0 = p.offset_) && m)

/-- What the Metal allocation path asks its environment. -/
structure MetalBackend where
  /-- The call `posix_memalign(&host_ptr, alignment, size)`: the returned error
  code and the host pointer it stores. -/
  posix_memalign : Nat → Nat → Int × Nat
  /-- The message `[d.get_base_device() newBufferWithBytesNoCopy:host_ptr
  length:length options:0 deallocator:nil]` for the device at address `d`:
  the new buffer, or `nil`. -/
  newBufferWithBytesNoCopy : Nat → Nat → Nat → Option Nat

/-- A request made to the Metal environment. -/
inductive MetalCall where
  | posix_memalign (alignment size : Nat)
  | newBufferWithBytesNoCopy (d host_ptr length : Nat)
  deriving DecidableEq, Repr

/-- Modelled from the spec: the macro `AURA_METAL_CHECK_ERROR` of a missing
header; a failed backend check raises the backend error. -/
def AURA_METAL_CHECK_ERROR (cond : Bool) : Except Fault Unit :=
  if cond then .ok () else .error (.backend 0)

/-- The function `metal::device_malloc<T>(size, d, tag)` for an element type of
`sizeof_T` bytes: the requests made to the environment, in order, and the
outcome. `KERN_SUCCESS` is `0`. -/
def device_malloc (sizeof_T : Nat) (env : MetalBackend) (size : Nat) (d : Nat)
    (tag : memory_access_tag) : List MetalCall × Except Fault metal_device_ptr :=
  let metal_memory_alignment : Nat := 16384
  let num_bytes := (size * sizeof_T) % SIZE_T_MOD
  let aligned_size :=
    (num_bytes + (metal_memory_alignment - num_bytes % metal_memory_alignment)) % SIZE_T_MOD
  let r := env.posix_memalign metal_memory_alignment aligned_size
  let err := r.1
  let host_ptr := r.2
  let calls := [MetalCall.posix_memalign metal_memory_alignment aligned_size]
  match AURA_METAL_CHECK_ERROR (decide (err = 0)) with
  | .error e => (calls, .error e)
  | .ok () =>
    let m : device_ptr_base_type :=
      { device_buffer := env.newBufferWithBytesNoCopy d host_ptr aligned_size,
        host_ptr := some host_ptr }
    let calls := calls ++ [MetalCall.newBufferWithBytesNoCopy d host_ptr aligned_size]
    match AURA_METAL_CHECK_ERROR m.device_buffer.isSome with
    | .error e => (calls, .error e)
    | .ok () => (calls, .ok (base_device_ptr.of_memory m d tag))

/-- The function `metal::device_free(device_ptr<T>& ptr)`: the new `ptr`. -/
def device_free (ptr : metal_device_ptr) : metal_device_ptr :=
  metal_device_ptr.reset ptr

/-! ## OpenCL device construction (`base/opencl/device.hpp`) -/

/-- What the OpenCL device constructor asks its driver. The enumeration calls
(`clGetPlatformIDs`, `clGetDeviceIDs`) succeed and report `platforms`: for each
platform, in order, the `cl_device_id`s of its devices. -/
structure OpenCLBackend where
  platforms : List (List Nat)
  /-- The call `clCreateContext(NULL, 1, &device_, NULL, NULL, &errorcode)` on the
  content of `device_` (`none`: never assigned): the context and `errorcode`. -/
  clCreateContext : Option Nat → Option Nat × Int

/-- Modelled from the spec: the macro `AURA_OPENCL_CHECK_ERROR` of the missing
header `boost/aura/base/opencl/safecall.hpp`; a driver-level failure propagates
as the backend error. `CL_SUCCESS` is `0`. -/
def AURA_OPENCL_CHECK_ERROR (errorcode : Int) : Except Fault Unit :=
  if errorcode = 0 then .ok () else .error (.backend errorcode)

/-- The function `device::get_num_devices_platform(platform)`, for a platform
given by its device list. -/
def device.get_num_devices_platform (platform : List Nat) : Nat :=
  platform.length

/-- The loop of `device::num()` over the platforms `i, i+1, ...`, from the
running `num_devices`. -/
def device.num_loop : List (List Nat) → Nat → Nat
  | [], num_devices => num_devices
  | platform :: rest, num_devices =>
    device.num_loop rest
      ((num_devices + device.get_num_devices_platform platform) % SIZE_T_MOD)

/-- The static member `device::num()`. -/
def device.num (env : OpenCLBackend) : Nat :=
  if env.platforms.length = 0 then 0 else device.num_loop env.platforms 0

/-- The loop "Find device." of `device::device(std::size_t ordinal)` over the
platforms `i, i+1, ...`, from the running `num_devices` and the current content
of `device_`; it returns the final content of `device_`. An index outside the
vector `devices` is undefined. -/
def device.find_device (ordinal : Nat) : List (List Nat) → Nat → Option Nat →
    Except Fault (Option Nat)
  | [], _, device_ => .ok device_
  | platform :: rest, num_devices, device_ =>
    let num_devices_platform := device.get_num_devices_platform platform
    if num_devices_platform < 1 then
      device.find_device ordinal rest num_devices device_
    else if (num_devices + num_devices_platform) % UINT_MOD > ordinal % UINT_MOD then
      let devices := platform
      match devices[(ordinal + size_t_neg num_devices) % SIZE_T_MOD]? with
      | none => .error .undefined_behaviour
      | some dev =>
        device.find_device ordinal rest
          ((num_devices + num_devices_platform) % UINT_MOD) (some dev)
    else
      device.find_device ordinal rest
        ((num_devices + num_devices_platform) % UINT_MOD) device_

/-- The constructor `device::device(std::size_t ordinal)`, compiled with
`CL_VERSION_1_2` defined. With no platform at all, `&platforms[0]` indexes an
empty vector, which is undefined. -/
def device.create (env : OpenCLBackend) (ordinal : Nat) : Except Fault device :=
  if env.platforms.length = 0 then
    .error .undefined_behaviour
  else
    match device.find_device ordinal env.platforms 0 none with
    | .error e => .error e
    | .ok device_ =>
      let r := env.clCreateContext device_
      let context_ := r.1
      let errorcode := r.2
      match AURA_OPENCL_CHECK_ERROR errorcode with
      | .error e => .error e
      | .ok () =>
        .ok { initialized_ := true, ordinal_ := ordinal, device_ := device_,
              context_ := context_ }

/-- The device that the platform-by-platform enumeration lists at position
`ordinal`. -/
def enumerated_device (env : OpenCLBackend) (ordinal : Nat) : Option Nat :=
  env.platforms.flatten[ordinal]?

/-! ## Kernel argument packing (`backend/cuda/args.hpp`) -/

/-- One byte of an object representation. -/
abbrev Byte := Fin 256

/-- The content of a heap block: a byte is `none` until it is written. -/
abbrev Block := List (Option Byte)

/-- The call `malloc(size)`: a fresh block of `size` indeterminate bytes, or
the null pointer (`none`) when the heap, which grants a request of `n` bytes
iff `heap_grants n`, refuses. -/
def malloc (heap_grants : Nat → Bool) (size : Nat) : Option Block :=
  if heap_grants size then some (List.replicate size none) else none

/-- The call `std::memcpy(dest, &a, sizeof a)` into a block, `dest` being a
byte offset into it and `src` the bytes of `a`. Writing outside the block is
undefined. -/
def memcpy (block : Block) (dest : Nat) (src : List Byte) : Except Fault Block :=
  if dest + src.length ≤ block.length then
    .ok (block.take dest ++ src.map some ++ block.drop (dest + src.length))
  else
    .error .undefined_behaviour

/-- The assignment `*it = p` through an iterator into the pointer array, `it`
being an index. Writing outside the array is undefined. -/
def store_arg (pa : List (Option Nat)) (it : Nat) (p : Nat) :
    Except Fault (List (Option Nat)) :=
  if it < pa.length then .ok (pa.set it (some p)) else .error .undefined_behaviour

/-- The bytes of a run of a block, if all of them were written. -/
def all_written : Block → Option (List Byte)
  | [] => some []
  | none :: _ => none
  | some b :: rest => (all_written rest).map (List.cons b)

/-- Reading `n` bytes at offset `p` of a block: the bytes, if all of them are
inside the block and were written. -/
def read_bytes (block : Block) (p n : Nat) : Option (List Byte) :=
  if p + n ≤ block.length then all_written ((block.drop p).take n) else none

/-- The packed arguments `args_t`: the pair of `first`, a pointer into a heap
block (kept with the block's content), and `second`, the pointer array, whose
entries are pointers into that block and `none` while indeterminate. -/
structure args_t where
  block : Block
  first : Nat
  second : List (Option Nat)
  deriving DecidableEq, Repr

/-- Modelled from the spec: the constructor `args_tt(arg_t(a0p), ...)` of
`svec<arg_t, AURA_MAX_KERNEL_ARGS>` from the missing header
`boost/aura/detail/svec.hpp`, a fixed-capacity sequence of pointers that holds
the pointers it is given, in order. -/
def args_tt (ps : List Nat) : List (Option Nat) :=
  ps.map some

/-- Modelled from the spec: `tsizeof<Targs...>::sz` of the missing header
`boost/aura/meta/tsizeof.hpp`, the exact sum of each value's size (a
`std::size_t`). -/
def tsizeof (ar : List (List Byte)) : Nat :=
  (ar.map List.length).sum % SIZE_T_MOD

/-- The two overloads of `fill_args_(char* p, ArgsItr it, const T0 a0,
const Targs... ar)`, on the block and the pointer array they write to; each
value is given by its bytes. -/
def fill_args_ (block : Block) (pa : List (Option Nat)) (p it : Nat) (a0 : List Byte) :
    List (List Byte) → Except Fault (Block × List (Option Nat))
  | [] => do
    let block ← memcpy block p a0
    let pa ← store_arg pa it p
    pure (block, pa)
  | a1 :: ar => do
    let block ← memcpy block p a0
    let pa ← store_arg pa it p
    fill_args_ block pa (p + a0.length) (it + 1) a1 ar

/-- The variadic `args(const Targs... ar)`. With an empty pack no overload of
`fill_args_` is viable and the call does not compile (`none`). The result of
`malloc` is used unchecked: copying through a null pointer is undefined. -/
def args (heap_grants : Nat → Bool) : List (List Byte) → Option (Except Fault args_t)
  | [] => none
  | a0 :: ar => some (do
    let pa : List (Option Nat) := List.replicate (a0 :: ar).length none
    match malloc heap_grants (tsizeof (a0 :: ar)) with
    | none => throw Fault.undefined_behaviour
    | some block =>
      let p := 0
      let ptr := p
      let r ← fill_args_ block pa p 0 a0 ar
      pure { block := r.1, first := ptr, second := r.2 })

/-- The overload `args(const T0& a0)` of the build without variadic templates. -/
def args_1 (heap_grants : Nat → Bool) (a0 : List Byte) : Except Fault args_t :=
  let size := (a0.length) % SIZE_T_MOD
  match malloc heap_grants size with
  | none => throw Fault.undefined_behaviour
  | some block => do
    let ptr := 0
    let offset := 0
    let block ← memcpy block (ptr + offset) a0
    let a0p := ptr + offset
    pure { block := block, first := ptr, second := args_tt [a0p] }

/-- The overload `args(const T0& a0, const T1& a1)` of the build without variadic templates. -/
def args_2 (heap_grants : Nat → Bool) (a0 a1 : List Byte) : Except Fault args_t :=
  let size := (a0.length + a1.length) % SIZE_T_MOD
  match malloc heap_grants size with
  | none => throw Fault.undefined_behaviour
  | some block => do
    let ptr := 0
    let offset := 0
    let block ← memcpy block (ptr + offset) a0
    let a0p := ptr + offset
    let offset := (offset + a0.length) % SIZE_T_MOD
    let block ← memcpy block (ptr + offset) a1
    let a1p := ptr + offset
    pure { block := block, first := ptr, second := args_tt [a0p, a1p] }

/-- The overload `args(const T0& a0, const T1& a1, const T2& a2)` of the build without variadic templates. -/
def args_3 (heap_grants : Nat → Bool) (a0 a1 a2 : List Byte) : Except Fault args_t :=
  let size := (a0.length + a1.length + a2.length) % SIZE_T_MOD
  match malloc heap_grants size with
  | none => throw Fault.undefined_behaviour
  | some block => do
    let ptr := 0
    let offset := 0
    let block ← memcpy block (ptr + offset) a0
    let a0p := ptr + offset
    let offset := (offset + a0.length) % SIZE_T_MOD
    let block ← memcpy block (ptr + offset) a1
    let a1p := ptr + offset
    let offset := (offset + a1.length) % SIZE_T_MOD
    let block ← memcpy block (ptr + offset) a2
    let a2p := ptr + offset
    pure { block := block, first := ptr, second := args_tt [a0p, a1p, a2p] }

/-- The overload of `args` with 4 parameters `const T0& a0, ...` of the build
without variadic templates. -/
def args_4 (heap_grants : Nat → Bool) (a0 a1 a2 a3 : List Byte) : Except Fault args_t :=
  let size := (a0.length + a1.length + a2.length + a3.length) % SIZE_T_MOD
  match malloc heap_grants size with
  | none => throw Fault.undefined_behaviour
  | some block => do
    let ptr := 0
    let offset := 0
    let block ← memcpy block (ptr + offset) a0
    let a0p := ptr + offset
    let offset := (offset + a0.length) % SIZE_T_MOD
    let block ← memcpy block (ptr + offset) a1
    let a1p := ptr + offset
    let offset := (offset + a1.length) % SIZE_T_MOD
    let block ← memcpy block (ptr + offset) a2
    let a2p := ptr + offset
    let offset := (offset + a2.length) % SIZE_T_MOD
    let block ← memcpy block (ptr + offset) a3
    let a3p := ptr + offset
    pure { block := block, first := ptr, second := args_tt [a0p, a1p, a2p, a3p] }

/-- The overload of `args` with 5 parameters `const T0& a0, ...` of the build
without variadic templates. -/
def args_5 (heap_grants : Nat → Bool) (a0 a1 a2 a3 a4 : List Byte) : Except Fault args_t :=
  let size := (a0.length + a1.length + a2.length + a3.length + a4.length) % SIZE_T_MOD
  match malloc heap_grants size with
  | none => throw Fault.undefined_behaviour
  | some block => do
    let ptr := 0
    let offset := 0
    let block ← memcpy block (ptr + offset) a0
    let a0p := ptr + offset
    let offset := (offset + a0.length) % SIZE_T_MOD
    let block ← memcpy block (ptr + offset) a1
    let a1p := ptr + offset
    let offset := (offset + a1.length) % SIZE_T_MOD
    let block ← memcpy block (ptr + offset) a2
    let a2p := ptr + offset
    let offset := (offset + a2.length) % SIZE_T_MOD
    let block ← memcpy block (ptr + offset) a3
    let a3p := ptr + offset
    let offset := (offset + a3.length) % SIZE_T_MOD
    let block ← memcpy block (ptr + offset) a4
    let a4p := ptr + offset
    let second := args_tt [a0p, a1p, a2p, a3p, a4p]
    pure { block := block, first := ptr, second := second }

/-- The overload of `args` with 6 parameters `const T0& a0, ...` of the build
without variadic templates. -/
def args_6 (heap_grants : Nat → Bool) (a0 a1 a2 a3 a4 a5 : List Byte) : Except Fault args_t :=
  let size := (a0.length + a1.length + a2.length + a3.length + a4.length + a5.length) % SIZE_T_MOD
  match malloc heap_grants size with
  | none => throw Fault.undefined_behaviour
  | some block => do
    let ptr := 0
    let offset := 0
    let block ← memcpy block (ptr + offset) a0
    let a0p := ptr + offset
    let offset := (offset + a0.length) % SIZE_T_MOD
    let block ← memcpy block (ptr + offset) a1
    let a1p := ptr + offset
    let offset := (offset + a1.length) % SIZE_T_MOD
    let block ← memcpy block (ptr + offset) a2
    let a2p := ptr + offset
    let offset := (offset + a2.length) % SIZE_T_MOD
    let block ← memcpy block (ptr + offset) a3
    let a3p := ptr + offset
    let offset := (offset + a3.length) % SIZE_T_MOD
    let block ← memcpy block (ptr + offset) a4
    let a4p := ptr + offset
    let offset := (offset + a4.length) % SIZE_T_MOD
    let block ← memcpy block (ptr + offset) a5
    let a5p := ptr + offset
    let second := args_tt [a0p, a1p, a2p, a3p, a4p, a5p]
    pure { block := block, first := ptr, second := second }

/-- The overload of `args` with 7 parameters `const T0& a0, ...` of the build
without variadic templates. -/
def args_7 (heap_grants : Nat → Bool) (a0 a1 a2 a3 a4 a5 a6 : List Byte) : Except Fault args_t :=
  let size := (a0.length + a1.length + a2.length + a3.length + a4.length + a5.length +
    a6.length) % SIZE_T_MOD
  match malloc heap_grants size with
  | none => throw Fault.undefined_behaviour
  | some block => do
    let ptr := 0
    let offset := 0
    let block ← memcpy block (ptr + offset) a0
    let a0p := ptr + offset
    let offset := (offset + a0.length) % SIZE_T_MOD
    let block ← memcpy block (ptr + offset) a1
    let a1p := ptr + offset
    let offset := (offset + a1.length) % SIZE_T_MOD
    let block ← memcpy block (ptr + offset) a2
    let a2p := ptr + offset
    let offset := (offset + a2.length) % SIZE_T_MOD
    let block ← memcpy block (ptr + offset) a3
    let a3p := ptr + offset
    let offset := (offset + a3.length) % SIZE_T_MOD
    let block ← memcpy block (ptr + offset) a4
    let a4p := ptr + offset
    let offset := (offset + a4.length) % SIZE_T_MOD
    let block ← memcpy block (ptr + offset) a5
    let a5p := ptr + offset
    let offset := (offset + a5.length) % SIZE_T_MOD
    let block ← memcpy block (ptr + offset) a6
    let a6p := ptr + offset
    let second := args_tt [a0p, a1p, a2p, a3p, a4p, a5p, a6p]
    pure { block := block, first := ptr, second := second }

/-- The overload of `args` with 8 parameters `const T0& a0, ...` of the build
without variadic templates. -/
def args_8 (heap_grants : Nat → Bool) (a0 a1 a2 a3 a4 a5 a6 a7 : List Byte) : Except Fault args_t :=
  let size := (a0.length + a1.length + a2.length + a3.length + a4.length + a5.length + a6.length +
    a7.length) % SIZE_T_MOD
  match malloc heap_grants size with
  | none => throw Fault.undefined_behaviour
  | some block => do
    let ptr := 0
    let offset := 0
    let block ← memcpy block (ptr + offset) a0
    let a0p := ptr + offset
    let offset := (offset + a0.length) % SIZE_T_MOD
    let block ← memcpy block (ptr + offset) a1
    let a1p := ptr + offset
    let offset := (offset + a1.length) % SIZE_T_MOD
    let block ← memcpy block (ptr + offset) a2
    let a2p := ptr + offset
    let offset := (offset + a2.length) % SIZE_T_MOD
    let block ← memcpy block (ptr + offset) a3
    let a3p := ptr + offset
    let offset := (offset + a3.length) % SIZE_T_MOD
    let block ← memcpy block (ptr + offset) a4
    let a4p := ptr + offset
    let offset := (offset + a4.length) % SIZE_T_MOD
    let block ← memcpy block (ptr + offset) a5
    let a5p := ptr + offset
    let offset := (offset + a5.length) % SIZE_T_MOD
    let block ← memcpy block (ptr + offset) a6
    let a6p := ptr + offset
    let offset := (offset + a6.length) % SIZE_T_MOD
    let block ← memcpy block (ptr + offset) a7
    let a7p := ptr + offset
    let second := args_tt [a0p, a1p, a2p, a3p, a4p, a5p, a6p,
      a7p]
    pure { block := block, first := ptr, second := second }

/-- The overload of `args` with 9 parameters `const T0& a0, ...` of the build
without variadic templates. -/
def args_9 (heap_grants : Nat → Bool) (a0 a1 a2 a3 a4 a5 a6 a7 a8 : List Byte) : Except Fault args_t :=
  let size := (a0.length + a1.length + a2.length + a3.length + a4.length + a5.length + a6.length +
    a7.length + a8.length) % SIZE_T_MOD
  match malloc heap_grants size with
  | none => throw Fault.undefined_behaviour
  | some block => do
    let ptr := 0
    let offset := 0
    let block ← memcpy block (ptr + offset) a0
    let a0p := ptr + offset
    let offset := (offset + a0.length) % SIZE_T_MOD
    let block ← memcpy block (ptr + offset) a1
    let a1p := ptr + offset
    let offset := (offset + a1.length) % SIZE_T_MOD
    let block ← memcpy block (ptr + offset) a2
    let a2p := ptr + offset
    let offset := (offset + a2.length) % SIZE_T_MOD
    let block ← memcpy block (ptr + offset) a3
    let a3p := ptr + offset
    let offset := (offset + a3.length) % SIZE_T_MOD
    let block ← memcpy block (ptr + offset) a4
    let a4p := ptr + offset
    let offset := (offset + a4.length) % SIZE_T_MOD
    let block ← memcpy block (ptr + offset) a5
    let a5p := ptr + offset
    let offset := (offset + a5.length) % SIZE_T_MOD
    let block ← memcpy block (ptr + offset) a6
    let a6p := ptr + offset
    let offset := (offset + a6.length) % SIZE_T_MOD
    let block ← memcpy block (ptr + offset) a7
    let a7p := ptr + offset
    let offset := (offset + a7.length) % SIZE_T_MOD
    let block ← memcpy block (ptr + offset) a8
    let a8p := ptr + offset
    let second := args_tt [a0p, a1p, a2p, a3p, a4p, a5p, a6p,
      a7p, a8p]
    pure { block := block, first := ptr, second := second }

/-- The overload of `args` with 10 parameters `const T0& a0, ...` of the build
without variadic templates. -/
def args_10 (heap_grants : Nat → Bool) (a0 a1 a2 a3 a4 a5 a6 a7 a8 a9 : List Byte) : Except Fault args_t :=
  let size := (a0.length + a1.length + a2.length + a3.length + a4.length + a5.length + a6.length +
    a7.length + a8.length + a9.length) % SIZE_T_MOD
  match malloc heap_grants size with
  | none => throw Fault.undefined_behaviour
  | some block => do
    let ptr := 0
    let offset := 0
    let block ← memcpy block (ptr + offset) a0
    let a0p := ptr + offset
    let offset := (offset + a0.length) % SIZE_T_MOD
    let block ← memcpy block (ptr + offset) a1
    let a1p := ptr + offset
    let offset := (offset + a1.length) % SIZE_T_MOD
    let block ← memcpy block (ptr + offset) a2
    let a2p := ptr + offset
    let offset := (offset + a2.length) % SIZE_T_MOD
    let block ← memcpy block (ptr + offset) a3
    let a3p := ptr + offset
    let offset := (offset + a3.length) % SIZE_T_MOD
    let block ← memcpy block (ptr + offset) a4
    let a4p := ptr + offset
    let offset := (offset + a4.length) % SIZE_T_MOD
    let block ← memcpy block (ptr + offset) a5
    let a5p := ptr + offset
    let offset := (offset + a5.length) % SIZE_T_MOD
    let block ← memcpy block (ptr + offset) a6
    let a6p := ptr + offset
    let offset := (offset + a6.length) % SIZE_T_MOD
    let block ← memcpy block (ptr + offset) a7
    let a7p := ptr + offset
    let offset := (offset + a7.length) % SIZE_T_MOD
    let block ← memcpy block (ptr + offset) a8
    let a8p := ptr + offset
    let offset := (offset + a8.length) % SIZE_T_MOD
    let block ← memcpy block (ptr + offset) a9
    let a9p := ptr + offset
    let second := args_tt [a0p, a1p, a2p, a3p, a4p, a5p, a6p,
      a7p, a8p, a9p]
    pure { block := block, first := ptr, second := second }

/-- The overload of `args` with 11 parameters `const T0& a0, ...` of the build
without variadic templates. -/
def args_11 (heap_grants : Nat → Bool) (a0 a1 a2 a3 a4 a5 a6 a7 a8 a9 a10 : List Byte) : Except Fault args_t :=
  let size := (a0.length + a1.length + a2.length + a3.length + a4.length + a5.length + a6.length +
    a7.length + a8.length + a9.length + a10.length) % SIZE_T_MOD
  match malloc heap_grants size with
  | none => throw Fault.undefined_behaviour
  | some block => do
    let ptr := 0
    let offset := 0
    let block ← memcpy block (ptr + offset) a0
    let a0p := ptr + offset
    let offset := (offset + a0.length) % SIZE_T_MOD
    let block ← memcpy block (ptr + offset) a1
    let a1p := ptr + offset
    let offset := (offset + a1.length) % SIZE_T_MOD
    let block ← memcpy block (ptr + offset) a2
    let a2p := ptr + offset
    let offset := (offset + a2.length) % SIZE_T_MOD
    let block ← memcpy block (ptr + offset) a3
    let a3p := ptr + offset
    let offset := (offset + a3.length) % SIZE_T_MOD
    let block ← memcpy block (ptr + offset) a4
    let a4p := ptr + offset
    let offset := (offset + a4.length) % SIZE_T_MOD
    let block ← memcpy block (ptr + offset) a5
    let a5p := ptr + offset
    let offset := (offset + a5.length) % SIZE_T_MOD
    let block ← memcpy block (ptr + offset) a6
    let a6p := ptr + offset
    let offset := (offset + a6.length) % SIZE_T_MOD
    let block ← memcpy block (ptr + offset) a7
    let a7p := ptr + offset
    let offset := (offset + a7.length) % SIZE_T_MOD
    let block ← memcpy block (ptr + offset) a8
    let a8p := ptr + offset
    let offset := (offset + a8.length) % SIZE_T_MOD
    let block ← memcpy block (ptr + offset) a9
    let a9p := ptr + offset
    let offset := (offset + a9.length) % SIZE_T_MOD
    let block ← memcpy block (ptr + offset) a10
    let a10p := ptr + offset
    let second := args_tt [a0p, a1p, a2p, a3p, a4p, a5p, a6p,
      a7p, a8p, a9p, a10p]
    pure { block := block, first := ptr, second := second }

/-- The overload of `args` with 12 parameters `const T0& a0, ...` of the build
without variadic templates. -/
def args_12 (heap_grants : Nat → Bool) (a0 a1 a2 a3 a4 a5 a6 a7 a8 a9 a10 a11 : List Byte) : Except Fault args_t :=
  let size := (a0.length + a1.length + a2.length + a3.length + a4.length + a5.length + a6.length +
    a7.length + a8.length + a9.length + a10.length + a11.length) % SIZE_T_MOD
  match malloc heap_grants size with
  | none => throw Fault.undefined_behaviour
  | some block => do
    let ptr := 0
    let offset := 0
    let block ← memcpy block (ptr + offset) a0
    let a0p := ptr + offset
    let offset := (offset + a0.length) % SIZE_T_MOD
    let block ← memcpy block (ptr + offset) a1
    let a1p := ptr + offset
    let offset := (offset + a1.length) % SIZE_T_MOD
    let block ← memcpy block (ptr + offset) a2
    let a2p := ptr + offset
    let offset := (offset + a2.length) % SIZE_T_MOD
    let block ← memcpy block (ptr + offset) a3
    let a3p := ptr + offset
    let offset := (offset + a3.length) % SIZE_T_MOD
    let block ← memcpy block (ptr + offset) a4
    let a4p := ptr + offset
    let offset := (offset + a4.length) % SIZE_T_MOD
    let block ← memcpy block (ptr + offset) a5
    let a5p := ptr + offset
    let offset := (offset + a5.length) % SIZE_T_MOD
    let block ← memcpy block (ptr + offset) a6
    let a6p := ptr + offset
    let offset := (offset + a6.length) % SIZE_T_MOD
    let block ← memcpy block (ptr + offset) a7
    let a7p := ptr + offset
    let offset := (offset + a7.length) % SIZE_T_MOD
    let block ← memcpy block (ptr + offset) a8
    let a8p := ptr + offset
    let offset := (offset + a8.length) % SIZE_T_MOD
    let block ← memcpy block (ptr + offset) a9
    let a9p := ptr + offset
    let offset := (offset + a9.length) % SIZE_T_MOD
    let block ← memcpy block (ptr + offset) a10
    let a10p := ptr + offset
    let offset := (offset + a10.length) % SIZE_T_MOD
    let block ← memcpy block (ptr + offset) a11
    let a11p := ptr + offset
    let second := args_tt [a0p, a1p, a2p, a3p, a4p, a5p, a6p,
      a7p, a8p, a9p, a10p, a11p]
    pure { block := block, first := ptr, second := second }

/-- The overload of `args` with 13 parameters `const T0& a0, ...` of the build
without variadic templates. -/
def args_13 (heap_grants : Nat → Bool) (a0 a1 a2 a3 a4 a5 a6 a7 a8 a9 a10 a11 a12 : List Byte) : Except Fault args_t :=
  let size := (a0.length + a1.length + a2.length + a3.length + a4.length + a5.length + a6.length +
    a7.length + a8.length + a9.length + a10.length + a11.length + a12.length) % SIZE_T_MOD
  match malloc heap_grants size with
  | none => throw Fault.undefined_behaviour
  | some block => do
    let ptr := 0
    let offset := 0
    let block ← memcpy block (ptr + offset) a0
    let a0p := ptr + offset
    let offset := (offset + a0.length) % SIZE_T_MOD
    let block ← memcpy block (ptr + offset) a1
    let a1p := ptr + offset
    let offset := (offset + a1.length) % SIZE_T_MOD
    let block ← memcpy block (ptr + offset) a2
    let a2p := ptr + offset
    let offset := (offset + a2.length) % SIZE_T_MOD
    let block ← memcpy block (ptr + offset) a3
    let a3p := ptr + offset
    let offset := (offset + a3.length) % SIZE_T_MOD
    let block ← memcpy block (ptr + offset) a4
    let a4p := ptr + offset
    let offset := (offset + a4.length) % SIZE_T_MOD
    let block ← memcpy block (ptr + offset) a5
    let a5p := ptr + offset
    let offset := (offset + a5.length) % SIZE_T_MOD
    let block ← memcpy block (ptr + offset) a6
    let a6p := ptr + offset
    let offset := (offset + a6.length) % SIZE_T_MOD
    let block ← memcpy block (ptr + offset) a7
    let a7p := ptr + offset
    let offset := (offset + a7.length) % SIZE_T_MOD
    let block ← memcpy block (ptr + offset) a8
    let a8p := ptr + offset
    let offset := (offset + a8.length) % SIZE_T_MOD
    let block ← memcpy block (ptr + offset) a9
    let a9p := ptr + offset
    let offset := (offset + a9.length) % SIZE_T_MOD
    let block ← memcpy block (ptr + offset) a10
    let a10p := ptr + offset
    let offset := (offset + a10.length) % SIZE_T_MOD
    let block ← memcpy block (ptr + offset) a11
    let a11p := ptr + offset
    let offset := (offset + a11.length) % SIZE_T_MOD
    let block ← memcpy block (ptr + offset) a12
    let a12p := ptr + offset
    let second := args_tt [a0p, a1p, a2p, a3p, a4p, a5p, a6p,
      a7p, a8p, a9p, a10p, a11p, a12p]
    pure { block := block, first := ptr, second := second }

/-- Overload resolution for `args` in the build without variadic templates:
there is one overload for each number of arguments from 1 to 13, and a call
with any other number does not compile (`none`). -/
def args_fixed (heap_grants : Nat → Bool) : List (List Byte) → Option (Except Fault args_t)
  | [a0] => some (args_1 heap_grants a0)
  | [a0, a1] => some (args_2 heap_grants a0 a1)
  | [a0, a1, a2] => some (args_3 heap_grants a0 a1 a2)
  | [a0, a1, a2, a3] => some (args_4 heap_grants a0 a1 a2 a3)
  | [a0, a1, a2, a3, a4] => some (args_5 heap_grants a0 a1 a2 a3 a4)
  | [a0, a1, a2, a3, a4, a5] => some (args_6 heap_grants a0 a1 a2 a3 a4 a5)
  | [a0, a1, a2, a3, a4, a5, a6] => some (args_7 heap_grants a0 a1 a2 a3 a4 a5 a6)
  | [a0, a1, a2, a3, a4, a5, a6, a7] => some (args_8 heap_grants a0 a1 a2 a3 a4 a5 a6 a7)
  | [a0, a1, a2, a3, a4, a5, a6, a7, a8] => some (args_9 heap_grants a0 a1 a2 a3 a4 a5 a6 a7 a8)
  | [a0, a1, a2, a3, a4, a5, a6, a7, a8, a9] =>
    some (args_10 heap_grants a0 a1 a2 a3 a4 a5 a6 a7 a8 a9)
  | [a0, a1, a2, a3, a4, a5, a6, a7, a8, a9, a10] =>
    some (args_11 heap_grants a0 a1 a2 a3 a4 a5 a6 a7 a8 a9 a10)
  | [a0, a1, a2, a3, a4, a5, a6, a7, a8, a9, a10, a11] =>
    some (args_12 heap_grants a0 a1 a2 a3 a4 a5 a6 a7 a8 a9 a10 a11)
  | [a0, a1, a2, a3, a4, a5, a6, a7, a8, a9, a10, a11, a12] =>
    some (args_13 heap_grants a0 a1 a2 a3 a4 a5 a6 a7 a8 a9 a10 a11 a12)
  | _ => none

/-! ## Reference layout of packed arguments -/

/-- The offsets at which values laid out back to back from offset `p` start. -/
def arg_offsets : Nat → List (List Byte) → List Nat
  | _, [] => []
  | p, a :: ar => p :: arg_offsets (p + a.length) ar

/-- The sum of the sizes of the values of an argument list. -/
def total_size (ar : List (List Byte)) : Nat :=
  (ar.map List.length).sum

/-- The tightly packed result for an argument list: the block holds the
concatenation of the values' bytes, `first` is the start of the block and the
pointer array holds the offset of each value. -/
def packed (ar : List (List Byte)) : args_t :=
  { block := ar.flatten.map some, first := 0, second := (arg_offsets 0 ar).map some }

/-! ## OpenCL base device: lifecycle (`base/opencl/device.hpp`) -/

/-- The constructor `device::device()`: not initialized, ordinal `-1` as a
`std::size_t`; the handles are not assigned. -/
def device.default : device :=
  { initialized_ := false, ordinal_ := size_t_neg 1, device_ := none, context_ := none }

/-- The accessor `device::get_base_device() const`. -/
def device.get_base_device (d : device) : Except Fault (Option Nat) := do
  AURA_CHECK_INITIALIZED d.initialized_
  pure d.device_

/-- The accessor `device::get_base_context() const`. -/
def device.get_base_context (d : device) : Except Fault (Option Nat) := do
  AURA_CHECK_INITIALIZED d.initialized_
  pure d.context_

/-- The member `device::activate() const`. -/
def device.activate (d : device) : Except Fault Unit := do
  AURA_CHECK_INITIALIZED d.initialized_
  pure ()

/-- The member `device::deactivate() const`. -/
def device.deactivate (d : device) : Except Fault Unit := do
  AURA_CHECK_INITIALIZED d.initialized_
  pure ()

/-- The member `device::initialized() const`. -/
def device.initialized (d : device) : Bool :=
  d.initialized_

/-- The member `device::reset()`, compiled with `CL_VERSION_1_2` defined: the
new `*this` and the contexts handed to `clReleaseContext`. The driver call is
taken to return normally. -/
def device.reset (d : device) : device × List (Option Nat) :=
  if d.initialized_ then
    ({ d with initialized_ := false, ordinal_ := size_t_neg 1 }, [d.context_])
  else
    ({ d with ordinal_ := size_t_neg 1 }, [])

/-- The live objects of the OpenCL base `device` class by address, the
contexts handed to `clReleaseContext` so far (oldest first), and the number of
contexts the driver has created so far. -/
structure OpenCLWorld where
  objs : DeviceHeap
  released : List (Option Nat)
  next : Nat

/-- One step in the life of the device objects of a program: a default
construction at an address, a construction from an ordinal (with the error
code that the driver's context creation reports), a move construction, a move
assignment or a destruction. -/
inductive DeviceOp where
  | default_construct (addr : Nat)
  | construct (addr ordinal : Nat) (errorcode : Int)
  | move_construct (dst src : Nat)
  | move_assign (dst src : Nat)
  | destroy (addr : Nat)
  deriving DecidableEq, Repr

namespace OpenCLWorld

/-- No object, nothing released, no context created. -/
def empty : OpenCLWorld :=
  { objs := fun _ => none, released := [], next := 0 }

/-- The statement `device x;` for an `x` at the unused address `addr`. -/
def default_construct (w : OpenCLWorld) (addr : Nat) : OpenCLWorld :=
  match w.objs addr with
  | some _ => w
  | none => { w with objs := Function.update w.objs addr (some device.default) }

/-- The statement `device x(ordinal);` for an `x` at the unused address `addr`:
the constructor `device::device(std::size_t)` runs against a driver that lists
`platforms` and whose context creation returns a context never seen before and
`errorcode`. When the constructor does not return, there is no object. -/
def construct (platforms : List (List Nat)) (w : OpenCLWorld) (addr ordinal : Nat)
    (errorcode : Int) : OpenCLWorld :=
  match w.objs addr with
  | some _ => w
  | none =>
    match device.create
        { platforms := platforms, clCreateContext := fun _ => (some w.next, errorcode) }
        ordinal with
    | .error _ => { w with next := w.next + 1 }
    | .ok d =>
      { w with objs := Function.update w.objs addr (some d), next := w.next + 1 }

/-- The move constructor `device::device(device&& other)` for a new object at
the unused address `this` and a live `other`. -/
def move_construct (w : OpenCLWorld) (this other : Nat) : OpenCLWorld :=
  match w.objs this, w.objs other with
  | none, some o =>
    let objs := Function.update w.objs this
      (some { initialized_ := o.initialized_, ordinal_ := o.ordinal_, device_ := o.device_,
              context_ := o.context_ })
    let objs := Function.update objs other
      (some { o with initialized_ := false, ordinal_ := size_t_neg 1 })
    { w with objs := objs }
  | _, _ => w

/-- The move assignment `device::operator=(device&& other)` between live
objects, which may be the same object: `reset()`, then the four member
assignments from `other`, then the two assignments to `other`. -/
def move_assign (w : OpenCLWorld) (this other : Nat) : OpenCLWorld :=
  match w.objs this, w.objs other with
  | some t, some _ =>
    let r := t.reset
    let objs := Function.update w.objs this (some r.1)
    match objs other with
    | none => w
    | some o =>
      let objs := Function.update objs this
        (some { initialized_ := o.initialized_, ordinal_ := o.ordinal_, device_ := o.device_,
                context_ := o.context_ })
      match objs other with
      | none => w
      | some o =>
        let objs := Function.update objs other
          (some { o with initialized_ := false, ordinal_ := size_t_neg 1 })
        { w with objs := objs, released := w.released ++ r.2 }
  | _, _ => w

/-- The destructor `device::~device()` of the live object at `addr`, after
which the address is unused. -/
def destroy (w : OpenCLWorld) (addr : Nat) : OpenCLWorld :=
  match w.objs addr with
  | none => w
  | some d =>
    { w with objs := Function.update w.objs addr none,
             released := w.released ++ d.reset.2 }

/-- One step of a program. A step that C++ does not allow (constructing at a
used address, using an object that is not alive) leaves the world as it is. -/
def step (platforms : List (List Nat)) (w : OpenCLWorld) : DeviceOp → OpenCLWorld
  | .default_construct addr => w.default_construct addr
  | .construct addr ordinal errorcode => construct platforms w addr ordinal errorcode
  | .move_construct dst src => w.move_construct dst src
  | .move_assign dst src => w.move_assign dst src
  | .destroy addr => w.destroy addr

/-- A program: its steps in order, from the empty world. -/
def run (platforms : List (List Nat)) (ops : List DeviceOp) : OpenCLWorld :=
  ops.foldl (step platforms) empty

end OpenCLWorld

/-! ## Backend device with module cache (`backend/cuda/device.hpp`,
`backend/opencl/device.hpp`) -/

/-- What the backend device asks of the code that is not part of the class:
building a module and looking a kernel up in a module. A module and a kernel
are given by their handles; a build or a lookup that fails throws, as the
specification has it (`CompileError`, `NotFoundError`). -/
structure ModuleBackend where
  /-- The call `create_module_from_string(str, d, build_options)` (in the
  OpenCL class the constructor `module(str, d, build_options)`): the module, or
  the failure of the build. `none` is the null `build_options`. -/
  create_module_from_string : String → Option String → Except Fault Nat
  /-- The call `create_module_from_file(filename, d, build_options)`. -/
  create_module_from_file : String → Option String → Except Fault Nat
  /-- The call `m.get_kernel(kernel_name)`: the kernel, or the failure of the
  lookup. -/
  get_kernel : Nat → String → Except Fault Nat

/-- An invocation of the compiler. -/
inductive CompileCall where
  | from_string (str : String) (build_options : Option String)
  | from_file (filename : String) (build_options : Option String)
  deriving DecidableEq, Repr

/-- The data members of `backend_detail::cuda::device` and of
`backend_detail::opencl::device`: the context pointer (`none` is `nullptr`),
the ordinal (`none` while indeterminate), the module cache `modules_` as the
list of its entries, each key once, and the device lock (`none`: no lock
held). -/
structure backend_device where
  context_ : Option Nat
  ordinal_ : Option Nat
  modules_ : List (String × Nat)
  device_lock_ : Option Nat
  deriving DecidableEq, Repr

namespace backend_device

/-- The constructor `device()`: `context_(nullptr)`; the ordinal is not
initialized, the cache is empty and no lock is held. -/
def default : backend_device :=
  { context_ := none, ordinal_ := none, modules_ := [], device_lock_ := none }

/-- The constructor `device(std::size_t ordinal)`, given the context that
`new detail::context(ordinal)` returned. -/
def of_ordinal (context : Nat) (ordinal : Nat) : backend_device :=
  { context_ := some context, ordinal_ := some ordinal, modules_ := [], device_lock_ := none }

/-- The accessor `get_ordinal() const`, which is `return ordinal_;`. Reading
an ordinal that was never initialized is undefined. -/
def get_ordinal (d : backend_device) : Except Fault Nat :=
  match d.ordinal_ with
  | none => .error .undefined_behaviour
  | some o => .ok o

/-- The member `finalize()`: the contexts it deletes. -/
def finalize (d : backend_device) : List Nat :=
  match d.context_ with
  | some c => [c]
  | none => []

/-- The lookup `modules_.find(key)`. -/
def find (d : backend_device) (key : String) : Option Nat :=
  d.modules_.lookup key

/-- The member `load_from_string(kernel_name, kernel_string, build_options)`:
the new `*this`, the compiler invocations made, and the returned kernel or the
failure. -/
def load_from_string (env : ModuleBackend) (d : backend_device)
    (kernel_name kernel_string : String) (build_options : Option String) :
    backend_device × List CompileCall × Except Fault Nat :=
  match d.find kernel_string with
  | some m => (d, [], env.get_kernel m kernel_name)
  | none =>
    match env.create_module_from_string kernel_string build_options with
    | .error e => (d, [CompileCall.from_string kernel_string build_options], .error e)
    | .ok m =>
      ({ d with modules_ := d.modules_ ++ [(kernel_string, m)] },
        [CompileCall.from_string kernel_string build_options], env.get_kernel m kernel_name)

/-- The member `load_from_file(kernel_name, file_name, build_options)` of the
CUDA class. -/
def load_from_file (env : ModuleBackend) (d : backend_device)
    (kernel_name file_name : String) (build_options : Option String) :
    backend_device × List CompileCall × Except Fault Nat :=
  match d.find file_name with
  | some m => (d, [], env.get_kernel m kernel_name)
  | none =>
    match env.create_module_from_file file_name build_options with
    | .error e => (d, [CompileCall.from_file file_name build_options], .error e)
    | .ok m =>
      ({ d with modules_ := d.modules_ ++ [(file_name, m)] },
        [CompileCall.from_file file_name build_options], env.get_kernel m kernel_name)

end backend_device

/-- A call of `load_from_string`: kernel name, source text, build options. -/
structure LoadCall where
  kernel_name : String
  kernel_string : String
  build_options : Option String
  deriving DecidableEq, Repr

/-- A sequence of `load_from_string` calls on one device, in order: the device
afterwards and, for each call, the compiler invocations it made and its
outcome. -/
def run_loads (env : ModuleBackend) :
    backend_device → List LoadCall → backend_device × List (List CompileCall × Except Fault Nat)
  | d, [] => (d, [])
  | d, c :: cs =>
    let r := d.load_from_string env c.kernel_name c.kernel_string c.build_options
    let rest := run_loads env r.1 cs
    (rest.1, (r.2.1, r.2.2) :: rest.2)

/-- The live objects of the backend `device` class by address, the contexts
deleted so far (oldest first), and the number of contexts created so far. -/
structure BackendWorld where
  objs : Nat → Option backend_device
  released : List Nat
  next : Nat

namespace BackendWorld

/-- No object, nothing deleted, no context created. -/
def empty : BackendWorld :=
  { objs := fun _ => none, released := [], next := 0 }

/-- The statement `device x;` for an `x` at the unused address `addr`. -/
def default_construct (w : BackendWorld) (addr : Nat) : BackendWorld :=
  match w.objs addr with
  | some _ => w
  | none => { w with objs := Function.update w.objs addr (some backend_device.default) }

/-- The statement `device x(ordinal);` for an `x` at the unused address `addr`.
The constructor of `detail::context` is not part of the class: it returns a
context never seen before when `errorcode` is `0` and throws otherwise, in
which case there is no object. -/
def construct (w : BackendWorld) (addr ordinal : Nat) (errorcode : Int) : BackendWorld :=
  match w.objs addr with
  | some _ => w
  | none =>
    if errorcode = 0 then
      { w with objs := Function.update w.objs addr
                 (some (backend_device.of_ordinal w.next ordinal)),
               next := w.next + 1 }
    else { w with next := w.next + 1 }

/-- The move constructor `device(BOOST_RV_REF(device) d)` for a new object at
the unused address `this` and a live `d`. Moving the cache and the lock out of
`d` leaves `d` with an empty cache and no lock. -/
def move_construct (w : BackendWorld) (this d : Nat) : BackendWorld :=
  match w.objs this, w.objs d with
  | none, some o =>
    let objs := Function.update w.objs this
      (some { context_ := o.context_, ordinal_ := o.ordinal_, modules_ := o.modules_,
              device_lock_ := o.device_lock_ })
    let objs := Function.update objs d
      (some { o with context_ := none, modules_ := [], device_lock_ := none })
    { w with objs := objs }
  | _, _ => w

/-- The move assignment `operator=(BOOST_RV_REF(device) d)` between live
objects, which may be the same object: `finalize()`, the member assignments
from `d` (moving the cache and the lock out of `d`, which leaves `d` with
neither), then `d.context_ = nullptr` and `d.modules_.clear()`. -/
def move_assign (w : BackendWorld) (this d : Nat) : BackendWorld :=
  match w.objs this, w.objs d with
  | some t, some o =>
    let deleted := t.finalize
    let objs := Function.update w.objs this
      (some { context_ := o.context_, ordinal_ := o.ordinal_, modules_ := o.modules_,
              device_lock_ := o.device_lock_ })
    match objs d with
    | none => w
    | some o =>
      let objs := Function.update objs d
        (some { o with context_ := none, modules_ := [], device_lock_ := none })
      { w with objs := objs, released := w.released ++ deleted }
  | _, _ => w

/-- The destructor `~device()` of the live object at `addr`. -/
def destroy (w : BackendWorld) (addr : Nat) : BackendWorld :=
  match w.objs addr with
  | none => w
  | some d =>
    { w with objs := Function.update w.objs addr none,
             released := w.released ++ d.finalize }

/-- One step of a program. A step that C++ does not allow leaves the world as
it is. -/
def step (w : BackendWorld) : DeviceOp → BackendWorld
  | .default_construct addr => w.default_construct addr
  | .construct addr ordinal errorcode => w.construct addr ordinal errorcode
  | .move_construct dst src => w.move_construct dst src
  | .move_assign dst src => w.move_assign dst src
  | .destroy addr => w.destroy addr

/-- A program: its steps in order, from the empty world. -/
def run (ops : List DeviceOp) : BackendWorld :=
  ops.foldl step empty

end BackendWorld

/-! ## Ownership of contexts -/

/-- The context an OpenCL base device would hand to `clReleaseContext` when
destroyed, if any. -/
def device.held (d : device) : Option (Option Nat) :=
  if d.initialized_ then some d.context_ else none

/-- The context held by the live object at an address, if any. -/
def OpenCLWorld.held (w : OpenCLWorld) (addr : Nat) : Option (Option Nat) :=
  (w.objs addr).bind device.held

/-- The context held by the live object at an address, if any. -/
def BackendWorld.held (w : BackendWorld) (addr : Nat) : Option Nat :=
  (w.objs addr).bind backend_device.context_

/-- Sound ownership, for contexts named `mk 0, mk 1, ...` in the order of their
creation: no context was released twice, every released or held context was
created, no held context was released, and no context is held by two
objects. -/
def Owned {κ : Type} (mk : Nat → κ) (held : Nat → Option κ) (released : List κ)
    (next : Nat) : Prop :=
  released.Nodup ∧
  (∀ h ∈ released, ∃ k, k < next ∧ h = mk k) ∧
  (∀ a h, held a = some h → (∃ k, k < next ∧ h = mk k) ∧ h ∉ released) ∧
  (∀ a b h, held a = some h → held b = some h → a = b)

/-! ## Copy overloads (`aura/copy.hpp`, `boost/aura/copy.hpp`) -/

/-- Modelled from the spec: `device_array<T>` of the missing header
`device_array.hpp`, an allocation of `size()` elements whose iterators are
device pointers with advancing offsets; `begin_` is the offset of `begin()`. -/
structure device_array where
  size_ : Nat
  begin_ : Nat
  deriving DecidableEq, Repr

/-- A `std::vector<T>` on the host: the address of its first element and its
`size()`. -/
structure host_vector where
  data_ : Nat
  size_ : Nat
  deriving DecidableEq, Repr

/-- A position handed to a backend copy, counted in elements: a host address
or a device pointer offset. -/
inductive CopyPos where
  | host (p : Nat)
  | dev (p : Nat)
  deriving DecidableEq, Repr

/-- The element index of a position. -/
def CopyPos.pos : CopyPos → Nat
  | .host p => p
  | .dev p => p

/-- A call of a backend copy primitive (the feed argument is left out):
`backend::copy<T>(dst, src, count, f)` or `base::copy(first, last, dst, f)`. -/
inductive BackendCopy where
  | counted (dst src : CopyPos) (count : Nat)
  | range (first last dst : CopyPos)
  deriving DecidableEq, Repr

/-- The number of elements a backend copy is asked to move: `count`, or
`last - first`. -/
def BackendCopy.elements : BackendCopy → Nat
  | .counted _ _ count => count
  | .range first last _ => last.pos - first.pos

namespace device_array

/-- The member `size()`. -/
def size (a : device_array) : Nat := a.size_

/-- The member `begin()`. -/
def begin (a : device_array) : CopyPos := .dev a.begin_

/-- The member `end()`, which is `begin() + size()`. -/
def end_ (a : device_array) : CopyPos := .dev (a.begin_ + a.size_)

end device_array

namespace host_vector

/-- The member `begin()`. -/
def begin (v : host_vector) : CopyPos := .host v.data_

/-- The member `end()`. -/
def end_ (v : host_vector) : CopyPos := .host (v.data_ + v.size_)

/-- The expression `&v[0]`. -/
def data (v : host_vector) : CopyPos := .host v.data_

end host_vector

/-- The overload `copy(const T* src, device_array<T>& dst, backend::feed& f)` of
`aura/copy.hpp`: the backend call it makes. -/
def aura_copy_ptr_to_array (src : Nat) (dst : device_array) : BackendCopy :=
  .counted dst.begin (.host src) dst.size

/-- The overload `copy(const device_array<T>& src, T* dst, feed& f)`. -/
def aura_copy_array_to_ptr (src : device_array) (dst : Nat) : BackendCopy :=
  .counted (.host dst) src.begin src.size

/-- The overload `copy(const std::vector<T>& src, device_array<T>& dst, feed& f)`. -/
def aura_copy_vector_to_array (src : host_vector) (dst : device_array) : BackendCopy :=
  .counted dst.begin src.data dst.size

/-- The overload `copy(const device_array<T>& src, std::vector<T>& dst, feed& f)`. -/
def aura_copy_array_to_vector (src : device_array) (dst : host_vector) : BackendCopy :=
  .counted dst.data src.begin src.size

/-- The overload `copy(const device_array<T>& src, device_array<T>& dst, feed& f)`. -/
def aura_copy_array_to_array (src : device_array) (dst : device_array) : BackendCopy :=
  .counted dst.begin src.begin src.size

/-- The overload `copy(Iterator src, device_array<T>& dst, base::feed& f)` of
`boost/aura/copy.hpp`, `src` being the address `&(*src)`. -/
def boost_copy_iterator_to_array (src : Nat) (dst : device_array) : BackendCopy :=
  .range (.host src) (.host (src + dst.size)) dst.begin

/-- The overload `copy(const T* src, device_array<T>& dst, base::feed& f)`. -/
def boost_copy_ptr_to_array (src : Nat) (dst : device_array) : BackendCopy :=
  .range (.host src) (.host (src + dst.size)) dst.begin

/-- The overload `copy(const device_array<T>& src, T* dst, feed& f)`. -/
def boost_copy_array_to_ptr (src : device_array) (dst : Nat) : BackendCopy :=
  .range src.begin src.end_ (.host dst)

/-- The overload `copy(const std::vector<T>& src, device_array<T>& dst, feed& f)`. -/
def boost_copy_vector_to_array (src : host_vector) (dst : device_array) : BackendCopy :=
  .range src.begin src.end_ dst.begin

/-- The overload `copy(const device_array<T>& src, std::vector<T>& dst, feed& f)`. -/
def boost_copy_array_to_vector (src : device_array) (dst : host_vector) : BackendCopy :=
  .range src.begin src.end_ dst.data

/-- The overload `copy(const device_array<T>& src, device_array<T>& dst, feed& f)`. -/
def boost_copy_array_to_array (src : device_array) (dst : device_array) : BackendCopy :=
  .range src.begin src.end_ dst.begin

/-! ## Metal library (`base/metal/library.hpp`) -/

/-- The text that `s.c_str()` denotes as a C string: the characters of `s` up
to, not including, the first NUL character. -/
def c_str (s : String) : String :=
  String.mk (s.data.takeWhile (fun c => decide (c ≠ Char.ofNat 0)))

/-- What the Metal library asks its environment: the two preamble texts
`shared_alang_header::get()` and `alang_header::get()`, the content of a file
(`boost::aura::read_all`), and the compiler. -/
structure MetalLibraryBackend where
  shared_alang_header : String
  alang_header : String
  read_all : String → String
  /-- The message `[device newLibraryWithSource:source options:options error:&err]`
  for the device at an address: the library, or `nil`. `none` is `nil` options. -/
  newLibraryWithSource : Nat → String → Option String → Option Nat

/-- An invocation of the Metal compiler: the source text and the options
(`none` is `nil`). -/
structure MetalCompile where
  source : String
  options : Option String
  deriving DecidableEq, Repr

/-- The member `library::create_from_string(kernelstring, opt,
inject_aura_preamble)` of a library for the device at address `device_`: the
compiler invocations made and the new `library_`, or the failure of the check.
The source contains no use of the parameter `opt`. -/
def library_create_from_string (env : MetalLibraryBackend) (device_ : Nat)
    (kernelstring _opt : String) (inject_aura_preamble : Bool) :
    List MetalCompile × Except Fault (Option Nat) :=
  let kernelstring_with_preamble :=
    if inject_aura_preamble then
      "#define AURA_BASE_METAL\n" ++ env.shared_alang_header ++ "\n" ++ env.alang_header
        ++ "\n" ++ kernelstring
    else kernelstring
  let source := c_str kernelstring_with_preamble
  let library_ := env.newLibraryWithSource device_ source none
  let calls := [{ source := source, options := none : MetalCompile }]
  match AURA_METAL_CHECK_ERROR library_.isSome with
  | .error e => (calls, .error e)
  | .ok () => (calls, .ok library_)

/-- The constructor `library(const std::string& kernelstring, device& d,
inject_aura_preamble, options)`. -/
def library_of_string (env : MetalLibraryBackend) (kernelstring : String) (d : Nat)
    (inject_aura_preamble : Bool) (options : String) :
    List MetalCompile × Except Fault (Option Nat) :=
  library_create_from_string env d kernelstring options inject_aura_preamble

/-- The constructor `library(boost::aura::path p, device& d,
inject_aura_preamble, options)`. -/
def library_of_file (env : MetalLibraryBackend) (p : String) (d : Nat)
    (inject_aura_preamble : Bool) (options : String) :
    List MetalCompile × Except Fault (Option Nat) :=
  let kernelstring := env.read_all p
  library_create_from_string env d kernelstring options inject_aura_preamble

/-! ## Exclusive device creation (`backend/cuda/device.hpp`, `backend/opencl/device.hpp`) -/

/-- What `create_device_exclusive` asks of code that is not part of the class:
`device_get_count` is the number of devices the driver reports,
`create_device_lock ordinal` is the lock object that the function
`create_device_lock` of the missing header `boost/aura/device_lock.hpp` returns
for `ordinal` (`some token` for a lock that was acquired and converts to `true`,
`none` for one that converts to `false`), and `new_context ordinal` is the
context that `new detail::context(ordinal)` returns. -/
structure LockBackend where
  device_get_count : Nat
  create_device_lock : Nat → Option Nat
  new_context : Nat → Nat

/-- The constructor `device(std::size_t ordinal, device_lock& dl)`, given the
context that `new detail::context(ordinal)` returned. -/
def backend_device.of_ordinal_lock (context : Nat) (ordinal : Nat) (dl : Nat) :
    backend_device :=
  { context_ := some context, ordinal_ := some ordinal, modules_ := [], device_lock_ := some dl }

/-- The loop of `create_device_exclusive` from the counter value `n`, with
`remaining` iterations left before `n < device_get_count()` fails, followed by
the `throw "no device available!"` behind the loop. `num` is the local
`int num = device_get_count();`, and the body asks for `create_device_lock(num)`. -/
def create_device_exclusive_loop (env : LockBackend) (num : Nat) :
    Nat → Nat → Except Fault backend_device
  | 0, _ => .error .resource
  | remaining + 1, n =>
    match env.create_device_lock num with
    | some dl => .ok (backend_device.of_ordinal_lock (env.new_context n) n dl)
    | none => create_device_exclusive_loop env num remaining (n + 1)

/-- The function `create_device_exclusive()`. -/
def create_device_exclusive (env : LockBackend) : Except Fault backend_device :=
  let num := env.device_get_count
  create_device_exclusive_loop env num env.device_get_count 0

/-! ## Kernel index helpers (`aura/backend/cuda/kernel_helper.hpp`) -/

/-- The CUDA built-in types `dim3` and `uint3`: three `unsigned int`. -/
structure dim3 where
  x : Nat
  y : Nat
  z : Nat
  deriving DecidableEq, Repr

/-- Multiplication of two `unsigned int`. -/
def uint_mul (a b : Nat) : Nat := (a * b) % UINT_MOD

/-- Addition of two `unsigned int`. -/
def uint_add (a b : Nat) : Nat := (a + b) % UINT_MOD

/-- The device function `get_mesh_id()`, for the values of the built-in
variables `gridDim`, `blockIdx`, `blockDim` and `threadIdx` in the calling
thread. -/
def get_mesh_id (gridDim blockIdx blockDim threadIdx : dim3) : Nat :=
  uint_add
    (uint_add
      (uint_add
        (uint_mul
          (uint_add
            (uint_add (uint_mul (uint_mul gridDim.y gridDim.x) blockIdx.z)
              (uint_mul gridDim.x blockIdx.y))
            blockIdx.x)
          (uint_mul (uint_mul blockDim.z blockDim.y) blockDim.x))
        (uint_mul (uint_mul blockDim.y blockDim.x) threadIdx.z))
      (uint_mul blockDim.x threadIdx.y))
    threadIdx.x

/-- The device function `get_bundle_id()`. -/
def get_bundle_id (blockDim threadIdx : dim3) : Nat :=
  uint_add
    (uint_add (uint_mul (uint_mul blockDim.y blockDim.x) threadIdx.z)
      (uint_mul blockDim.x threadIdx.y))
    threadIdx.x

/-- The coordinates `idx` that a launch with the dimensions `dim` hands out:
each component is below the corresponding dimension. -/
def dim3.in_range (dim idx : dim3) : Prop :=
  idx.x < dim.x ∧ idx.y < dim.y ∧ idx.z < dim.z

instance (dim idx : dim3) : Decidable (dim3.in_range dim idx) := by
  unfold dim3.in_range
  infer_instance

/-- The number of coordinates in range of `dim`; for `blockDim` these are the
threads per block. -/
def dim3.volume (dim : dim3) : Nat := dim.x * dim.y * dim.z

/-- The linear index of the coordinates `idx` among those of `dim`, with `x`
running fastest; for `gridDim` and `blockIdx` this is the linear block index. -/
def dim3.linear (dim idx : dim3) : Nat :=
  dim.y * dim.x * idx.z + dim.x * idx.y + idx.x

/-! ## Pointer differences and calls of the increment operators
(`base/base_device_ptr.hpp`) -/

/-- Conversion of a `std::size_t` to the return type `std::ptrdiff_t`. -/
def to_ptrdiff (x : Nat) : Int :=
  if x % SIZE_T_MOD < 2 ^ 63 then ((x % SIZE_T_MOD : Nat) : Int)
  else ((x % SIZE_T_MOD : Nat) : Int) - 2 ^ 64

namespace base_device_ptr

variable {BaseType : Type}

/-- The operator `std::ptrdiff_t operator+(const base_device_ptr& b) const`. -/
def add_ptr (a b : base_device_ptr BaseType) : Int :=
  to_ptrdiff ((a.offset_ + b.offset_) % SIZE_T_MOD)

/-- The operator `std::ptrdiff_t operator-(const base_device_ptr& b) const`:
the difference `offset_ - b.offset_` of two `std::size_t`. -/
def sub_ptr (a b : base_device_ptr BaseType) : Int :=
  to_ptrdiff ((a.offset_ + size_t_neg b.offset_) % SIZE_T_MOD)

/-- A call `++p`: the object `p` after the call and the returned reference,
which is `*this`. -/
def pre_inc_call (p : base_device_ptr BaseType) :
    base_device_ptr BaseType × base_device_ptr BaseType :=
  (p.pre_inc, p.pre_inc)

/-- A call `--p`: the object `p` after the call and the returned reference. -/
def pre_dec_call (p : base_device_ptr BaseType) :
    base_device_ptr BaseType × base_device_ptr BaseType :=
  (p.pre_dec, p.pre_dec)

/-- A call `p++`: the object `p` after the call and the returned pointer. The
body is one `return` of a newly constructed pointer and assigns to no member. -/
def post_inc_call (p : base_device_ptr BaseType) :
    Except Fault (base_device_ptr BaseType × base_device_ptr BaseType) := do
  let r ← p.post_inc
  pure (p, r)

/-- A call `p--`: the object `p` after the call and the returned pointer. -/
def post_dec_call (p : base_device_ptr BaseType) :
    Except Fault (base_device_ptr BaseType × base_device_ptr BaseType) := do
  let r ← p.post_dec
  pure (p, r)

/-- The pointers a program can build: the results of the four constructors,
and what `reset`, the two assignments and the arithmetic operators make of
pointers built before. -/
inductive Reachable [Zero BaseType] : base_device_ptr BaseType → Prop
  | default : Reachable default
  | of_nullptr : Reachable of_nullptr
  | of_memory (m : BaseType) (d : Nat) (tag : memory_access_tag) :
      Reachable (of_memory m d tag)
  | of_memory_offset (m : BaseType) (o d : Nat) (tag : memory_access_tag) :
      Reachable (of_memory_offset m o d tag)
  | reset (p : base_device_ptr BaseType) : Reachable p → Reachable p.reset
  | assign (p b : base_device_ptr BaseType) :
      Reachable p → Reachable b → Reachable (p.assign b)
  | assign_nullptr (p : base_device_ptr BaseType) : Reachable p → Reachable p.assign_nullptr
  | add (p r : base_device_ptr BaseType) (b : Nat) :
      Reachable p → p.add b = .ok r → Reachable r
  | add_assign (p : base_device_ptr BaseType) (b : Nat) :
      Reachable p → Reachable (p.add_assign b)
  | pre_inc (p : base_device_ptr BaseType) : Reachable p → Reachable p.pre_inc
  | post_inc (p r : base_device_ptr BaseType) :
      Reachable p → p.post_inc = .ok r → Reachable r
  | sub (p r : base_device_ptr BaseType) (b : Nat) :
      Reachable p → p.sub b = .ok r → Reachable r
  | sub_assign (p : base_device_ptr BaseType) (b : Nat) :
      Reachable p → Reachable (p.sub_assign b)
  | pre_dec (p : base_device_ptr BaseType) : Reachable p → Reachable p.pre_dec
  | post_dec (p r : base_device_ptr BaseType) :
      Reachable p → p.post_dec = .ok r → Reachable r

end base_device_ptr

/-! ## Tiny vector (`bounds/tiny_vector.hpp`) -/

/-- The data members of `tiny_vector<T, max_size_>`: the count `size_` and the
`std::array<T, max_size_> data_`, given by the content of each slot; a slot
that was never written is `none`. -/
structure tiny_vector (T : Type) (max_size_ : Nat) where
  size_ : Nat
  data_ : Nat → Option T

namespace tiny_vector

variable {T : Type} {max_size_ : Nat}

/-- The constructor `tiny_vector()`, which is `size_(0)` and writes no slot. -/
def empty : tiny_vector T max_size_ :=
  { size_ := 0, data_ := fun _ => none }

/-- The member `push_back(const T& e)`, which is `data_[size_] = e; size_++;`:
the new `*this`. A write behind the last slot of the array is undefined. -/
def push_back (v : tiny_vector T max_size_) (e : T) : Except Fault (tiny_vector T max_size_) :=
  if v.size_ < max_size_ then
    .ok { size_ := (v.size_ + 1) % SIZE_T_MOD, data_ := Function.update v.data_ v.size_ (some e) }
  else .error .undefined_behaviour

/-- The value of `size_` after `size_--` on a `std::size_t`. -/
def size_t_dec (n : Nat) : Nat :=
  if n % SIZE_T_MOD = 0 then SIZE_T_MOD - 1 else n % SIZE_T_MOD - 1

/-- The member `pop_back()`, which is `size_--; return data_[size_];`: the new
`*this` and the returned element. Reading behind the array or a slot that
was never written is undefined. -/
def pop_back (v : tiny_vector T max_size_) : Except Fault (tiny_vector T max_size_ × T) :=
  let size := size_t_dec v.size_
  if size < max_size_ then
    match v.data_ size with
    | some e => .ok ({ size_ := size, data_ := v.data_ }, e)
    | none => .error .undefined_behaviour
  else .error .undefined_behaviour

/-- The member `operator[](const int& offset)`, which is `return data_[offset];`
without a check of `offset`. -/
def index (v : tiny_vector T max_size_) (offset : Int) : Except Fault T :=
  if 0 ≤ offset ∧ offset < max_size_ then
    match v.data_ offset.toNat with
    | some e => .ok e
    | none => .error .undefined_behaviour
  else .error .undefined_behaviour

/-- The member `size() const`. -/
def size (v : tiny_vector T max_size_) : Nat := v.size_

/-- The member `capacity() const`, which is `return max_size_;`. -/
def capacity (_v : tiny_vector T max_size_) : Nat := max_size_

/-- The member `clear()`, which is `size_ = 0;`. -/
def clear (v : tiny_vector T max_size_) : tiny_vector T max_size_ :=
  { size_ := 0, data_ := v.data_ }

/-- The algorithm `std::equal(first1, last1, first2)` on the slots
`first .. first + count` of two arrays of `max_size_` elements: the first
mismatch ends it. -/
def std_equal [DecidableEq T] (max_size_ : Nat) (a b : Nat → Option T) :
    Nat → Nat → Except Fault Bool
  | _, 0 => .ok true
  | first, count + 1 =>
    if first < max_size_ then
      match a first, b first with
      | some x, some y => if x = y then std_equal max_size_ a b (first + 1) count else .ok false
      | _, _ => .error .undefined_behaviour
    else .error .undefined_behaviour

/-- The member `operator==(const tiny_vector<T, AURA_TINY_VECTOR_MAX_SIZE>& b)`.
It reads the private members of `b`, so it is a member of the class with
`max_size_ = AURA_TINY_VECTOR_MAX_SIZE` only. -/
def eq [DecidableEq T] {AURA_TINY_VECTOR_MAX_SIZE : Nat}
    (a b : tiny_vector T AURA_TINY_VECTOR_MAX_SIZE) : Except Fault Bool :=
  if a.size_ = b.size_ then std_equal AURA_TINY_VECTOR_MAX_SIZE a.data_ b.data_ 0 a.size_
  else .ok false

/-- The member `operator!=`, which is `return !(*this == b);`. -/
def ne [DecidableEq T] {AURA_TINY_VECTOR_MAX_SIZE : Nat}
    (a b : tiny_vector T AURA_TINY_VECTOR_MAX_SIZE) : Except Fault Bool := do
  let r ← eq a b
  pure (!r)

end tiny_vector

/-! ## Calls of `args` (`backend/cuda/args.hpp`) -/

end Aura

/-! # Theorems -/

namespace Aura

/-! ## Facts about the machine integers -/

theorem size_t_mod_eq : SIZE_T_MOD = 18446744073709551616 := by
  decide

theorem uint_mod_eq : UINT_MOD = 4294967296 := by
  decide

/-- Adding the negation of `b` subtracts `b` modulo `2 ^ 64`. -/
theorem add_size_t_neg (o b : Nat) :
    (((o + size_t_neg b) % SIZE_T_MOD : Nat) : Int) = ((o : Int) - (b : Int)) % (2 ^ 64 : Int) := by
  unfold size_t_neg
  rw [size_t_mod_eq]
  omega

/-- Decrementing subtracts one modulo `2 ^ 64`. -/
theorem add_size_t_pred (o : Nat) :
    (((o + (SIZE_T_MOD - 1)) % SIZE_T_MOD : Nat) : Int) = ((o : Int) - 1) % (2 ^ 64 : Int) := by
  rw [size_t_mod_eq]
  omega

/-! ## Base device pointer -/

namespace base_device_ptr

variable {BaseType : Type}

/-- Two pointers in the null state compare equal. -/
theorem eq_of_null_state [Zero BaseType] [DecidableEq BaseType] (heap : DeviceHeap)
    (a b : base_device_ptr BaseType)
    (ha : a = { memory_ := 0, offset_ := 0, device_ := none, tag_ := .rw })
    (hb : b = { memory_ := 0, offset_ := 0, device_ := none, tag_ := .rw }) :
    eq heap a b = .ok true := by
  subst ha
  subst hb
  simp [eq]
  rfl

/-- C3: a default-constructed pointer, a pointer constructed from `nullptr` and
any pointer after `reset()` each compare equal to `nullptr` and compare equal
to each other (in either order), whatever the pointers were before `reset()`. -/
theorem null_pointers_compare_equal [Zero BaseType] [DecidableEq BaseType]
    (heap : DeviceHeap) (p q : base_device_ptr BaseType) :
    (default : base_device_ptr BaseType).eq_nullptr = true ∧
    (of_nullptr : base_device_ptr BaseType).eq_nullptr = true ∧
    p.reset.eq_nullptr = true ∧
    eq heap (default : base_device_ptr BaseType) of_nullptr = .ok true ∧
    eq heap (of_nullptr : base_device_ptr BaseType) default = .ok true ∧
    eq heap default p.reset = .ok true ∧
    eq heap p.reset default = .ok true ∧
    eq heap of_nullptr p.reset = .ok true ∧
    eq heap p.reset of_nullptr = .ok true ∧
    eq heap p.reset q.reset = .ok true := by
  refine ⟨?_, ?_, ?_, ?_, ?_, ?_, ?_, ?_, ?_, ?_⟩
  · simp [eq_nullptr, default]
  · simp [eq_nullptr, of_nullptr]
  · simp [eq_nullptr, reset]
  all_goals exact eq_of_null_state heap _ _ rfl rfl

/-- The properties a pointer `r` derived from `p` by arithmetic keeps: handle,
device reference and access tag. -/
theorem add_frame (p : base_device_ptr BaseType) (b d : Nat) (hd : p.device_ = some d) :
    p.add b = .ok { p with offset_ := (p.offset_ + b) % SIZE_T_MOD } := by
  cases p with
  | mk m o dev t =>
    simp only at hd
    subst hd
    rfl

/-- C4: for a pointer `p` with a non-null device and every `n`, the results of
`p + n`, `p - n`, `p += n`, `p -= n`, `++p` and `--p` have the handle, the device
reference and the access tag of `p`, and their offset is the offset of `p` plus
(respectively minus) `n` or `1`, modulo `2 ^ 64`. -/
theorem arithmetic_changes_only_offset (p : base_device_ptr BaseType) (n : Nat)
    (hd : p.device_ ≠ none) :
    (∃ r, p.add n = .ok r ∧ r.memory_ = p.memory_ ∧ r.device_ = p.device_ ∧
        r.tag_ = p.tag_ ∧ r.offset_ = (p.offset_ + n) % 2 ^ 64) ∧
    (∃ r, p.sub n = .ok r ∧ r.memory_ = p.memory_ ∧ r.device_ = p.device_ ∧
        r.tag_ = p.tag_ ∧ (r.offset_ : Int) = ((p.offset_ : Int) - (n : Int)) % 2 ^ 64) ∧
    ((p.add_assign n).memory_ = p.memory_ ∧ (p.add_assign n).device_ = p.device_ ∧
        (p.add_assign n).tag_ = p.tag_ ∧
        (p.add_assign n).offset_ = (p.offset_ + n) % 2 ^ 64) ∧
    ((p.sub_assign n).memory_ = p.memory_ ∧ (p.sub_assign n).device_ = p.device_ ∧
        (p.sub_assign n).tag_ = p.tag_ ∧
        ((p.sub_assign n).offset_ : Int) = ((p.offset_ : Int) - (n : Int)) % 2 ^ 64) ∧
    (p.pre_inc.memory_ = p.memory_ ∧ p.pre_inc.device_ = p.device_ ∧
        p.pre_inc.tag_ = p.tag_ ∧ p.pre_inc.offset_ = (p.offset_ + 1) % 2 ^ 64) ∧
    (p.pre_dec.memory_ = p.memory_ ∧ p.pre_dec.device_ = p.device_ ∧
        p.pre_dec.tag_ = p.tag_ ∧
        (p.pre_dec.offset_ : Int) = ((p.offset_ : Int) - 1) % 2 ^ 64) := by
  have hm : (2 : Nat) ^ 64 = SIZE_T_MOD := rfl
  rw [hm]
  cases p with
  | mk m o dev t =>
    cases dev with
    | none => exact absurd rfl hd
    | some d =>
    refine ⟨⟨_, rfl, rfl, rfl, rfl, rfl⟩, ⟨_, rfl, rfl, rfl, rfl, ?_⟩,
      ⟨rfl, rfl, rfl, rfl⟩, ⟨rfl, rfl, rfl, ?_⟩, ⟨rfl, rfl, rfl, rfl⟩, ⟨rfl, rfl, rfl, ?_⟩⟩
    · exact add_size_t_neg o n
    · exact add_size_t_neg o n
    · exact add_size_t_pred o

/-- C4, at a read-only pointer with handle 7 and offset 0 on the device at
address 1, moved by 3. -/
theorem arithmetic_changes_only_offset_witness :
    let p : base_device_ptr Nat := of_memory_offset 7 0 1 memory_access_tag.ro
    p.device_ ≠ none ∧
    (∃ r, p.add 3 = .ok r ∧ r.memory_ = p.memory_ ∧ r.device_ = p.device_ ∧
        r.tag_ = p.tag_ ∧ r.offset_ = (p.offset_ + 3) % 2 ^ 64) ∧
    (∃ r, p.sub 3 = .ok r ∧ r.memory_ = p.memory_ ∧ r.device_ = p.device_ ∧
        r.tag_ = p.tag_ ∧
        (r.offset_ : Int) = ((p.offset_ : Int) - ((3 : Nat) : Int)) % 2 ^ 64) ∧
    ((p.add_assign 3).memory_ = p.memory_ ∧ (p.add_assign 3).device_ = p.device_ ∧
        (p.add_assign 3).tag_ = p.tag_ ∧
        (p.add_assign 3).offset_ = (p.offset_ + 3) % 2 ^ 64) ∧
    ((p.sub_assign 3).memory_ = p.memory_ ∧ (p.sub_assign 3).device_ = p.device_ ∧
        (p.sub_assign 3).tag_ = p.tag_ ∧
        ((p.sub_assign 3).offset_ : Int) = ((p.offset_ : Int) - ((3 : Nat) : Int)) % 2 ^ 64) ∧
    (p.pre_inc.memory_ = p.memory_ ∧ p.pre_inc.device_ = p.device_ ∧
        p.pre_inc.tag_ = p.tag_ ∧ p.pre_inc.offset_ = (p.offset_ + 1) % 2 ^ 64) ∧
    (p.pre_dec.memory_ = p.memory_ ∧ p.pre_dec.device_ = p.device_ ∧
        p.pre_dec.tag_ = p.tag_ ∧
        (p.pre_dec.offset_ : Int) = ((p.offset_ : Int) - 1) % 2 ^ 64) :=
  ⟨by decide,
    arithmetic_changes_only_offset (of_memory_offset 7 0 1 memory_access_tag.ro) 3 (by decide)⟩

/-- C5: at the read-only pointer with handle 7 and offset 5 on the device at
address 1, the postfix increment returns a pointer whose access tag is
read-write, not the tag of the operand, while the postfix decrement returns one
that keeps the tag. -/
theorem post_inc_drops_tag :
    let p : base_device_ptr Nat := of_memory_offset 7 5 1 memory_access_tag.ro
    p.post_inc = .ok { memory_ := 7, offset_ := 6, device_ := some 1, tag_ := .rw } ∧
    p.post_dec = .ok { memory_ := 7, offset_ := 4, device_ := some 1, tag_ := .ro } ∧
    ¬ (∃ r, p.post_inc = .ok r ∧ r.tag_ = p.tag_) := by
  refine ⟨rfl, rfl, ?_⟩
  rintro ⟨r, hr, ht⟩
  have h : (of_memory_offset 7 5 1 memory_access_tag.ro : base_device_ptr Nat).post_inc
      = .ok { memory_ := 7, offset_ := 6, device_ := some 1, tag_ := .rw } := rfl
  rw [h] at hr
  cases hr
  exact absurd ht (by decide)

/-- C6, as stated, fails: two pointers with the same handle, offset and tag that
refer to two distinct device objects (addresses 1 and 2, different contexts),
both constructed for ordinal 0, compare equal. -/
theorem eq_ignores_device_identity :
    let heap : DeviceHeap := fun addr =>
      if addr = 1 then
        some { initialized_ := true, ordinal_ := 0, device_ := some 10, context_ := some 100 }
      else if addr = 2 then
        some { initialized_ := true, ordinal_ := 0, device_ := some 10, context_ := some 200 }
      else none
    let a : base_device_ptr Nat := of_memory 7 1 memory_access_tag.rw
    let b : base_device_ptr Nat := of_memory 7 2 memory_access_tag.rw
    eq heap a b = .ok true ∧ ne heap a b = .ok false ∧
      a.device_ ≠ b.device_ ∧ heap 1 ≠ heap 2 ∧
      ¬ (eq heap a b = .ok true ↔
          (a.device_ = b.device_ ∧ a.offset_ = b.offset_ ∧ a.memory_ = b.memory_ ∧
            a.tag_ = b.tag_)) := by
  intro heap a b
  have h1 : eq heap a b = .ok true := rfl
  have h2 : a.device_ ≠ b.device_ := by decide
  refine ⟨h1, rfl, h2, by decide, ?_⟩
  intro h
  exact h2 (h.mp h1).1

/-- C6, amended: for pointers whose non-null device references refer to
initialized devices, `a == b` returns, and it holds iff the device references
are both null or both non-null with equal device ordinals, and the offsets, the
handles and the tags are equal; `a != b` returns the negation. -/
theorem eq_iff_same_ordinal [DecidableEq BaseType] (heap : DeviceHeap)
    (a b : base_device_ptr BaseType)
    (ha : ∀ x, a.device_ = some x → ∃ d, heap x = some d ∧ d.initialized_ = true)
    (hb : ∀ x, b.device_ = some x → ∃ d, heap x = some d ∧ d.initialized_ = true) :
    ∃ r, eq heap a b = .ok r ∧ ne heap a b = .ok (!r) ∧
      (r = true ↔
        ((a.device_.bind heap).map device.ordinal_ = (b.device_.bind heap).map device.ordinal_ ∧
          a.offset_ = b.offset_ ∧ a.memory_ = b.memory_ ∧ a.tag_ = b.tag_)) := by
  cases a with
  | mk ma oa da ta =>
  cases b with
  | mk mb ob db tb =>
    cases da with
    | none =>
      cases db with
      | none =>
        refine ⟨_, rfl, rfl, ?_⟩
        simp [and_assoc]
      | some y =>
        obtain ⟨dy, hy, -⟩ := hb y rfl
        refine ⟨_, rfl, rfl, ?_⟩
        simp [hy]
    | some x =>
      obtain ⟨dx, hx, hix⟩ := ha x rfl
      cases db with
      | none =>
        refine ⟨_, rfl, rfl, ?_⟩
        simp [hx]
      | some y =>
        obtain ⟨dy, hy, hiy⟩ := hb y rfl
        refine ⟨decide (dx.ordinal_ = dy.ordinal_) && decide (oa = ob) &&
          decide (ma = mb) && decide (ta = tb), ?_, ?_, ?_⟩
        · simp [eq, deref_get_ordinal, device.get_ordinal, AURA_CHECK_INITIALIZED, hx, hy, hix,
            hiy, bind, Except.bind, pure, Except.pure]
        · simp [ne, eq, deref_get_ordinal, device.get_ordinal, AURA_CHECK_INITIALIZED, hx, hy,
            hix, hiy, bind, Except.bind, pure, Except.pure]
        · simp [hx, hy, and_assoc]

/-- C6, amended, at two pointers into the same buffer on two device objects for
ordinal 0. -/
theorem eq_iff_same_ordinal_witness :
    let heap : DeviceHeap := fun addr =>
      if addr = 1 then
        some { initialized_ := true, ordinal_ := 0, device_ := some 10, context_ := some 100 }
      else if addr = 2 then
        some { initialized_ := true, ordinal_ := 0, device_ := some 10, context_ := some 200 }
      else none
    let a : base_device_ptr Nat := of_memory 7 1 memory_access_tag.rw
    let b : base_device_ptr Nat := of_memory 7 2 memory_access_tag.rw
    (∀ x, a.device_ = some x → ∃ d, heap x = some d ∧ d.initialized_ = true) ∧
    (∀ x, b.device_ = some x → ∃ d, heap x = some d ∧ d.initialized_ = true) ∧
    ∃ r, eq heap a b = .ok r ∧ ne heap a b = .ok (!r) ∧
      (r = true ↔
        ((a.device_.bind heap).map device.ordinal_ = (b.device_.bind heap).map device.ordinal_ ∧
          a.offset_ = b.offset_ ∧ a.memory_ = b.memory_ ∧ a.tag_ = b.tag_)) := by
  intro heap a b
  have ha : ∀ x, a.device_ = some x → ∃ d, heap x = some d ∧ d.initialized_ = true := by
    intro x hx
    cases hx
    exact ⟨_, rfl, rfl⟩
  have hb : ∀ x, b.device_ = some x → ∃ d, heap x = some d ∧ d.initialized_ = true := by
    intro x hx
    cases hx
    exact ⟨_, rfl, rfl⟩
  exact ⟨ha, hb, eq_iff_same_ordinal heap a b ha hb⟩

end base_device_ptr

/-! ## Metal device pointer -/

/-- Assigning the integer `0` to a Metal handle empties it: `nil` buffer and
empty host pointer. Any other integer leaves the handle as it is. -/
theorem device_ptr_base_type.assign_int_zero (m : device_ptr_base_type) :
    m.assign_int 0 = { device_buffer := none, host_ptr := none } ∧
    ∀ a : Int, a ≠ 0 → m.assign_int a = m := by
  refine ⟨rfl, ?_⟩
  intro a ha
  unfold device_ptr_base_type.assign_int
  rw [if_neg ha]

/-- C7, as stated, fails: a Metal pointer with the buffer 1, the host
allocation 4096 and offset 5 on the device at address 1 is in the null state
after `device_free`, but the comparison `p == nullptr` has no value for it,
because `0 == memory_` does not compile for the Metal handle. -/
theorem freed_pointer_has_no_nullptr_comparison :
    (device_free
      (⟨⟨some 1, some 4096⟩, 5, some 1, memory_access_tag.ro⟩ : metal_device_ptr)) =
      (⟨⟨none, none⟩, 0, none, memory_access_tag.rw⟩ : metal_device_ptr) ∧
    metal_device_ptr.eq_nullptr (device_free
      (⟨⟨some 1, some 4096⟩, 5, some 1, memory_access_tag.ro⟩ : metal_device_ptr)) = none ∧
    metal_device_ptr.eq_nullptr (device_free
      (⟨⟨some 1, some 4096⟩, 5, some 1, memory_access_tag.ro⟩ : metal_device_ptr)) ≠ some true := by
  refine ⟨rfl, rfl, ?_⟩
  intro h
  cases h

/-- C7, amended: after `device_free(p)` a Metal pointer is in the null state
(null device, zero offset, `nil` buffer and empty host pointer, read-write
tag), it compares equal under `operator==` to every other freed pointer, and a
second `device_free` leaves it in that state. -/
theorem device_free_null_and_idempotent (heap : DeviceHeap) (p q : metal_device_ptr) :
    (device_free p).device_ = none ∧ (device_free p).offset_ = 0 ∧
    (device_free p).memory_ = { device_buffer := none, host_ptr := none } ∧
    (device_free p).tag_ = memory_access_tag.rw ∧
    base_device_ptr.eq heap (device_free p) (device_free q) = .ok true ∧
    device_free (device_free p) = device_free p :=
  ⟨rfl, rfl, rfl, rfl, rfl, rfl⟩

/-- The length that `device_malloc` computes, when rounding up does not
overflow. -/
theorem aligned_size_eq (nb : Nat) (h : nb < 2 ^ 64 - 16384) :
    (nb % SIZE_T_MOD + (16384 - nb % SIZE_T_MOD % 16384)) % SIZE_T_MOD
      = 16384 * (nb / 16384 + 1) := by
  rw [size_t_mod_eq]
  omega

/-- C8, as stated, fails: for `2 ^ 64 - 1` elements of one byte the product does
not overflow, yet the length requested from `posix_memalign` and from the
buffer constructor is `0`. And the pointer that a successful call returns, here
for 128 elements of 4 bytes, has no comparison with `nullptr`, because
`0 == memory_` does not compile for the Metal handle. -/
theorem device_malloc_length_wraps :
    let env : MetalBackend :=
      { posix_memalign := fun _ _ => (0, 4096),
        newBufferWithBytesNoCopy := fun _ _ length => if length = 0 then none else some 1 }
    (2 ^ 64 - 1) * 1 < 2 ^ 64 ∧
    (device_malloc 1 env (2 ^ 64 - 1) 1 memory_access_tag.rw).1 =
      [MetalCall.posix_memalign 16384 0, MetalCall.newBufferWithBytesNoCopy 1 4096 0] ∧
    ¬ ((2 ^ 64 - 1) * 1 ≤ 0) ∧
    (device_malloc 4 env 128 1 memory_access_tag.rw).2 =
      .ok (⟨⟨some 1, some 4096⟩, 0, some 1, memory_access_tag.rw⟩ : metal_device_ptr) ∧
    metal_device_ptr.eq_nullptr
      (⟨⟨some 1, some 4096⟩, 0, some 1, memory_access_tag.rw⟩ : metal_device_ptr) = none := by
  refine ⟨by norm_num, ?_, by norm_num, ?_, rfl⟩
  · simp [device_malloc, SIZE_T_MOD, AURA_METAL_CHECK_ERROR]
  · simp [device_malloc, SIZE_T_MOD, AURA_METAL_CHECK_ERROR, base_device_ptr.of_memory]

/-- C8, amended: when `count * sizeof(T)` is below `2 ^ 64 - 16384`, every
request `device_malloc` makes is for one length `L` that is a multiple of 16384
and at least `count * sizeof(T)`; a returned pointer has offset 0, device `d`,
the given tag, a handle that holds a buffer, and does not compare equal under
`operator==` to a freed pointer; and the call returns such a pointer as soon
as the host allocation and the buffer creation succeed. -/
theorem device_malloc_request (sizeof_T size d : Nat) (tag : memory_access_tag)
    (env : MetalBackend) (h : size * sizeof_T < 2 ^ 64 - 16384) :
    ∃ L, 16384 ∣ L ∧ size * sizeof_T ≤ L ∧
      (device_malloc sizeof_T env size d tag).1.head? = some (MetalCall.posix_memalign 16384 L) ∧
      (∀ c ∈ (device_malloc sizeof_T env size d tag).1,
        c = MetalCall.posix_memalign 16384 L ∨
        c = MetalCall.newBufferWithBytesNoCopy d (env.posix_memalign 16384 L).2 L) ∧
      (∀ p, (device_malloc sizeof_T env size d tag).2 = .ok p →
        p.offset_ = 0 ∧ p.device_ = some d ∧ p.tag_ = tag ∧
          p.memory_.device_buffer.isSome = true ∧
          ∀ (heap : DeviceHeap) (q : metal_device_ptr),
            base_device_ptr.eq heap p (device_free q) = .ok false) ∧
      (∀ b, (env.posix_memalign 16384 L).1 = 0 →
        env.newBufferWithBytesNoCopy d (env.posix_memalign 16384 L).2 L = some b →
        (device_malloc sizeof_T env size d tag).2 =
          .ok { memory_ := { device_buffer := some b,
                             host_ptr := some (env.posix_memalign 16384 L).2 },
                offset_ := 0, device_ := some d, tag_ := tag }) := by
  refine ⟨16384 * (size * sizeof_T / 16384 + 1), Dvd.intro _ rfl, by omega, ?_⟩
  have hL := aligned_size_eq (size * sizeof_T) h
  unfold device_malloc
  simp only [hL]
  generalize 16384 * (size * sizeof_T / 16384 + 1) = L
  rcases hr : env.posix_memalign 16384 L with ⟨err, host⟩
  by_cases herr : err = 0
  · subst herr
    cases hb : env.newBufferWithBytesNoCopy d host L with
    | none =>
      simp [AURA_METAL_CHECK_ERROR, hb]
    | some buf =>
      simp [AURA_METAL_CHECK_ERROR, hb, base_device_ptr.of_memory]
      intro heap q
      rfl
  · simp [AURA_METAL_CHECK_ERROR, herr]

/-- C8, amended, at 128 elements of 4 bytes on a backend that grants every
request. -/
theorem device_malloc_request_witness :
    let env : MetalBackend :=
      { posix_memalign := fun _ _ => (0, 4096),
        newBufferWithBytesNoCopy := fun _ _ _ => some 1 }
    128 * 4 < 2 ^ 64 - 16384 ∧
    ∃ L, 16384 ∣ L ∧ 128 * 4 ≤ L ∧
      (device_malloc 4 env 128 1 memory_access_tag.ro).1.head?
        = some (MetalCall.posix_memalign 16384 L) ∧
      (∀ c ∈ (device_malloc 4 env 128 1 memory_access_tag.ro).1,
        c = MetalCall.posix_memalign 16384 L ∨
        c = MetalCall.newBufferWithBytesNoCopy 1 (env.posix_memalign 16384 L).2 L) ∧
      (∀ p, (device_malloc 4 env 128 1 memory_access_tag.ro).2 = .ok p →
        p.offset_ = 0 ∧ p.device_ = some 1 ∧ p.tag_ = memory_access_tag.ro ∧
          p.memory_.device_buffer.isSome = true ∧
          ∀ (heap : DeviceHeap) (q : metal_device_ptr),
            base_device_ptr.eq heap p (device_free q) = .ok false) ∧
      (∀ b, (env.posix_memalign 16384 L).1 = 0 →
        env.newBufferWithBytesNoCopy 1 (env.posix_memalign 16384 L).2 L = some b →
        (device_malloc 4 env 128 1 memory_access_tag.ro).2 =
          .ok { memory_ := { device_buffer := some b,
                             host_ptr := some (env.posix_memalign 16384 L).2 },
                offset_ := 0, device_ := some 1, tag_ := memory_access_tag.ro }) :=
  ⟨by norm_num, device_malloc_request 4 128 1 memory_access_tag.ro _ (by norm_num)⟩

/-! ## OpenCL device construction -/

/-- The loop of `device::num()` adds the number of listed devices, modulo
`2 ^ 64`. -/
theorem device.num_loop_eq (ps : List (List Nat)) (n : Nat) :
    device.num_loop ps n = (n + ps.flatten.length) % SIZE_T_MOD ∨
      (ps = [] ∧ device.num_loop ps n = n) := by
  induction ps generalizing n with
  | nil => exact Or.inr ⟨rfl, rfl⟩
  | cons p rest ih =>
    left
    simp only [device.num_loop, device.get_num_devices_platform, List.flatten_cons,
      List.length_append]
    rcases ih ((n + p.length) % SIZE_T_MOD) with h | ⟨h1, h2⟩
    · rw [h, Nat.mod_add_mod, Nat.add_assoc]
    · rw [h2, h1]
      simp

/-- With fewer than `2 ^ 64` devices listed, `device::num()` is their number. -/
theorem device.num_eq (env : OpenCLBackend) (h : env.platforms.flatten.length < SIZE_T_MOD) :
    device.num env = env.platforms.flatten.length := by
  unfold device.num
  split
  · next h0 =>
    have : env.platforms = [] := List.length_eq_zero.mp h0
    simp [this]
  · rcases device.num_loop_eq env.platforms 0 with h1 | ⟨h1, h2⟩
    · rw [h1, Nat.zero_add, Nat.mod_eq_of_lt h]
    · rw [h2, h1]
      rfl

/-- The loop of the constructor leaves `device_` as it is when the ordinal is
not below the number of devices still to come plus the running count. -/
theorem device.find_device_beyond (ordinal : Nat) (hhi : ordinal < 2 ^ 32)
    (ps : List (List Nat)) (nd : Nat) (dev : Option Nat)
    (h : nd + ps.flatten.length ≤ ordinal) :
    device.find_device ordinal ps nd dev = .ok dev := by
  induction ps generalizing nd with
  | nil => rfl
  | cons p rest ih =>
    simp only [List.flatten_cons, List.length_append] at h
    unfold device.find_device
    simp only [device.get_num_devices_platform, uint_mod_eq]
    have h1 : (nd + p.length) % 4294967296 = nd + p.length := Nat.mod_eq_of_lt (by omega)
    have h2 : ordinal % 4294967296 = ordinal := Nat.mod_eq_of_lt (by omega)
    rw [h1, h2]
    split
    · exact ih nd (by omega)
    · split
      · omega
      · exact ih (nd + p.length) (by omega)

/-- C9: with two platforms of one device each, ordinal 0 is in range and names
the device of the first platform, but the loop of the constructor goes on to
the second platform and indexes its device list at `0 - 1`, outside the list:
the construction is undefined instead of succeeding. -/
theorem create_indexes_out_of_range :
    let env : OpenCLBackend :=
      { platforms := [[10], [20]],
        clCreateContext := fun dev => if dev.isSome then (some 100, 0) else (none, -33) }
    device.num env = 2 ∧ enumerated_device env 0 = some 10 ∧
    (0 + size_t_neg 1) % SIZE_T_MOD = 2 ^ 64 - 1 ∧
    device.find_device 0 env.platforms 0 none = .error .undefined_behaviour ∧
    device.create env 0 = .error .undefined_behaviour := by
  refine ⟨by decide, by decide, by decide, ?_, ?_⟩
  · simp [device.find_device, device.get_num_devices_platform, UINT_MOD, SIZE_T_MOD, size_t_neg]
  · simp [device.create, device.find_device, device.get_num_devices_platform, UINT_MOD,
      SIZE_T_MOD, size_t_neg]

/-- C10, as stated, fails: with one device, ordinal 1 is out of range; the
constructor performs no range check, hands the never assigned device handle to
the driver, and the failure is the driver's error, not the resource error. -/
theorem create_out_of_range_backend_error :
    let env : OpenCLBackend :=
      { platforms := [[10]],
        clCreateContext := fun dev => if dev.isSome then (some 100, 0) else (none, -33) }
    device.num env = 1 ∧ ¬ (1 < device.num env) ∧
    device.find_device 1 env.platforms 0 none = .ok none ∧
    device.create env 1 = .error (.backend (-33)) ∧
    device.create env 1 ≠ .error .resource := by
  have h : device.create
      { platforms := [[10]],
        clCreateContext := fun dev => if dev.isSome then (some 100, 0) else (none, -33) } 1
      = .error (.backend (-33)) := by
    simp [device.create, device.find_device, device.get_num_devices_platform, UINT_MOD,
      AURA_OPENCL_CHECK_ERROR]
  refine ⟨by decide, by decide, ?_, h, ?_⟩
  · simp [device.find_device, device.get_num_devices_platform, UINT_MOD]
  · rw [h]
    simp

/-- C10, amended: with at least one platform and an ordinal below `2 ^ 32` that
is not below the number of devices, the constructor selects no device and asks
the driver for a context on the never assigned handle; it fails exactly when
the driver reports an error, with that backend error, and never with the
resource error. -/
theorem create_out_of_range (env : OpenCLBackend) (ordinal : Nat)
    (hp : env.platforms.length ≠ 0) (hlo : env.platforms.flatten.length ≤ ordinal)
    (hhi : ordinal < 2 ^ 32) :
    device.num env = env.platforms.flatten.length ∧
    device.find_device ordinal env.platforms 0 none = .ok none ∧
    device.create env ordinal =
      (if (env.clCreateContext none).2 = 0 then
        .ok { initialized_ := true, ordinal_ := ordinal, device_ := none,
              context_ := (env.clCreateContext none).1 }
      else .error (.backend (env.clCreateContext none).2)) ∧
    device.create env ordinal ≠ .error .resource := by
  have hf := device.find_device_beyond ordinal hhi env.platforms 0 none (by omega)
  have hn : device.num env = env.platforms.flatten.length :=
    device.num_eq env (by rw [size_t_mod_eq]; omega)
  have hc : device.create env ordinal =
      (if (env.clCreateContext none).2 = 0 then
        .ok { initialized_ := true, ordinal_ := ordinal, device_ := none,
              context_ := (env.clCreateContext none).1 }
      else .error (.backend (env.clCreateContext none).2)) := by
    unfold device.create
    simp only [hp, hf, AURA_OPENCL_CHECK_ERROR, if_false]
    by_cases hc : (env.clCreateContext none).2 = 0
    · simp only [hc, if_true]
    · simp only [hc, if_false]
  refine ⟨hn, hf, hc, ?_⟩
  rw [hc]
  split <;> simp

/-- C10, amended, at one platform with one device and ordinal 1. -/
theorem create_out_of_range_witness :
    let env : OpenCLBackend :=
      { platforms := [[10]],
        clCreateContext := fun dev => if dev.isSome then (some 100, 0) else (none, -33) }
    env.platforms.length ≠ 0 ∧ env.platforms.flatten.length ≤ 1 ∧ 1 < 2 ^ 32 ∧
    device.num env = env.platforms.flatten.length ∧
    device.find_device 1 env.platforms 0 none = .ok none ∧
    device.create env 1 =
      (if (env.clCreateContext none).2 = 0 then
        .ok { initialized_ := true, ordinal_ := 1, device_ := none,
              context_ := (env.clCreateContext none).1 }
      else .error (.backend (env.clCreateContext none).2)) ∧
    device.create env 1 ≠ .error .resource :=
  ⟨by decide, by decide, by norm_num,
    create_out_of_range _ 1 (by decide) (by decide) (by norm_num)⟩

/-! ## Kernel argument packing -/

/-- Copying a value right behind the written prefix of a block extends the
prefix by the bytes of the value. -/
theorem memcpy_step (done : List Byte) (k dest : Nat) (a : List Byte)
    (hd : dest = done.length) (hk : a.length ≤ k) :
    memcpy (done.map some ++ List.replicate k none) dest a
      = .ok ((done ++ a).map some ++ List.replicate (k - a.length) none) := by
  subst hd
  unfold memcpy
  have hlen : done.length + a.length ≤ (done.map some ++ List.replicate k none).length := by
    simp
    omega
  rw [if_pos hlen]
  congr 1
  have h1 : (List.map some done ++ List.replicate k (none : Option Byte)).take done.length
      = List.map some done := by
    rw [List.take_append_eq_append_take]
    simp
  have h2 : (List.map some done ++ List.replicate k (none : Option Byte)).drop
      (done.length + a.length) = List.replicate (k - a.length) none := by
    rw [List.drop_append_eq_append_drop]
    simp
  rw [h1, h2]
  simp

/-- Storing a pointer in the first free entry of the pointer array. -/
theorem store_arg_step (ptrs : List Nat) (k it p : Nat) (hi : it = ptrs.length) :
    store_arg (ptrs.map some ++ List.replicate (k + 1) none) it p
      = .ok ((ptrs ++ [p]).map some ++ List.replicate k none) := by
  subst hi
  unfold store_arg
  have hlen : ptrs.length < (ptrs.map some ++ List.replicate (k + 1) none).length := by
    simp
  rw [if_pos hlen]
  congr 1
  rw [List.set_append_right _ _ (by simp)]
  simp [List.replicate_succ]

theorem total_size_cons (a : List Byte) (ar : List (List Byte)) :
    total_size (a :: ar) = a.length + total_size ar := by
  simp [total_size]

theorem total_size_eq_length_flatten (ar : List (List Byte)) :
    total_size ar = ar.flatten.length := by
  induction ar with
  | nil => rfl
  | cons a ar ih => simp [total_size_cons, ih]

/-- The recursion `fill_args_`, started behind a written prefix with as many
free bytes and free entries as the remaining values need, writes the values
back to back and records where each one starts. -/
theorem fill_args_spec (ar : List (List Byte)) (a0 : List Byte) (done : List Byte)
    (ptrs : List Nat) :
    fill_args_ (done.map some ++ List.replicate (total_size (a0 :: ar)) none)
        (ptrs.map some ++ List.replicate (ar.length + 1) none) done.length ptrs.length a0 ar
      = .ok ((done ++ (a0 :: ar).flatten).map some,
          (ptrs ++ arg_offsets done.length (a0 :: ar)).map some) := by
  induction ar generalizing a0 done ptrs with
  | nil =>
    unfold fill_args_
    rw [memcpy_step done _ _ a0 rfl (by simp [total_size])]
    rw [List.length_nil, store_arg_step ptrs 0 _ _ rfl]
    simp [total_size, arg_offsets, bind, Except.bind, pure, Except.pure]
  | cons a1 ar ih =>
    unfold fill_args_
    rw [memcpy_step done _ _ a0 rfl (by rw [total_size_cons]; omega)]
    rw [List.length_cons, store_arg_step ptrs (ar.length + 1) _ _ rfl]
    simp only [bind, Except.bind]
    have h1 : total_size (a0 :: a1 :: ar) - a0.length = total_size (a1 :: ar) := by
      rw [total_size_cons]
      omega
    have h2 : done.length + a0.length = (done ++ a0).length := by simp
    have h3 : ptrs.length + 1 = (ptrs ++ [done.length]).length := by simp
    rw [h1, h2, h3, ih a1 (done ++ a0) (ptrs ++ [done.length])]
    simp [arg_offsets]

/-- The variadic `args` returns the tightly packed result whenever the total
size fits `std::size_t` and the heap grants the block. -/
theorem args_eq_packed (heap_grants : Nat → Bool) (ar : List (List Byte)) (h1 : 1 ≤ ar.length)
    (hsz : total_size ar < 2 ^ 64) (hg : heap_grants (total_size ar) = true) :
    args heap_grants ar = some (.ok (packed ar)) := by
  cases ar with
  | nil => simp at h1
  | cons a0 ar =>
    have hm : tsizeof (a0 :: ar) = total_size (a0 :: ar) := by
      unfold tsizeof
      rw [size_t_mod_eq]
      exact Nat.mod_eq_of_lt hsz
    have hf := fill_args_spec ar a0 [] []
    simp only [List.map_nil, List.nil_append, List.length_nil] at hf
    simp only [args, hm, malloc, hg, if_true, List.length_cons, hf, bind, Except.bind, pure,
      Except.pure, packed]

/-- The overload of `args` with 1 parameter returns the tightly packed result. -/
theorem args_1_eq_packed (heap_grants : Nat → Bool) (a0 : List Byte)
    (hsz : total_size [a0] < 2 ^ 64)
    (hg : heap_grants (total_size [a0]) = true) :
    args_1 heap_grants a0 = .ok (packed [a0]) := by
  simp only [total_size, List.map, List.sum_cons, List.sum_nil, Nat.add_zero] at hsz hg
  norm_num at hsz
  try simp only [← Nat.add_assoc] at hg
  unfold args_1
  simp only [size_t_mod_eq, Nat.zero_add]
  simp (disch := omega) only [Nat.mod_eq_of_lt, ← Nat.add_assoc]
  simp only [malloc, hg, if_true]
  rw [show ∀ n, List.replicate n (none : Option Byte)
    = List.map some ([] : List Byte) ++ List.replicate n none from fun _ => rfl]
  simp (disch := first | omega | (simp only [List.length_append, List.length_nil] <;> omega))
    only [memcpy_step, bind, Except.bind]
  simp (disch := omega) only [Nat.sub_eq_zero_of_le]
  simp [packed, arg_offsets, args_tt, pure, Except.pure]

/-- The overload of `args` with 2 parameters returns the tightly packed result. -/
theorem args_2_eq_packed (heap_grants : Nat → Bool) (a0 a1 : List Byte)
    (hsz : total_size [a0, a1] < 2 ^ 64)
    (hg : heap_grants (total_size [a0, a1]) = true) :
    args_2 heap_grants a0 a1 = .ok (packed [a0, a1]) := by
  simp only [total_size, List.map, List.sum_cons, List.sum_nil, Nat.add_zero] at hsz hg
  norm_num at hsz
  try simp only [← Nat.add_assoc] at hg
  unfold args_2
  simp only [size_t_mod_eq, Nat.zero_add]
  simp (disch := omega) only [Nat.mod_eq_of_lt, ← Nat.add_assoc]
  simp only [malloc, hg, if_true]
  rw [show ∀ n, List.replicate n (none : Option Byte)
    = List.map some ([] : List Byte) ++ List.replicate n none from fun _ => rfl]
  simp (disch := first | omega | (simp only [List.length_append, List.length_nil] <;> omega))
    only [memcpy_step, bind, Except.bind]
  simp (disch := omega) only [Nat.sub_eq_zero_of_le]
  simp [packed, arg_offsets, args_tt, pure, Except.pure]

/-- The overload of `args` with 3 parameters returns the tightly packed result. -/
theorem args_3_eq_packed (heap_grants : Nat → Bool) (a0 a1 a2 : List Byte)
    (hsz : total_size [a0, a1, a2] < 2 ^ 64)
    (hg : heap_grants (total_size [a0, a1, a2]) = true) :
    args_3 heap_grants a0 a1 a2 = .ok (packed [a0, a1, a2]) := by
  simp only [total_size, List.map, List.sum_cons, List.sum_nil, Nat.add_zero] at hsz hg
  norm_num at hsz
  try simp only [← Nat.add_assoc] at hg
  unfold args_3
  simp only [size_t_mod_eq, Nat.zero_add]
  simp (disch := omega) only [Nat.mod_eq_of_lt, ← Nat.add_assoc]
  simp only [malloc, hg, if_true]
  rw [show ∀ n, List.replicate n (none : Option Byte)
    = List.map some ([] : List Byte) ++ List.replicate n none from fun _ => rfl]
  simp (disch := first | omega | (simp only [List.length_append, List.length_nil] <;> omega))
    only [memcpy_step, bind, Except.bind]
  simp (disch := omega) only [Nat.sub_eq_zero_of_le]
  simp [packed, arg_offsets, args_tt, pure, Except.pure]

/-- The overload of `args` with 4 parameters returns the tightly packed result. -/
theorem args_4_eq_packed (heap_grants : Nat → Bool) (a0 a1 a2 a3 : List Byte)
    (hsz : total_size [a0, a1, a2, a3] < 2 ^ 64)
    (hg : heap_grants (total_size [a0, a1, a2, a3]) = true) :
    args_4 heap_grants a0 a1 a2 a3 = .ok (packed [a0, a1, a2, a3]) := by
  simp only [total_size, List.map, List.sum_cons, List.sum_nil, Nat.add_zero] at hsz hg
  norm_num at hsz
  try simp only [← Nat.add_assoc] at hg
  unfold args_4
  simp only [size_t_mod_eq, Nat.zero_add]
  simp (disch := omega) only [Nat.mod_eq_of_lt, ← Nat.add_assoc]
  simp only [malloc, hg, if_true]
  rw [show ∀ n, List.replicate n (none : Option Byte)
    = List.map some ([] : List Byte) ++ List.replicate n none from fun _ => rfl]
  simp (disch := first | omega | (simp only [List.length_append, List.length_nil] <;> omega))
    only [memcpy_step, bind, Except.bind]
  simp (disch := omega) only [Nat.sub_eq_zero_of_le]
  simp [packed, arg_offsets, args_tt, pure, Except.pure]

/-- The overload of `args` with 5 parameters returns the tightly packed result. -/
theorem args_5_eq_packed (heap_grants : Nat → Bool) (a0 a1 a2 a3 a4 : List Byte)
    (hsz : total_size [a0, a1, a2, a3, a4] < 2 ^ 64)
    (hg : heap_grants (total_size [a0, a1, a2, a3, a4]) = true) :
    args_5 heap_grants a0 a1 a2 a3 a4 = .ok (packed [a0, a1, a2, a3, a4]) := by
  simp only [total_size, List.map, List.sum_cons, List.sum_nil, Nat.add_zero] at hsz hg
  norm_num at hsz
  try simp only [← Nat.add_assoc] at hg
  unfold args_5
  simp only [size_t_mod_eq, Nat.zero_add]
  simp (disch := omega) only [Nat.mod_eq_of_lt, ← Nat.add_assoc]
  simp only [malloc, hg, if_true]
  rw [show ∀ n, List.replicate n (none : Option Byte)
    = List.map some ([] : List Byte) ++ List.replicate n none from fun _ => rfl]
  simp (disch := first | omega | (simp only [List.length_append, List.length_nil] <;> omega))
    only [memcpy_step, bind, Except.bind]
  simp (disch := omega) only [Nat.sub_eq_zero_of_le]
  simp [packed, arg_offsets, args_tt, pure, Except.pure]

/-- The overload of `args` with 6 parameters returns the tightly packed result. -/
theorem args_6_eq_packed (heap_grants : Nat → Bool) (a0 a1 a2 a3 a4 a5 : List Byte)
    (hsz : total_size [a0, a1, a2, a3, a4, a5] < 2 ^ 64)
    (hg : heap_grants (total_size [a0, a1, a2, a3, a4, a5]) = true) :
    args_6 heap_grants a0 a1 a2 a3 a4 a5 = .ok (packed [a0, a1, a2, a3, a4, a5]) := by
  simp only [total_size, List.map, List.sum_cons, List.sum_nil, Nat.add_zero] at hsz hg
  norm_num at hsz
  try simp only [← Nat.add_assoc] at hg
  unfold args_6
  simp only [size_t_mod_eq, Nat.zero_add]
  simp (disch := omega) only [Nat.mod_eq_of_lt, ← Nat.add_assoc]
  simp only [malloc, hg, if_true]
  rw [show ∀ n, List.replicate n (none : Option Byte)
    = List.map some ([] : List Byte) ++ List.replicate n none from fun _ => rfl]
  simp (disch := first | omega | (simp only [List.length_append, List.length_nil] <;> omega))
    only [memcpy_step, bind, Except.bind]
  simp (disch := omega) only [Nat.sub_eq_zero_of_le]
  simp [packed, arg_offsets, args_tt, pure, Except.pure]

/-- The overload of `args` with 7 parameters returns the tightly packed result. -/
theorem args_7_eq_packed (heap_grants : Nat → Bool) (a0 a1 a2 a3 a4 a5 a6 : List Byte)
    (hsz : total_size [a0, a1, a2, a3, a4, a5, a6] < 2 ^ 64)
    (hg : heap_grants (total_size [a0, a1, a2, a3, a4, a5, a6]) = true) :
    args_7 heap_grants a0 a1 a2 a3 a4 a5 a6 = .ok (packed [a0, a1, a2, a3, a4, a5, a6]) := by
  simp only [total_size, List.map, List.sum_cons, List.sum_nil, Nat.add_zero] at hsz hg
  norm_num at hsz
  try simp only [← Nat.add_assoc] at hg
  unfold args_7
  simp only [size_t_mod_eq, Nat.zero_add]
  simp (disch := omega) only [Nat.mod_eq_of_lt, ← Nat.add_assoc]
  simp only [malloc, hg, if_true]
  rw [show ∀ n, List.replicate n (none : Option Byte)
    = List.map some ([] : List Byte) ++ List.replicate n none from fun _ => rfl]
  simp (disch := first | omega | (simp only [List.length_append, List.length_nil] <;> omega))
    only [memcpy_step, bind, Except.bind]
  simp (disch := omega) only [Nat.sub_eq_zero_of_le]
  simp [packed, arg_offsets, args_tt, pure, Except.pure]

/-- The overload of `args` with 8 parameters returns the tightly packed result. -/
theorem args_8_eq_packed (heap_grants : Nat → Bool) (a0 a1 a2 a3 a4 a5 a6 a7 : List Byte)
    (hsz : total_size [a0, a1, a2, a3, a4, a5, a6, a7] < 2 ^ 64)
    (hg : heap_grants (total_size [a0, a1, a2, a3, a4, a5, a6, a7]) = true) :
    args_8 heap_grants a0 a1 a2 a3 a4 a5 a6 a7 = .ok (packed [a0, a1, a2, a3, a4, a5, a6, a7]) := by
  simp only [total_size, List.map, List.sum_cons, List.sum_nil, Nat.add_zero] at hsz hg
  norm_num at hsz
  try simp only [← Nat.add_assoc] at hg
  unfold args_8
  simp only [size_t_mod_eq, Nat.zero_add]
  simp (disch := omega) only [Nat.mod_eq_of_lt, ← Nat.add_assoc]
  simp only [malloc, hg, if_true]
  rw [show ∀ n, List.replicate n (none : Option Byte)
    = List.map some ([] : List Byte) ++ List.replicate n none from fun _ => rfl]
  simp (disch := first | omega | (simp only [List.length_append, List.length_nil] <;> omega))
    only [memcpy_step, bind, Except.bind]
  simp (disch := omega) only [Nat.sub_eq_zero_of_le]
  simp [packed, arg_offsets, args_tt, pure, Except.pure]

/-- The overload of `args` with 9 parameters returns the tightly packed result. -/
theorem args_9_eq_packed (heap_grants : Nat → Bool) (a0 a1 a2 a3 a4 a5 a6 a7 a8 : List Byte)
    (hsz : total_size [a0, a1, a2, a3, a4, a5, a6, a7, a8] < 2 ^ 64)
    (hg : heap_grants (total_size [a0, a1, a2, a3, a4, a5, a6, a7, a8]) = true) :
    args_9 heap_grants a0 a1 a2 a3 a4 a5 a6 a7 a8 = .ok (packed [a0, a1, a2, a3, a4, a5, a6, a7, a8]) := by
  simp only [total_size, List.map, List.sum_cons, List.sum_nil, Nat.add_zero] at hsz hg
  norm_num at hsz
  try simp only [← Nat.add_assoc] at hg
  unfold args_9
  simp only [size_t_mod_eq, Nat.zero_add]
  simp (disch := omega) only [Nat.mod_eq_of_lt, ← Nat.add_assoc]
  simp only [malloc, hg, if_true]
  rw [show ∀ n, List.replicate n (none : Option Byte)
    = List.map some ([] : List Byte) ++ List.replicate n none from fun _ => rfl]
  simp (disch := first | omega | (simp only [List.length_append, List.length_nil] <;> omega))
    only [memcpy_step, bind, Except.bind]
  simp (disch := omega) only [Nat.sub_eq_zero_of_le]
  simp [packed, arg_offsets, args_tt, pure, Except.pure]

/-- The overload of `args` with 10 parameters returns the tightly packed result. -/
theorem args_10_eq_packed (heap_grants : Nat → Bool) (a0 a1 a2 a3 a4 a5 a6 a7 a8 a9 : List Byte)
    (hsz : total_size [a0, a1, a2, a3, a4, a5, a6, a7, a8, a9] < 2 ^ 64)
    (hg : heap_grants (total_size [a0, a1, a2, a3, a4, a5, a6, a7, a8, a9]) = true) :
    args_10 heap_grants a0 a1 a2 a3 a4 a5 a6 a7 a8 a9 = .ok (packed [a0, a1, a2, a3, a4, a5, a6, a7, a8, a9]) := by
  simp only [total_size, List.map, List.sum_cons, List.sum_nil, Nat.add_zero] at hsz hg
  norm_num at hsz
  try simp only [← Nat.add_assoc] at hg
  unfold args_10
  simp only [size_t_mod_eq, Nat.zero_add]
  simp (disch := omega) only [Nat.mod_eq_of_lt, ← Nat.add_assoc]
  simp only [malloc, hg, if_true]
  rw [show ∀ n, List.replicate n (none : Option Byte)
    = List.map some ([] : List Byte) ++ List.replicate n none from fun _ => rfl]
  simp (disch := first | omega | (simp only [List.length_append, List.length_nil] <;> omega))
    only [memcpy_step, bind, Except.bind]
  simp (disch := omega) only [Nat.sub_eq_zero_of_le]
  simp [packed, arg_offsets, args_tt, pure, Except.pure]

/-- The overload of `args` with 11 parameters returns the tightly packed result. -/
theorem args_11_eq_packed (heap_grants : Nat → Bool) (a0 a1 a2 a3 a4 a5 a6 a7 a8 a9 a10 : List Byte)
    (hsz : total_size [a0, a1, a2, a3, a4, a5, a6, a7, a8, a9, a10] < 2 ^ 64)
    (hg : heap_grants (total_size [a0, a1, a2, a3, a4, a5, a6, a7, a8, a9, a10]) = true) :
    args_11 heap_grants a0 a1 a2 a3 a4 a5 a6 a7 a8 a9 a10 = .ok (packed [a0, a1, a2, a3, a4, a5, a6, a7, a8, a9, a10]) := by
  simp only [total_size, List.map, List.sum_cons, List.sum_nil, Nat.add_zero] at hsz hg
  norm_num at hsz
  try simp only [← Nat.add_assoc] at hg
  unfold args_11
  simp only [size_t_mod_eq, Nat.zero_add]
  simp (disch := omega) only [Nat.mod_eq_of_lt, ← Nat.add_assoc]
  simp only [malloc, hg, if_true]
  rw [show ∀ n, List.replicate n (none : Option Byte)
    = List.map some ([] : List Byte) ++ List.replicate n none from fun _ => rfl]
  simp (disch := first | omega | (simp only [List.length_append, List.length_nil] <;> omega))
    only [memcpy_step, bind, Except.bind]
  simp (disch := omega) only [Nat.sub_eq_zero_of_le]
  simp [packed, arg_offsets, args_tt, pure, Except.pure]

/-- The overload of `args` with 12 parameters returns the tightly packed result. -/
theorem args_12_eq_packed (heap_grants : Nat → Bool) (a0 a1 a2 a3 a4 a5 a6 a7 a8 a9 a10 a11 : List Byte)
    (hsz : total_size [a0, a1, a2, a3, a4, a5, a6, a7, a8, a9, a10, a11] < 2 ^ 64)
    (hg : heap_grants (total_size [a0, a1, a2, a3, a4, a5, a6, a7, a8, a9, a10, a11]) = true) :
    args_12 heap_grants a0 a1 a2 a3 a4 a5 a6 a7 a8 a9 a10 a11 = .ok (packed [a0, a1, a2, a3, a4, a5, a6, a7, a8, a9, a10, a11]) := by
  simp only [total_size, List.map, List.sum_cons, List.sum_nil, Nat.add_zero] at hsz hg
  norm_num at hsz
  try simp only [← Nat.add_assoc] at hg
  unfold args_12
  simp only [size_t_mod_eq, Nat.zero_add]
  simp (disch := omega) only [Nat.mod_eq_of_lt, ← Nat.add_assoc]
  simp only [malloc, hg, if_true]
  rw [show ∀ n, List.replicate n (none : Option Byte)
    = List.map some ([] : List Byte) ++ List.replicate n none from fun _ => rfl]
  simp (disch := first | omega | (simp only [List.length_append, List.length_nil] <;> omega))
    only [memcpy_step, bind, Except.bind]
  simp (disch := omega) only [Nat.sub_eq_zero_of_le]
  simp [packed, arg_offsets, args_tt, pure, Except.pure]

/-- The overload of `args` with 13 parameters returns the tightly packed result. -/
theorem args_13_eq_packed (heap_grants : Nat → Bool) (a0 a1 a2 a3 a4 a5 a6 a7 a8 a9 a10 a11 a12 : List Byte)
    (hsz : total_size [a0, a1, a2, a3, a4, a5, a6, a7, a8, a9, a10, a11, a12] < 2 ^ 64)
    (hg : heap_grants (total_size [a0, a1, a2, a3, a4, a5, a6, a7, a8, a9, a10, a11, a12]) = true) :
    args_13 heap_grants a0 a1 a2 a3 a4 a5 a6 a7 a8 a9 a10 a11 a12 = .ok (packed [a0, a1, a2, a3, a4, a5, a6, a7, a8, a9, a10, a11, a12]) := by
  simp only [total_size, List.map, List.sum_cons, List.sum_nil, Nat.add_zero] at hsz hg
  norm_num at hsz
  try simp only [← Nat.add_assoc] at hg
  unfold args_13
  simp only [size_t_mod_eq, Nat.zero_add]
  simp (disch := omega) only [Nat.mod_eq_of_lt, ← Nat.add_assoc]
  simp only [malloc, hg, if_true]
  rw [show ∀ n, List.replicate n (none : Option Byte)
    = List.map some ([] : List Byte) ++ List.replicate n none from fun _ => rfl]
  simp (disch := first | omega | (simp only [List.length_append, List.length_nil] <;> omega))
    only [memcpy_step, bind, Except.bind]
  simp (disch := omega) only [Nat.sub_eq_zero_of_le]
  simp [packed, arg_offsets, args_tt, pure, Except.pure]

/-- The fixed-arity overloads of `args` return the tightly packed result
whenever the total size fits `std::size_t` and the heap grants the block. -/
theorem args_fixed_eq_packed (heap_grants : Nat → Bool) (ar : List (List Byte))
    (h1 : 1 ≤ ar.length) (h13 : ar.length ≤ 13) (hsz : total_size ar < 2 ^ 64)
    (hg : heap_grants (total_size ar) = true) :
    args_fixed heap_grants ar = some (.ok (packed ar)) := by
  rcases ar with _ | ⟨a0, _ | ⟨a1, _ | ⟨a2, _ | ⟨a3, _ | ⟨a4, _ | ⟨a5, _ | ⟨a6, _ | ⟨a7, _ | ⟨a8, _ | ⟨a9, _ | ⟨a10, _ | ⟨a11, _ | ⟨a12, _ | ⟨a13, rest⟩⟩⟩⟩⟩⟩⟩⟩⟩⟩⟩⟩⟩⟩
  · simp at h1
  · exact congrArg some (args_1_eq_packed heap_grants a0 hsz hg)
  · exact congrArg some (args_2_eq_packed heap_grants a0 a1 hsz hg)
  · exact congrArg some (args_3_eq_packed heap_grants a0 a1 a2 hsz hg)
  · exact congrArg some (args_4_eq_packed heap_grants a0 a1 a2 a3 hsz hg)
  · exact congrArg some (args_5_eq_packed heap_grants a0 a1 a2 a3 a4 hsz hg)
  · exact congrArg some (args_6_eq_packed heap_grants a0 a1 a2 a3 a4 a5 hsz hg)
  · exact congrArg some (args_7_eq_packed heap_grants a0 a1 a2 a3 a4 a5 a6 hsz hg)
  · exact congrArg some (args_8_eq_packed heap_grants a0 a1 a2 a3 a4 a5 a6 a7 hsz hg)
  · exact congrArg some (args_9_eq_packed heap_grants a0 a1 a2 a3 a4 a5 a6 a7 a8 hsz hg)
  · exact congrArg some (args_10_eq_packed heap_grants a0 a1 a2 a3 a4 a5 a6 a7 a8 a9 hsz hg)
  · exact congrArg some (args_11_eq_packed heap_grants a0 a1 a2 a3 a4 a5 a6 a7 a8 a9 a10 hsz hg)
  · exact congrArg some (args_12_eq_packed heap_grants a0 a1 a2 a3 a4 a5 a6 a7 a8 a9 a10 a11 hsz hg)
  · exact congrArg some (args_13_eq_packed heap_grants a0 a1 a2 a3 a4 a5 a6 a7 a8 a9 a10 a11 a12 hsz hg)
  · simp only [List.length_cons] at h13
    omega

theorem all_written_map_some (l : List Byte) : all_written (l.map some) = some l := by
  induction l with
  | nil => rfl
  | cons a l ih => simp [all_written, ih]

/-- Reading a value back from between a prefix and a suffix. -/
theorem read_bytes_middle (pre a post : List Byte) :
    read_bytes ((pre ++ a ++ post).map some) pre.length a.length = some a := by
  unfold read_bytes
  have hlen : pre.length + a.length ≤ ((pre ++ a ++ post).map some).length := by
    simp
  rw [if_pos hlen]
  have h : ((List.map some (pre ++ a ++ post)).drop pre.length).take a.length
      = List.map some a := by
    simp [List.map_append, List.append_assoc]
  rw [h]
  exact all_written_map_some a

theorem arg_offsets_length (p : Nat) (ar : List (List Byte)) :
    (arg_offsets p ar).length = ar.length := by
  induction ar generalizing p with
  | nil => rfl
  | cons a ar ih => simp [arg_offsets, ih]

/-- The i-th recorded offset is the start plus the sizes of the values before
the i-th. -/
theorem arg_offsets_getElem (p : Nat) (ar : List (List Byte)) (i : Nat) (hi : i < ar.length) :
    (arg_offsets p ar)[i]? = some (p + ((ar.take i).map List.length).sum) := by
  induction ar generalizing p i with
  | nil => simp at hi
  | cons a ar ih =>
    cases i with
    | zero => simp [arg_offsets]
    | succ i =>
      simp only [List.length_cons, Nat.add_lt_add_iff_right] at hi
      simp [arg_offsets, ih (p + a.length) i hi, Nat.add_assoc]

/-- Reading the size of the i-th value at its offset in the packed bytes gives
the i-th value. -/
theorem read_bytes_packed (pre : List Byte) (ar : List (List Byte)) (i : Nat)
    (hi : i < ar.length) :
    read_bytes ((pre ++ ar.flatten).map some) (pre.length + ((ar.take i).map List.length).sum)
      ar[i].length = some ar[i] := by
  induction ar generalizing pre i with
  | nil => simp at hi
  | cons a ar ih =>
    cases i with
    | zero =>
      simp only [List.take_zero, List.map_nil, List.sum_nil, Nat.add_zero, List.flatten_cons,
        List.getElem_cons_zero]
      rw [← List.append_assoc]
      exact read_bytes_middle pre a ar.flatten
    | succ i =>
      simp only [List.length_cons, Nat.add_lt_add_iff_right] at hi
      have h := ih (pre ++ a) i hi
      simp only [List.length_append, List.append_assoc] at h
      simp only [List.take_succ_cons, List.map_cons, List.sum_cons, List.flatten_cons,
        List.getElem_cons_succ, ← Nat.add_assoc]
      exact h

/-- C1: for an argument list of 1 to 13 values whose total size fits
`std::size_t` and is granted by the heap, `args`, both the variadic one and the
fixed-arity overloads, returns a block that is exactly the concatenation, in
call order, of the bytes of the values, all written and with no padding; its
length is the sum of the sizes of the values. -/
theorem args_buffer_is_concatenation (heap_grants : Nat → Bool) (ar : List (List Byte))
    (h1 : 1 ≤ ar.length) (h13 : ar.length ≤ 13)
    (hsz : (ar.map List.length).sum < 2 ^ 64)
    (hg : heap_grants (ar.map List.length).sum = true) :
    ∃ r, args heap_grants ar = some (.ok r) ∧ args_fixed heap_grants ar = some (.ok r) ∧
      r.block = ar.flatten.map some ∧ r.block.length = (ar.map List.length).sum := by
  refine ⟨packed ar, args_eq_packed heap_grants ar h1 hsz hg,
    args_fixed_eq_packed heap_grants ar h1 h13 hsz hg, rfl, ?_⟩
  simp only [packed, List.length_map]
  exact (total_size_eq_length_flatten ar).symm

/-- C2: for an argument list of `n` values, `1 ≤ n ≤ 13`, whose total size fits
`std::size_t` and is granted by the heap, the pointer array returned by `args`
(variadic or fixed-arity) has exactly `n` entries, the i-th entry is the offset
given by the sum of the sizes of the values before the i-th, and reading the
size of the i-th value at that entry gives back the bytes of the i-th value. -/
theorem args_pointers_recover_values (heap_grants : Nat → Bool) (ar : List (List Byte))
    (h1 : 1 ≤ ar.length) (h13 : ar.length ≤ 13)
    (hsz : (ar.map List.length).sum < 2 ^ 64)
    (hg : heap_grants (ar.map List.length).sum = true) :
    ∃ r, args heap_grants ar = some (.ok r) ∧ args_fixed heap_grants ar = some (.ok r) ∧
      r.second.length = ar.length ∧
      ∀ (i : Nat) (hi : i < ar.length),
        r.second[i]? = some (some ((ar.take i).map List.length).sum) ∧
        read_bytes r.block ((ar.take i).map List.length).sum ar[i].length = some ar[i] := by
  refine ⟨packed ar, args_eq_packed heap_grants ar h1 hsz hg,
    args_fixed_eq_packed heap_grants ar h1 h13 hsz hg, ?_, ?_⟩
  · simp [packed, arg_offsets_length]
  · intro i hi
    constructor
    · simp [packed, arg_offsets_getElem 0 ar i hi]
    · have h := read_bytes_packed [] ar i hi
      simpa [packed] using h

/-- C1, at the three values `01 02 03 04`, `05` and `06 07` on a heap that
grants every request: the block is the seven bytes in order. -/
theorem args_buffer_is_concatenation_witness :
    let ar : List (List Byte) := [[1, 2, 3, 4], [5], [6, 7]]
    let heap_grants : Nat → Bool := fun _ => true
    (1 ≤ ar.length ∧ ar.length ≤ 13 ∧ (ar.map List.length).sum < 2 ^ 64 ∧
      heap_grants (ar.map List.length).sum = true) ∧
    (∃ r, args heap_grants ar = some (.ok r) ∧ args_fixed heap_grants ar = some (.ok r) ∧
      r.block = ar.flatten.map some ∧ r.block.length = (ar.map List.length).sum) ∧
    args heap_grants ar = some (.ok
      { block := [some 1, some 2, some 3, some 4, some 5, some 6, some 7], first := 0,
        second := [some 0, some 4, some 5] }) :=
  ⟨⟨by decide, by decide, by norm_num, rfl⟩,
    args_buffer_is_concatenation (fun _ => true) [[1, 2, 3, 4], [5], [6, 7]] (by decide)
      (by decide) (by norm_num) rfl,
    rfl⟩

/-- C2, at the three values `01 02 03 04`, `05` and `06 07` on a heap that
grants every request. -/
theorem args_pointers_recover_values_witness :
    let ar : List (List Byte) := [[1, 2, 3, 4], [5], [6, 7]]
    let heap_grants : Nat → Bool := fun _ => true
    (1 ≤ ar.length ∧ ar.length ≤ 13 ∧ (ar.map List.length).sum < 2 ^ 64 ∧
      heap_grants (ar.map List.length).sum = true) ∧
    ∃ r, args heap_grants ar = some (.ok r) ∧ args_fixed heap_grants ar = some (.ok r) ∧
      r.second.length = ar.length ∧
      ∀ (i : Nat) (hi : i < ar.length),
        r.second[i]? = some (some ((ar.take i).map List.length).sum) ∧
        read_bytes r.block ((ar.take i).map List.length).sum ar[i].length = some ar[i] :=
  ⟨⟨by decide, by decide, by norm_num, rfl⟩,
    args_pointers_recover_values (fun _ => true) [[1, 2, 3, 4], [5], [6, 7]] (by decide)
      (by decide) (by norm_num) rfl⟩

/-! ## Ownership of contexts -/

theorem bind_update {α β : Type} (objs : Nat → Option α) (x : Nat) (v : Option α)
    (f : α → Option β) :
    (fun a => (Function.update objs x v a).bind f)
      = Function.update (fun a => (objs a).bind f) x (v.bind f) := by
  funext a
  by_cases h : a = x
  · subst h
    simp
  · simp [Function.update_noteq h]

theorem Owned.empty {κ : Type} (mk : Nat → κ) : Owned mk (fun _ => none) [] 0 := by
  refine ⟨List.nodup_nil, ?_, ?_, ?_⟩
  · intro h hh
    simp at hh
  · intro a h hh
    simp at hh
  · intro a b h hh
    simp at hh

theorem Owned.mono {κ : Type} {mk : Nat → κ} {held : Nat → Option κ} {released : List κ}
    {next : Nat} (h : Owned mk held released next) : Owned mk held released (next + 1) := by
  obtain ⟨h1, h2, h3, h4⟩ := h
  refine ⟨h1, ?_, ?_, h4⟩
  · intro x hx
    obtain ⟨k, hk, e⟩ := h2 x hx
    exact ⟨k, by omega, e⟩
  · intro a x hx
    obtain ⟨⟨k, hk, e⟩, hn⟩ := h3 a x hx
    exact ⟨⟨k, by omega, e⟩, hn⟩

/-- An object stops holding its context, which is not released. -/
theorem Owned.clear {κ : Type} {mk : Nat → κ} {held : Nat → Option κ} {released : List κ}
    {next : Nat} (h : Owned mk held released next) (x : Nat) :
    Owned mk (Function.update held x none) released next := by
  obtain ⟨h1, h2, h3, h4⟩ := h
  have key : ∀ a v, Function.update held x none a = some v → held a = some v := by
    intro a v hv
    by_cases e : a = x
    · subst e
      simp at hv
    · rwa [Function.update_noteq e] at hv
  exact ⟨h1, h2, fun a v hv => h3 a v (key a v hv),
    fun a b v ha hb => h4 a b v (key a v ha) (key b v hb)⟩

/-- A new object holds a context that was just created. -/
theorem Owned.create {κ : Type} {mk : Nat → κ} (hmk : Function.Injective mk)
    {held : Nat → Option κ} {released : List κ} {next : Nat}
    (h : Owned mk held released next) (x : Nat) (hx : held x = none) :
    Owned mk (Function.update held x (some (mk next))) released (next + 1) := by
  obtain ⟨h1, h2, h3, h4⟩ := h
  have fresh_rel : mk next ∉ released := by
    intro hin
    obtain ⟨k, hk, e⟩ := h2 _ hin
    have := hmk e
    omega
  have fresh_held : ∀ a, held a ≠ some (mk next) := by
    intro a ha
    obtain ⟨⟨k, hk, e⟩, -⟩ := h3 a _ ha
    have := hmk e
    omega
  refine ⟨h1, ?_, ?_, ?_⟩
  · intro v hv
    obtain ⟨k, hk, e⟩ := h2 v hv
    exact ⟨k, by omega, e⟩
  · intro a v hv
    by_cases e : a = x
    · subst e
      simp only [Function.update_same, Option.some.injEq] at hv
      subst hv
      exact ⟨⟨next, by omega, rfl⟩, fresh_rel⟩
    · rw [Function.update_noteq e] at hv
      obtain ⟨⟨k, hk, e'⟩, hn⟩ := h3 a v hv
      exact ⟨⟨k, by omega, e'⟩, hn⟩
  · intro a b v ha hb
    by_cases ea : a = x
    · by_cases eb : b = x
      · rw [ea, eb]
      · subst ea
        simp only [Function.update_same, Option.some.injEq] at ha
        rw [Function.update_noteq eb] at hb
        subst ha
        exact absurd hb (fresh_held b)
    · by_cases eb : b = x
      · subst eb
        simp only [Function.update_same, Option.some.injEq] at hb
        rw [Function.update_noteq ea] at ha
        subst hb
        exact absurd ha (fresh_held a)
      · rw [Function.update_noteq ea] at ha
        rw [Function.update_noteq eb] at hb
        exact h4 a b v ha hb

/-- An object that holds nothing takes over what another object holds. -/
theorem Owned.move {κ : Type} {mk : Nat → κ} {held : Nat → Option κ} {released : List κ}
    {next : Nat} (h : Owned mk held released next) (dst src : Nat) (hd : held dst = none)
    (hne : dst ≠ src) :
    Owned mk (Function.update (Function.update held dst (held src)) src none) released next := by
  obtain ⟨h1, h2, h3, h4⟩ := h
  have key : ∀ a v,
      Function.update (Function.update held dst (held src)) src none a = some v →
      (a = dst ∧ held src = some v) ∨ (a ≠ dst ∧ a ≠ src ∧ held a = some v) := by
    intro a v hv
    by_cases e : a = src
    · subst e
      simp at hv
    · rw [Function.update_noteq e] at hv
      by_cases e' : a = dst
      · subst e'
        simp only [Function.update_same] at hv
        exact Or.inl ⟨rfl, hv⟩
      · rw [Function.update_noteq e'] at hv
        exact Or.inr ⟨e', e, hv⟩
  refine ⟨h1, h2, ?_, ?_⟩
  · intro a v hv
    rcases key a v hv with ⟨-, hs⟩ | ⟨-, -, ha⟩
    · exact h3 src v hs
    · exact h3 a v ha
  · intro a b v ha hb
    rcases key a v ha with ⟨ea, hsa⟩ | ⟨na, nsa, hha⟩
    · rcases key b v hb with ⟨eb, -⟩ | ⟨-, nsb, hhb⟩
      · rw [ea, eb]
      · exact absurd (h4 b src v hhb hsa) nsb
    · rcases key b v hb with ⟨eb, hsb⟩ | ⟨-, -, hhb⟩
      · exact absurd (h4 a src v hha hsb) nsa
      · exact h4 a b v hha hhb

/-- An object releases the context it holds. -/
theorem Owned.release {κ : Type} {mk : Nat → κ} {held : Nat → Option κ} {released : List κ}
    {next : Nat} (h : Owned mk held released next) (x : Nat) (v : κ) (hx : held x = some v) :
    Owned mk (Function.update held x none) (released ++ [v]) next := by
  obtain ⟨h1, h2, h3, h4⟩ := h
  have key : ∀ a u, Function.update held x none a = some u → a ≠ x ∧ held a = some u := by
    intro a u hu
    by_cases e : a = x
    · subst e
      simp at hu
    · rw [Function.update_noteq e] at hu
      exact ⟨e, hu⟩
  refine ⟨?_, ?_, ?_, ?_⟩
  · rw [List.nodup_append]
    refine ⟨h1, List.nodup_singleton v, ?_⟩
    intro u hu hu'
    simp only [List.mem_singleton] at hu'
    subst hu'
    exact (h3 x u hx).2 hu
  · intro u hu
    simp only [List.mem_append, List.mem_singleton] at hu
    rcases hu with hu | hu
    · exact h2 u hu
    · subst hu
      exact (h3 x u hx).1
  · intro a u hu
    obtain ⟨ne, ha⟩ := key a u hu
    refine ⟨(h3 a u ha).1, ?_⟩
    simp only [List.mem_append, List.mem_singleton, not_or]
    refine ⟨(h3 a u ha).2, ?_⟩
    intro e
    subst e
    exact ne (h4 a x u ha hx)
  · intro a b u ha hb
    exact h4 a b u (key a u ha).2 (key b u hb).2

/-! ## OpenCL base device: lifecycle -/

theorem device.create_ok (env : OpenCLBackend) (ordinal : Nat) (d : device)
    (h : device.create env ordinal = .ok d) :
    d.initialized_ = true ∧ d.ordinal_ = ordinal ∧
      d.context_ = (env.clCreateContext d.device_).1 := by
  unfold device.create at h
  split at h
  · cases h
  · split at h
    · cases h
    · simp only at h
      split at h
      · cases h
      · cases h
        exact ⟨rfl, rfl, rfl⟩

theorem OpenCLWorld.held_update (objs : DeviceHeap) (x : Nat) (v : Option device)
    (r : List (Option Nat)) (n : Nat) :
    OpenCLWorld.held { objs := Function.update objs x v, released := r, next := n }
      = Function.update (fun a => (objs a).bind device.held) x (v.bind device.held) :=
  bind_update objs x v device.held

theorem OpenCLWorld.held_eq (w : OpenCLWorld) :
    w.held = fun a => (w.objs a).bind device.held := rfl

theorem device.reset_held (d : device) : d.reset.1.held = none := by
  unfold device.reset
  split <;> simp_all [device.held]

theorem device.reset_released (d : device) : d.reset.2 = d.held.toList := by
  unfold device.reset device.held
  split <;> simp_all

/-- Releasing or dropping what the object at `x` holds keeps ownership sound. -/
theorem Owned.release_opt {κ : Type} {mk : Nat → κ} {held : Nat → Option κ}
    {released : List κ} {next : Nat} (h : Owned mk held released next) (x : Nat) :
    Owned mk (Function.update held x none) (released ++ (held x).toList) next := by
  cases hx : held x with
  | none =>
    simp only [Option.toList, List.append_nil]
    exact h.clear x
  | some v =>
    exact h.release x v hx

theorem OpenCLWorld.owned_destroy (w : OpenCLWorld) (addr : Nat)
    (h : Owned some w.held w.released w.next) :
    Owned some (w.destroy addr).held (w.destroy addr).released (w.destroy addr).next := by
  unfold OpenCLWorld.destroy
  cases hd : w.objs addr with
  | none => exact h
  | some d =>
    simp only
    rw [OpenCLWorld.held_update, device.reset_released]
    have e : d.held = w.held addr := by simp [OpenCLWorld.held, hd]
    rw [e]
    exact h.release_opt addr

theorem OpenCLWorld.owned_default_construct (w : OpenCLWorld) (addr : Nat)
    (h : Owned some w.held w.released w.next) :
    Owned some (w.default_construct addr).held (w.default_construct addr).released
      (w.default_construct addr).next := by
  unfold OpenCLWorld.default_construct
  cases hd : w.objs addr with
  | some d => exact h
  | none =>
    simp only
    rw [OpenCLWorld.held_update]
    exact h.clear addr

theorem OpenCLWorld.owned_construct (platforms : List (List Nat)) (w : OpenCLWorld)
    (addr ordinal : Nat) (errorcode : Int) (h : Owned some w.held w.released w.next) :
    Owned some (OpenCLWorld.construct platforms w addr ordinal errorcode).held
      (OpenCLWorld.construct platforms w addr ordinal errorcode).released
      (OpenCLWorld.construct platforms w addr ordinal errorcode).next := by
  unfold OpenCLWorld.construct
  cases hd : w.objs addr with
  | some d => exact h
  | none =>
    simp only
    cases hc : device.create
        { platforms := platforms, clCreateContext := fun _ => (some w.next, errorcode) }
        ordinal with
    | error e => exact h.mono
    | ok d =>
      simp only
      rw [OpenCLWorld.held_update]
      obtain ⟨hi, -, hctx⟩ := device.create_ok _ _ _ hc
      have e : (some d).bind device.held = some (some w.next) := by
        simp [device.held, hi, hctx]
      rw [e]
      exact h.create (Option.some_injective _) addr (by simp [OpenCLWorld.held, hd])

theorem OpenCLWorld.owned_move_construct (w : OpenCLWorld) (dst src : Nat)
    (h : Owned some w.held w.released w.next) :
    Owned some (w.move_construct dst src).held (w.move_construct dst src).released
      (w.move_construct dst src).next := by
  unfold OpenCLWorld.move_construct
  cases hd : w.objs dst with
  | some d => exact h
  | none =>
    cases hs : w.objs src with
    | none => exact h
    | some o =>
      simp only
      rw [OpenCLWorld.held_update, bind_update]
      have ne : dst ≠ src := by
        intro e
        rw [e, hs] at hd
        cases hd
      have e1 : (some (⟨o.initialized_, o.ordinal_, o.device_, o.context_⟩ : device)).bind
          device.held = w.held src := by
        simp [OpenCLWorld.held, hs, device.held]
      have e2 : (some ({ o with initialized_ := false, ordinal_ := size_t_neg 1 } : device)).bind
          device.held = none := by
        simp [device.held]
      rw [e1, e2]
      exact h.move dst src (by simp [OpenCLWorld.held, hd]) ne

theorem device.reset_fst (d : device) :
    d.reset.1 = ⟨false, size_t_neg 1, d.device_, d.context_⟩ := by
  cases d with
  | mk i o dv c =>
    cases i <;> rfl

/-- Self move assignment empties the object after releasing what it held. -/
theorem OpenCLWorld.move_assign_self (w : OpenCLWorld) (x : Nat) (t : device)
    (hx : w.objs x = some t) :
    w.move_assign x x =
      { objs := Function.update w.objs x (some ⟨false, size_t_neg 1, t.device_, t.context_⟩),
        released := w.released ++ t.reset.2, next := w.next } := by
  unfold OpenCLWorld.move_assign
  simp only [hx, Function.update_same, Function.update_idem, device.reset_fst]

/-- Move assignment between two objects: the target releases what it held and
takes the members of the source, which is left not initialized. -/
theorem OpenCLWorld.move_assign_ne (w : OpenCLWorld) (dst src : Nat) (t o : device)
    (hne : dst ≠ src) (hd : w.objs dst = some t) (hs : w.objs src = some o) :
    w.move_assign dst src =
      { objs := Function.update
          (Function.update w.objs dst (some ⟨o.initialized_, o.ordinal_, o.device_, o.context_⟩))
          src (some ⟨false, size_t_neg 1, o.device_, o.context_⟩),
        released := w.released ++ t.reset.2, next := w.next } := by
  unfold OpenCLWorld.move_assign
  have hne2 : src ≠ dst := fun e => hne e.symm
  simp only [hd, hs, Function.update_same, Function.update_idem, Function.update_noteq hne2]

theorem OpenCLWorld.owned_move_assign (w : OpenCLWorld) (dst src : Nat)
    (h : Owned some w.held w.released w.next) :
    Owned some (w.move_assign dst src).held (w.move_assign dst src).released
      (w.move_assign dst src).next := by
  cases hd : w.objs dst with
  | none =>
    have e : w.move_assign dst src = w := by
      unfold OpenCLWorld.move_assign
      simp only [hd]
    rw [e]
    exact h
  | some t =>
    cases hs : w.objs src with
    | none =>
      have e : w.move_assign dst src = w := by
        unfold OpenCLWorld.move_assign
        simp only [hd, hs]
      rw [e]
      exact h
    | some o =>
      have ht : t.held = w.held dst := by simp [OpenCLWorld.held, hd]
      by_cases hne : dst = src
      · subst hne
        rw [OpenCLWorld.move_assign_self w dst t hd]
        simp only
        rw [OpenCLWorld.held_update, device.reset_released, ht]
        exact h.release_opt dst
      · rw [OpenCLWorld.move_assign_ne w dst src t o hne hd hs]
        simp only
        rw [OpenCLWorld.held_update, bind_update, device.reset_released, ht]
        have h1 := (h.release_opt dst).move dst src (by simp) hne
        have hne2 : src ≠ dst := fun e => hne e.symm
        have e1 : (some (⟨o.initialized_, o.ordinal_, o.device_, o.context_⟩ : device)).bind
            device.held = w.held src := by
          simp [OpenCLWorld.held, hs, device.held]
        have e2 : (some (⟨false, size_t_neg 1, o.device_, o.context_⟩ : device)).bind
            device.held = none := by
          simp [device.held]
        rw [e1, e2]
        rw [Function.update_idem, Function.update_noteq hne2] at h1
        exact h1

/-- Every step of a program keeps the ownership of contexts sound. -/
theorem OpenCLWorld.owned_step (platforms : List (List Nat)) (w : OpenCLWorld) (op : DeviceOp)
    (h : Owned some w.held w.released w.next) :
    Owned some (OpenCLWorld.step platforms w op).held (OpenCLWorld.step platforms w op).released
      (OpenCLWorld.step platforms w op).next := by
  cases op with
  | default_construct addr => exact w.owned_default_construct addr h
  | construct addr ordinal errorcode =>
    exact OpenCLWorld.owned_construct platforms w addr ordinal errorcode h
  | move_construct dst src => exact w.owned_move_construct dst src h
  | move_assign dst src => exact w.owned_move_assign dst src h
  | destroy addr => exact w.owned_destroy addr h

theorem OpenCLWorld.owned_foldl (platforms : List (List Nat)) (ops : List DeviceOp)
    (w : OpenCLWorld) (h : Owned some w.held w.released w.next) :
    Owned some (ops.foldl (OpenCLWorld.step platforms) w).held
      (ops.foldl (OpenCLWorld.step platforms) w).released
      (ops.foldl (OpenCLWorld.step platforms) w).next := by
  induction ops generalizing w with
  | nil => exact h
  | cons op ops ih => exact ih _ (OpenCLWorld.owned_step platforms w op h)

theorem OpenCLWorld.owned_run (platforms : List (List Nat)) (ops : List DeviceOp) :
    Owned some (OpenCLWorld.run platforms ops).held (OpenCLWorld.run platforms ops).released
      (OpenCLWorld.run platforms ops).next :=
  OpenCLWorld.owned_foldl platforms ops OpenCLWorld.empty (Owned.empty some)

/-! ## Backend device: lifecycle -/

theorem BackendWorld.be_held_update (objs : Nat → Option backend_device) (x : Nat)
    (v : Option backend_device) (r : List Nat) (n : Nat) :
    BackendWorld.held { objs := Function.update objs x v, released := r, next := n }
      = Function.update (fun a => (objs a).bind backend_device.context_) x
          (v.bind backend_device.context_) :=
  bind_update objs x v backend_device.context_

theorem backend_device.finalize_eq (d : backend_device) : d.finalize = d.context_.toList := by
  unfold backend_device.finalize
  cases d.context_ <;> rfl

theorem BackendWorld.be_owned_destroy (w : BackendWorld) (addr : Nat)
    (h : Owned id w.held w.released w.next) :
    Owned id (w.destroy addr).held (w.destroy addr).released (w.destroy addr).next := by
  unfold BackendWorld.destroy
  cases hd : w.objs addr with
  | none => exact h
  | some d =>
    simp only
    rw [BackendWorld.be_held_update, backend_device.finalize_eq]
    have e : d.context_ = w.held addr := by simp [BackendWorld.held, hd]
    rw [e]
    exact h.release_opt addr

theorem BackendWorld.be_owned_default_construct (w : BackendWorld) (addr : Nat)
    (h : Owned id w.held w.released w.next) :
    Owned id (w.default_construct addr).held (w.default_construct addr).released
      (w.default_construct addr).next := by
  unfold BackendWorld.default_construct
  cases hd : w.objs addr with
  | some d => exact h
  | none =>
    simp only
    rw [BackendWorld.be_held_update]
    exact h.clear addr

theorem BackendWorld.be_owned_construct (w : BackendWorld) (addr ordinal : Nat) (errorcode : Int)
    (h : Owned id w.held w.released w.next) :
    Owned id (w.construct addr ordinal errorcode).held
      (w.construct addr ordinal errorcode).released
      (w.construct addr ordinal errorcode).next := by
  unfold BackendWorld.construct
  cases hd : w.objs addr with
  | some d => exact h
  | none =>
    simp only
    split
    · simp only
      rw [BackendWorld.be_held_update]
      exact h.create Function.injective_id addr (by simp [BackendWorld.held, hd])
    · exact h.mono

theorem BackendWorld.be_owned_move_construct (w : BackendWorld) (dst src : Nat)
    (h : Owned id w.held w.released w.next) :
    Owned id (w.move_construct dst src).held (w.move_construct dst src).released
      (w.move_construct dst src).next := by
  unfold BackendWorld.move_construct
  cases hd : w.objs dst with
  | some d => exact h
  | none =>
    cases hs : w.objs src with
    | none => exact h
    | some o =>
      simp only
      rw [BackendWorld.be_held_update, bind_update]
      have ne : dst ≠ src := by
        intro e
        rw [e, hs] at hd
        cases hd
      have e1 : (some (⟨o.context_, o.ordinal_, o.modules_, o.device_lock_⟩ :
          backend_device)).bind backend_device.context_ = w.held src := by
        simp [BackendWorld.held, hs]
      rw [e1]
      exact h.move dst src (by simp [BackendWorld.held, hd]) ne

/-- Self move assignment deletes the context and leaves the object without
context and with an empty cache. -/
theorem BackendWorld.be_move_assign_self (w : BackendWorld) (x : Nat) (t : backend_device)
    (hx : w.objs x = some t) :
    w.move_assign x x =
      { objs := Function.update w.objs x (some ⟨none, t.ordinal_, [], none⟩),
        released := w.released ++ t.finalize, next := w.next } := by
  unfold BackendWorld.move_assign
  simp only [hx, Function.update_same, Function.update_idem]

/-- Move assignment between two objects: the target deletes its context and
takes the members of the source, which is left without context and with an
empty cache; the ordinal of the source stays. -/
theorem BackendWorld.be_move_assign_ne (w : BackendWorld) (dst src : Nat) (t o : backend_device)
    (hne : dst ≠ src) (hd : w.objs dst = some t) (hs : w.objs src = some o) :
    w.move_assign dst src =
      { objs := Function.update
          (Function.update w.objs dst
            (some ⟨o.context_, o.ordinal_, o.modules_, o.device_lock_⟩))
          src (some ⟨none, o.ordinal_, [], none⟩),
        released := w.released ++ t.finalize, next := w.next } := by
  unfold BackendWorld.move_assign
  have hne2 : src ≠ dst := fun e => hne e.symm
  simp only [hd, hs, Function.update_noteq hne2]

theorem BackendWorld.be_owned_move_assign (w : BackendWorld) (dst src : Nat)
    (h : Owned id w.held w.released w.next) :
    Owned id (w.move_assign dst src).held (w.move_assign dst src).released
      (w.move_assign dst src).next := by
  cases hd : w.objs dst with
  | none =>
    have e : w.move_assign dst src = w := by
      unfold BackendWorld.move_assign
      simp only [hd]
    rw [e]
    exact h
  | some t =>
    cases hs : w.objs src with
    | none =>
      have e : w.move_assign dst src = w := by
        unfold BackendWorld.move_assign
        simp only [hd, hs]
      rw [e]
      exact h
    | some o =>
      have ht : t.context_ = w.held dst := by simp [BackendWorld.held, hd]
      by_cases hne : dst = src
      · subst hne
        rw [BackendWorld.be_move_assign_self w dst t hd]
        simp only
        rw [BackendWorld.be_held_update, backend_device.finalize_eq, ht]
        exact h.release_opt dst
      · rw [BackendWorld.be_move_assign_ne w dst src t o hne hd hs]
        simp only
        rw [BackendWorld.be_held_update, bind_update, backend_device.finalize_eq, ht]
        have h1 := (h.release_opt dst).move dst src (by simp) hne
        have hne2 : src ≠ dst := fun e => hne e.symm
        have e1 : (some (⟨o.context_, o.ordinal_, o.modules_, o.device_lock_⟩ :
            backend_device)).bind backend_device.context_ = w.held src := by
          simp [BackendWorld.held, hs]
        rw [e1]
        rw [Function.update_idem, Function.update_noteq hne2] at h1
        exact h1

/-- Every step of a program keeps the ownership of contexts sound. -/
theorem BackendWorld.be_owned_step (w : BackendWorld) (op : DeviceOp)
    (h : Owned id w.held w.released w.next) :
    Owned id (w.step op).held (w.step op).released (w.step op).next := by
  cases op with
  | default_construct addr => exact w.be_owned_default_construct addr h
  | construct addr ordinal errorcode => exact w.be_owned_construct addr ordinal errorcode h
  | move_construct dst src => exact w.be_owned_move_construct dst src h
  | move_assign dst src => exact w.be_owned_move_assign dst src h
  | destroy addr => exact w.be_owned_destroy addr h

theorem BackendWorld.be_owned_foldl (ops : List DeviceOp) (w : BackendWorld)
    (h : Owned id w.held w.released w.next) :
    Owned id (ops.foldl BackendWorld.step w).held (ops.foldl BackendWorld.step w).released
      (ops.foldl BackendWorld.step w).next := by
  induction ops generalizing w with
  | nil => exact h
  | cons op ops ih => exact ih _ (BackendWorld.be_owned_step w op h)

theorem BackendWorld.be_owned_run (ops : List DeviceOp) :
    Owned id (BackendWorld.run ops).held (BackendWorld.run ops).released
      (BackendWorld.run ops).next :=
  BackendWorld.be_owned_foldl ops BackendWorld.empty (Owned.empty id)

/-! ## OpenCL base device: accessors and moves -/

theorem device.accessors_of_initialized (d : device) (h : d.initialized_ = true) :
    d.get_ordinal = .ok d.ordinal_ ∧ d.get_base_device = .ok d.device_ ∧
    d.get_base_context = .ok d.context_ ∧ d.activate = .ok () ∧ d.deactivate = .ok () := by
  simp [device.get_ordinal, device.get_base_device, device.get_base_context, device.activate,
    device.deactivate, AURA_CHECK_INITIALIZED, h, bind, Except.bind, pure, Except.pure]

theorem device.accessors_of_not_initialized (d : device) (h : d.initialized_ = false) :
    d.get_ordinal = .error .invalid_state ∧ d.get_base_device = .error .invalid_state ∧
    d.get_base_context = .error .invalid_state ∧ d.activate = .error .invalid_state ∧
    d.deactivate = .error .invalid_state := by
  simp [device.get_ordinal, device.get_base_device, device.get_base_context, device.activate,
    device.deactivate, AURA_CHECK_INITIALIZED, h, bind, Except.bind]

/-- C11: on the OpenCL base device each of `get_ordinal()`, `get_base_device()`,
`get_base_context()`, `activate()` and `deactivate()` returns when the device
is initialized and fails with the invalid-state error when it is not; a
default-constructed device and a device after `reset()` are not initialized
(`initialized()` is false), so every one of the five fails on them. -/
theorem accessors_succeed_iff_initialized (d : device) :
    (d.initialized = true →
      d.get_ordinal = .ok d.ordinal_ ∧ d.get_base_device = .ok d.device_ ∧
      d.get_base_context = .ok d.context_ ∧ d.activate = .ok () ∧ d.deactivate = .ok ()) ∧
    (d.initialized = false →
      d.get_ordinal = .error .invalid_state ∧ d.get_base_device = .error .invalid_state ∧
      d.get_base_context = .error .invalid_state ∧ d.activate = .error .invalid_state ∧
      d.deactivate = .error .invalid_state) ∧
    (device.default.initialized = false ∧
      device.default.get_ordinal = .error .invalid_state ∧
      device.default.get_base_device = .error .invalid_state ∧
      device.default.get_base_context = .error .invalid_state ∧
      device.default.activate = .error .invalid_state ∧
      device.default.deactivate = .error .invalid_state) ∧
    (d.reset.1.initialized = false ∧
      d.reset.1.get_ordinal = .error .invalid_state ∧
      d.reset.1.get_base_device = .error .invalid_state ∧
      d.reset.1.get_base_context = .error .invalid_state ∧
      d.reset.1.activate = .error .invalid_state ∧
      d.reset.1.deactivate = .error .invalid_state) := by
  have hr : d.reset.1.initialized_ = false := by rw [device.reset_fst]
  exact ⟨device.accessors_of_initialized d, device.accessors_of_not_initialized d,
    ⟨rfl, device.accessors_of_not_initialized device.default rfl⟩,
    ⟨hr, device.accessors_of_not_initialized d.reset.1 hr⟩⟩

/-- C12: on the OpenCL base device, move-constructing a new object from, or
move-assigning to another live object, an initialized source with ordinal `o`
leaves the destination initialized, with `get_ordinal()` returning `o` and the
accessors returning the former device and context handles of the source, and
leaves the source not initialized, so that its accessors fail with the
invalid-state error. -/
theorem move_leaves_source_empty (w : OpenCLWorld) (dst src : Nat) (s : device)
    (hs : w.objs src = some s) (hi : s.initialized_ = true) (hne : dst ≠ src) :
    (w.objs dst = none →
      ∃ d' s', (w.move_construct dst src).objs dst = some d' ∧
        (w.move_construct dst src).objs src = some s' ∧
        d'.initialized = true ∧ d'.get_ordinal = .ok s.ordinal_ ∧
        d'.get_base_device = .ok s.device_ ∧ d'.get_base_context = .ok s.context_ ∧
        s'.initialized = false ∧ s'.get_ordinal = .error .invalid_state ∧
        s'.get_base_device = .error .invalid_state ∧
        s'.get_base_context = .error .invalid_state ∧
        s'.activate = .error .invalid_state ∧ s'.deactivate = .error .invalid_state) ∧
    ((w.objs dst).isSome = true →
      ∃ d' s', (w.move_assign dst src).objs dst = some d' ∧
        (w.move_assign dst src).objs src = some s' ∧
        d'.initialized = true ∧ d'.get_ordinal = .ok s.ordinal_ ∧
        d'.get_base_device = .ok s.device_ ∧ d'.get_base_context = .ok s.context_ ∧
        s'.initialized = false ∧ s'.get_ordinal = .error .invalid_state ∧
        s'.get_base_device = .error .invalid_state ∧
        s'.get_base_context = .error .invalid_state ∧
        s'.activate = .error .invalid_state ∧ s'.deactivate = .error .invalid_state) := by
  have hne2 : src ≠ dst := fun e => hne e.symm
  have hd' : (⟨s.initialized_, s.ordinal_, s.device_, s.context_⟩ : device).initialized_
      = true := hi
  have hA := device.accessors_of_initialized ⟨s.initialized_, s.ordinal_, s.device_, s.context_⟩ hd'
  have hB := device.accessors_of_not_initialized ⟨false, size_t_neg 1, s.device_, s.context_⟩ rfl
  constructor
  · intro hd
    refine ⟨⟨s.initialized_, s.ordinal_, s.device_, s.context_⟩,
      ⟨false, size_t_neg 1, s.device_, s.context_⟩, ?_, ?_, hi, hA.1, hA.2.1, hA.2.2.1, rfl,
      hB.1, hB.2.1, hB.2.2.1, hB.2.2.2.1, hB.2.2.2.2⟩
    · unfold OpenCLWorld.move_construct
      simp only [hd, hs, Function.update_noteq hne, Function.update_same]
    · unfold OpenCLWorld.move_construct
      simp only [hd, hs, Function.update_same]
  · intro hd
    obtain ⟨t, ht⟩ := Option.isSome_iff_exists.mp hd
    rw [OpenCLWorld.move_assign_ne w dst src t s hne ht hs]
    refine ⟨⟨s.initialized_, s.ordinal_, s.device_, s.context_⟩,
      ⟨false, size_t_neg 1, s.device_, s.context_⟩, ?_, ?_, hi, hA.1, hA.2.1, hA.2.2.1, rfl,
      hB.1, hB.2.1, hB.2.2.1, hB.2.2.2.1, hB.2.2.2.2⟩
    · simp only [Function.update_noteq hne, Function.update_same]
    · simp only [Function.update_same]

/-- C12, at a device for ordinal 3 at address 0, moved into a new object at
address 1 and move-assigned to a default-constructed object at address 1. -/
theorem move_leaves_source_empty_witness :
    let s : device := ⟨true, 3, some 10, some 100⟩
    let w1 : OpenCLWorld :=
      { objs := fun a => if a = 0 then some s else none, released := [], next := 1 }
    let w2 : OpenCLWorld :=
      { objs := fun a => if a = 0 then some s else if a = 1 then some device.default else none,
        released := [], next := 1 }
    (w1.objs 0 = some s ∧ w2.objs 0 = some s ∧ s.initialized_ = true ∧ 1 ≠ 0 ∧
      w1.objs 1 = none ∧ (w2.objs 1).isSome = true) ∧
    (∃ d' s', (w1.move_construct 1 0).objs 1 = some d' ∧
        (w1.move_construct 1 0).objs 0 = some s' ∧
        d'.initialized = true ∧ d'.get_ordinal = .ok s.ordinal_ ∧
        d'.get_base_device = .ok s.device_ ∧ d'.get_base_context = .ok s.context_ ∧
        s'.initialized = false ∧ s'.get_ordinal = .error .invalid_state ∧
        s'.get_base_device = .error .invalid_state ∧
        s'.get_base_context = .error .invalid_state ∧
        s'.activate = .error .invalid_state ∧ s'.deactivate = .error .invalid_state) ∧
    (∃ d' s', (w2.move_assign 1 0).objs 1 = some d' ∧
        (w2.move_assign 1 0).objs 0 = some s' ∧
        d'.initialized = true ∧ d'.get_ordinal = .ok s.ordinal_ ∧
        d'.get_base_device = .ok s.device_ ∧ d'.get_base_context = .ok s.context_ ∧
        s'.initialized = false ∧ s'.get_ordinal = .error .invalid_state ∧
        s'.get_base_device = .error .invalid_state ∧
        s'.get_base_context = .error .invalid_state ∧
        s'.activate = .error .invalid_state ∧ s'.deactivate = .error .invalid_state) := by
  intro s w1 w2
  exact ⟨⟨rfl, rfl, rfl, by decide, rfl, rfl⟩,
    (move_leaves_source_empty w1 1 0 s rfl rfl (by decide)).1 rfl,
    (move_leaves_source_empty w2 1 0 s rfl rfl (by decide)).2 rfl⟩

/-! ## Backend device: moves -/

theorem backend_device.get_ordinal_of_some (d : backend_device) (o : Nat)
    (h : d.ordinal_ = some o) : d.get_ordinal = .ok o := by
  unfold backend_device.get_ordinal
  rw [h]

/-- C13, as stated, fails: a backend device constructed for ordinal 3 and then
moved from, by move construction or by move assignment, still answers
`get_ordinal()` with 3, and `get_ordinal()` on a default-constructed device
does not raise the invalid-state error either. -/
theorem moved_from_get_ordinal_returns :
    let w1 := BackendWorld.run [.construct 0 3 0, .move_construct 1 0]
    let w2 := BackendWorld.run [.construct 0 3 0, .default_construct 1, .move_assign 1 0]
    (w1.objs 0).map backend_device.get_ordinal = some (.ok 3) ∧
    (w1.objs 0).map backend_device.context_ = some none ∧
    (w2.objs 0).map backend_device.get_ordinal = some (.ok 3) ∧
    (w2.objs 0).map backend_device.context_ = some none ∧
    (w1.objs 0).map backend_device.get_ordinal ≠ some (.error .invalid_state) ∧
    (w2.objs 0).map backend_device.get_ordinal ≠ some (.error .invalid_state) ∧
    backend_device.default.get_ordinal ≠ .error .invalid_state := by
  intro w1 w2
  have h1 : (w1.objs 0).map backend_device.get_ordinal = some (.ok 3) := rfl
  have h2 : (w2.objs 0).map backend_device.get_ordinal = some (.ok 3) := rfl
  refine ⟨h1, rfl, h2, rfl, ?_, ?_, ?_⟩
  · rw [h1]
    simp
  · rw [h2]
    simp
  · simp [backend_device.default, backend_device.get_ordinal]

/-- C13, amended: `get_ordinal()` of the backend device makes no state check.
After a device with ordinal `o` is moved from, by move construction into a new
object or by move assignment to a live object (itself included), `get_ordinal()`
on it returns `o`, while its context pointer is null and its cache is empty; a
destination other than the source answers `get_ordinal()` with `o` and has the
former context and cache of the source. -/
theorem moved_from_keeps_ordinal (w : BackendWorld) (dst src : Nat) (s : backend_device)
    (o : Nat) (hs : w.objs src = some s) (ho : s.ordinal_ = some o) :
    (w.objs dst = none →
      ∃ d' s', (w.move_construct dst src).objs dst = some d' ∧
        (w.move_construct dst src).objs src = some s' ∧
        s'.get_ordinal = .ok o ∧ s'.context_ = none ∧ s'.modules_ = [] ∧
        d'.get_ordinal = .ok o ∧ d'.context_ = s.context_ ∧ d'.modules_ = s.modules_) ∧
    ((w.objs dst).isSome = true →
      ∃ s', (w.move_assign dst src).objs src = some s' ∧
        s'.get_ordinal = .ok o ∧ s'.context_ = none ∧ s'.modules_ = [] ∧
        (dst ≠ src → ∃ d', (w.move_assign dst src).objs dst = some d' ∧
          d'.get_ordinal = .ok o ∧ d'.context_ = s.context_ ∧ d'.modules_ = s.modules_)) := by
  have hA : (⟨s.context_, s.ordinal_, s.modules_, s.device_lock_⟩ : backend_device).get_ordinal
      = .ok o := backend_device.get_ordinal_of_some _ o ho
  have hB : (⟨none, s.ordinal_, [], none⟩ : backend_device).get_ordinal = .ok o :=
    backend_device.get_ordinal_of_some _ o ho
  constructor
  · intro hd
    have hne : dst ≠ src := by
      intro e
      rw [e, hs] at hd
      cases hd
    refine ⟨⟨s.context_, s.ordinal_, s.modules_, s.device_lock_⟩, ⟨none, s.ordinal_, [], none⟩,
      ?_, ?_, hB, rfl, rfl, hA, rfl, rfl⟩
    · unfold BackendWorld.move_construct
      simp only [hd, hs, Function.update_noteq hne, Function.update_same]
    · unfold BackendWorld.move_construct
      simp only [hd, hs, Function.update_same]
  · intro hd
    obtain ⟨t, ht⟩ := Option.isSome_iff_exists.mp hd
    by_cases hne : dst = src
    · subst hne
      rw [hs] at ht
      cases ht
      rw [BackendWorld.be_move_assign_self w dst s hs]
      exact ⟨⟨none, s.ordinal_, [], none⟩, by simp only [Function.update_same], hB, rfl, rfl,
        fun h => absurd rfl h⟩
    · rw [BackendWorld.be_move_assign_ne w dst src t s hne ht hs]
      refine ⟨⟨none, s.ordinal_, [], none⟩, by simp only [Function.update_same], hB, rfl, rfl,
        fun _ => ⟨⟨s.context_, s.ordinal_, s.modules_, s.device_lock_⟩, ?_, hA, rfl, rfl⟩⟩
      simp only [Function.update_noteq hne, Function.update_same]

/-- C13, amended, at a device for ordinal 3 at address 0 with one cached
module, moved into a new object at address 1 and move-assigned to a
default-constructed object at address 1. -/
theorem moved_from_keeps_ordinal_witness :
    let s : backend_device := ⟨some 0, some 3, [("src", 7)], none⟩
    let w1 : BackendWorld :=
      { objs := fun a => if a = 0 then some s else none, released := [], next := 1 }
    let w2 : BackendWorld :=
      { objs := fun a =>
          if a = 0 then some s else if a = 1 then some backend_device.default else none,
        released := [], next := 1 }
    (w1.objs 0 = some s ∧ w2.objs 0 = some s ∧ s.ordinal_ = some 3 ∧ w1.objs 1 = none ∧
      (w2.objs 1).isSome = true) ∧
    (∃ d' s', (w1.move_construct 1 0).objs 1 = some d' ∧
        (w1.move_construct 1 0).objs 0 = some s' ∧
        s'.get_ordinal = .ok 3 ∧ s'.context_ = none ∧ s'.modules_ = [] ∧
        d'.get_ordinal = .ok 3 ∧ d'.context_ = s.context_ ∧ d'.modules_ = s.modules_) ∧
    (∃ s', (w2.move_assign 1 0).objs 0 = some s' ∧
        s'.get_ordinal = .ok 3 ∧ s'.context_ = none ∧ s'.modules_ = [] ∧
        (1 ≠ 0 → ∃ d', (w2.move_assign 1 0).objs 1 = some d' ∧
          d'.get_ordinal = .ok 3 ∧ d'.context_ = s.context_ ∧ d'.modules_ = s.modules_)) := by
  intro s w1 w2
  exact ⟨⟨rfl, rfl, rfl, rfl, rfl⟩,
    (moved_from_keeps_ordinal w1 1 0 s 3 rfl rfl).1 rfl,
    (moved_from_keeps_ordinal w2 1 0 s 3 rfl rfl).2 rfl⟩

/-! ## What each step releases -/

theorem OpenCLWorld.released_default_construct (w : OpenCLWorld) (a : Nat) :
    (w.default_construct a).released = w.released := by
  unfold OpenCLWorld.default_construct
  split <;> rfl

theorem OpenCLWorld.released_construct (platforms : List (List Nat)) (w : OpenCLWorld)
    (a o : Nat) (e : Int) : (OpenCLWorld.construct platforms w a o e).released = w.released := by
  unfold OpenCLWorld.construct
  split
  · rfl
  · split <;> rfl

theorem OpenCLWorld.released_move_construct (w : OpenCLWorld) (dst src : Nat) :
    (w.move_construct dst src).released = w.released := by
  unfold OpenCLWorld.move_construct
  split <;> rfl

theorem device.reset_snd (d : device) :
    d.reset.2 = if d.initialized_ = true then [d.context_] else [] := by
  unfold device.reset
  split <;> rfl

theorem OpenCLWorld.released_destroy (w : OpenCLWorld) (a : Nat) (d : device)
    (h : w.objs a = some d) :
    (w.destroy a).released
      = w.released ++ (if d.initialized_ = true then [d.context_] else []) := by
  unfold OpenCLWorld.destroy
  simp only [h, device.reset_snd]

theorem OpenCLWorld.released_move_assign (w : OpenCLWorld) (dst src : Nat) (t : device)
    (hd : w.objs dst = some t) (hs : (w.objs src).isSome = true) :
    (w.move_assign dst src).released
      = w.released ++ (if t.initialized_ = true then [t.context_] else []) := by
  obtain ⟨o, ho⟩ := Option.isSome_iff_exists.mp hs
  by_cases hne : dst = src
  · subst hne
    rw [OpenCLWorld.move_assign_self w dst t hd, device.reset_snd]
  · rw [OpenCLWorld.move_assign_ne w dst src t o hne hd ho, device.reset_snd]

theorem OpenCLWorld.moved_from_construct (w : OpenCLWorld) (dst src : Nat)
    (hd : w.objs dst = none) (hs : (w.objs src).isSome = true) :
    ∃ s', (w.move_construct dst src).objs src = some s' ∧ s'.initialized_ = false := by
  obtain ⟨o, ho⟩ := Option.isSome_iff_exists.mp hs
  refine ⟨{ o with initialized_ := false, ordinal_ := size_t_neg 1 }, ?_, rfl⟩
  unfold OpenCLWorld.move_construct
  simp only [hd, ho, Function.update_same]

theorem OpenCLWorld.moved_from_assign (w : OpenCLWorld) (dst src : Nat)
    (hd : (w.objs dst).isSome = true) (hs : (w.objs src).isSome = true) :
    ∃ s', (w.move_assign dst src).objs src = some s' ∧ s'.initialized_ = false := by
  obtain ⟨o, ho⟩ := Option.isSome_iff_exists.mp hs
  obtain ⟨t, ht⟩ := Option.isSome_iff_exists.mp hd
  by_cases hne : dst = src
  · subst hne
    rw [OpenCLWorld.move_assign_self w dst t ht]
    exact ⟨_, Function.update_same _ _ _, rfl⟩
  · rw [OpenCLWorld.move_assign_ne w dst src t o hne ht ho]
    exact ⟨_, Function.update_same _ _ _, rfl⟩

theorem OpenCLWorld.default_constructed (w : OpenCLWorld) (a : Nat) (h : w.objs a = none) :
    (w.default_construct a).objs a = some device.default := by
  unfold OpenCLWorld.default_construct
  simp only [h, Function.update_same]

theorem BackendWorld.be_released_default_construct (w : BackendWorld) (a : Nat) :
    (w.default_construct a).released = w.released := by
  unfold BackendWorld.default_construct
  split <;> rfl

theorem BackendWorld.be_released_construct (w : BackendWorld) (a o : Nat) (e : Int) :
    (w.construct a o e).released = w.released := by
  unfold BackendWorld.construct
  split
  · rfl
  · split <;> rfl

theorem BackendWorld.be_released_move_construct (w : BackendWorld) (dst src : Nat) :
    (w.move_construct dst src).released = w.released := by
  unfold BackendWorld.move_construct
  split <;> rfl

theorem BackendWorld.be_released_destroy (w : BackendWorld) (a : Nat) (d : backend_device)
    (h : w.objs a = some d) :
    (w.destroy a).released = w.released ++ d.context_.toList := by
  unfold BackendWorld.destroy
  simp only [h, backend_device.finalize_eq]

theorem BackendWorld.be_released_move_assign (w : BackendWorld) (dst src : Nat)
    (t : backend_device) (hd : w.objs dst = some t) (hs : (w.objs src).isSome = true) :
    (w.move_assign dst src).released = w.released ++ t.context_.toList := by
  obtain ⟨o, ho⟩ := Option.isSome_iff_exists.mp hs
  by_cases hne : dst = src
  · subst hne
    rw [BackendWorld.be_move_assign_self w dst t hd, backend_device.finalize_eq]
  · rw [BackendWorld.be_move_assign_ne w dst src t o hne hd ho, backend_device.finalize_eq]

theorem BackendWorld.be_moved_from_construct (w : BackendWorld) (dst src : Nat)
    (hd : w.objs dst = none) (hs : (w.objs src).isSome = true) :
    ∃ s', (w.move_construct dst src).objs src = some s' ∧ s'.context_ = none := by
  obtain ⟨o, ho⟩ := Option.isSome_iff_exists.mp hs
  refine ⟨{ o with context_ := none, modules_ := [], device_lock_ := none }, ?_, rfl⟩
  unfold BackendWorld.move_construct
  simp only [hd, ho, Function.update_same]

theorem BackendWorld.be_moved_from_assign (w : BackendWorld) (dst src : Nat)
    (hd : (w.objs dst).isSome = true) (hs : (w.objs src).isSome = true) :
    ∃ s', (w.move_assign dst src).objs src = some s' ∧ s'.context_ = none := by
  obtain ⟨o, ho⟩ := Option.isSome_iff_exists.mp hs
  obtain ⟨t, ht⟩ := Option.isSome_iff_exists.mp hd
  by_cases hne : dst = src
  · subst hne
    rw [BackendWorld.be_move_assign_self w dst t ht]
    exact ⟨_, Function.update_same _ _ _, rfl⟩
  · rw [BackendWorld.be_move_assign_ne w dst src t o hne ht ho]
    exact ⟨_, Function.update_same _ _ _, rfl⟩

theorem BackendWorld.be_default_constructed (w : BackendWorld) (a : Nat) (h : w.objs a = none) :
    (w.default_construct a).objs a = some backend_device.default := by
  unfold BackendWorld.default_construct
  simp only [h, Function.update_same]

/-- In a world with sound ownership an initialized OpenCL device holds a
context that was not released and that no other object holds. -/
theorem OpenCLWorld.holder_unique (w : OpenCLWorld) (h : Owned some w.held w.released w.next)
    (a : Nat) (d : device) (ha : w.objs a = some d) (hi : d.initialized_ = true) :
    d.context_ ∉ w.released ∧
      ∀ b e, w.objs b = some e → e.initialized_ = true → e.context_ = d.context_ → b = a := by
  have hh : w.held a = some d.context_ := by simp [OpenCLWorld.held, ha, device.held, hi]
  refine ⟨(h.2.2.1 a _ hh).2, ?_⟩
  intro b e hb hie hc
  have hb' : w.held b = some d.context_ := by simp [OpenCLWorld.held, hb, device.held, hie, hc]
  exact h.2.2.2 b a _ hb' hh

/-- In a world with sound ownership a backend device with a context holds one
that was not deleted and that no other object holds. -/
theorem BackendWorld.be_holder_unique (w : BackendWorld) (h : Owned id w.held w.released w.next)
    (a : Nat) (d : backend_device) (c : Nat) (ha : w.objs a = some d)
    (hc : d.context_ = some c) :
    c ∉ w.released ∧ ∀ b e, w.objs b = some e → e.context_ = some c → b = a := by
  have hh : w.held a = some c := by simp [BackendWorld.held, ha, hc]
  refine ⟨(h.2.2.1 a _ hh).2, ?_⟩
  intro b e hb hce
  have hb' : w.held b = some c := by simp [BackendWorld.held, hb, hce]
  exact h.2.2.2 b a _ hb' hh

/-- C14: in every program of default constructions, constructions, move
constructions, move assignments (self move assignment included) and
destructions of devices, for the OpenCL base class and for the backend class
alike, no context is released twice; a context that an object holds has
not been released and has no second holder; the only steps that release are a
destruction and a move assignment, which release exactly the context that the
destroyed or overwritten object holds, if it holds one; and a
default-constructed or moved-from object holds none, so destroying it releases
nothing. -/
theorem contexts_released_at_most_once (platforms : List (List Nat)) (ops : List DeviceOp) :
    (OpenCLWorld.run platforms ops).released.Nodup ∧
    (BackendWorld.run ops).released.Nodup ∧
    (∀ a d, (OpenCLWorld.run platforms ops).objs a = some d → d.initialized_ = true →
      d.context_ ∉ (OpenCLWorld.run platforms ops).released ∧
      ∀ b e, (OpenCLWorld.run platforms ops).objs b = some e → e.initialized_ = true →
        e.context_ = d.context_ → b = a) ∧
    (∀ a d c, (BackendWorld.run ops).objs a = some d → d.context_ = some c →
      c ∉ (BackendWorld.run ops).released ∧
      ∀ b e, (BackendWorld.run ops).objs b = some e → e.context_ = some c → b = a) ∧
    (∀ w : OpenCLWorld,
      (∀ a, (w.default_construct a).released = w.released) ∧
      (∀ a o e, (OpenCLWorld.construct platforms w a o e).released = w.released) ∧
      (∀ dst src, (w.move_construct dst src).released = w.released) ∧
      (∀ a d, w.objs a = some d →
        (w.destroy a).released
          = w.released ++ (if d.initialized_ = true then [d.context_] else [])) ∧
      (∀ dst src t, w.objs dst = some t → (w.objs src).isSome = true →
        (w.move_assign dst src).released
          = w.released ++ (if t.initialized_ = true then [t.context_] else [])) ∧
      (∀ a, w.objs a = none → (w.default_construct a).objs a = some device.default) ∧
      device.default.initialized_ = false ∧
      (∀ dst src, w.objs dst = none → (w.objs src).isSome = true →
        ∃ s', (w.move_construct dst src).objs src = some s' ∧ s'.initialized_ = false) ∧
      (∀ dst src, (w.objs dst).isSome = true → (w.objs src).isSome = true →
        ∃ s', (w.move_assign dst src).objs src = some s' ∧ s'.initialized_ = false)) ∧
    (∀ w : BackendWorld,
      (∀ a, (w.default_construct a).released = w.released) ∧
      (∀ a o e, (w.construct a o e).released = w.released) ∧
      (∀ dst src, (w.move_construct dst src).released = w.released) ∧
      (∀ a d, w.objs a = some d → (w.destroy a).released = w.released ++ d.context_.toList) ∧
      (∀ dst src t, w.objs dst = some t → (w.objs src).isSome = true →
        (w.move_assign dst src).released = w.released ++ t.context_.toList) ∧
      (∀ a, w.objs a = none → (w.default_construct a).objs a = some backend_device.default) ∧
      backend_device.default.context_ = none ∧
      (∀ dst src, w.objs dst = none → (w.objs src).isSome = true →
        ∃ s', (w.move_construct dst src).objs src = some s' ∧ s'.context_ = none) ∧
      (∀ dst src, (w.objs dst).isSome = true → (w.objs src).isSome = true →
        ∃ s', (w.move_assign dst src).objs src = some s' ∧ s'.context_ = none)) := by
  have ho := OpenCLWorld.owned_run platforms ops
  have hb := BackendWorld.be_owned_run ops
  refine ⟨ho.1, hb.1, ?_, ?_, ?_, ?_⟩
  · intro a d ha hi
    exact OpenCLWorld.holder_unique _ ho a d ha hi
  · intro a d c ha hc
    exact BackendWorld.be_holder_unique _ hb a d c ha hc
  · intro w
    exact ⟨w.released_default_construct, OpenCLWorld.released_construct platforms w,
      w.released_move_construct, w.released_destroy, w.released_move_assign,
      w.default_constructed, rfl, w.moved_from_construct, w.moved_from_assign⟩
  · intro w
    exact ⟨w.be_released_default_construct, w.be_released_construct,
      w.be_released_move_construct, w.be_released_destroy, w.be_released_move_assign,
      w.be_default_constructed, rfl, w.be_moved_from_construct, w.be_moved_from_assign⟩

/-! ## Module cache -/

theorem lookup_append_entry (l : List (String × Nat)) (k s : String) (m : Nat) :
    (l ++ [(k, m)]).lookup s = match l.lookup s with
      | some x => some x
      | none => if s = k then some m else none := by
  induction l with
  | nil =>
    by_cases h : s = k
    · simp [List.lookup, h]
    · have hb : (s == k) = false := by simpa using h
      simp [List.lookup, h, hb]
  | cons p l ih =>
    obtain ⟨k', m'⟩ := p
    by_cases h : s = k'
    · subst h
      simp [List.lookup]
    · have hb : (s == k') = false := by simpa using h
      rw [List.cons_append]
      simp only [List.lookup, hb]
      exact ih

/-- A load whose key is cached: no compiler invocation, the cache stays and
the kernel comes from the cached module. -/
theorem backend_device.load_from_string_hit (env : ModuleBackend) (d : backend_device)
    (n s : String) (o : Option String) (m : Nat) (h : d.find s = some m) :
    d.load_from_string env n s o = (d, [], env.get_kernel m n) := by
  unfold backend_device.load_from_string
  rw [h]

/-- A load whose key is not cached and whose build fails: one compiler
invocation, the cache stays. -/
theorem backend_device.load_from_string_fail (env : ModuleBackend) (d : backend_device)
    (n s : String) (o : Option String) (e : Fault) (h : d.find s = none)
    (hb : env.create_module_from_string s o = .error e) :
    d.load_from_string env n s o = (d, [CompileCall.from_string s o], .error e) := by
  unfold backend_device.load_from_string
  rw [h]
  simp only [hb]

/-- A load whose key is not cached and whose build succeeds: one compiler
invocation, one new entry, and the kernel comes from the new module. -/
theorem backend_device.load_from_string_miss (env : ModuleBackend) (d : backend_device)
    (n s : String) (o : Option String) (m : Nat) (h : d.find s = none)
    (hb : env.create_module_from_string s o = .ok m) :
    d.load_from_string env n s o =
      ({ d with modules_ := d.modules_ ++ [(s, m)] }, [CompileCall.from_string s o],
        env.get_kernel m n) := by
  unfold backend_device.load_from_string
  rw [h]
  simp only [hb]

theorem backend_device.find_after_insert (d : backend_device) (k s : String) (m : Nat) :
    backend_device.find { d with modules_ := d.modules_ ++ [(k, m)] } s
      = match d.find s with
        | some x => some x
        | none => if s = k then some m else none := by
  unfold backend_device.find
  exact lookup_append_entry d.modules_ k s m

/-- The key of a load is not cached afterwards iff it was not cached before and
the build failed. -/
theorem backend_device.find_after_load (env : ModuleBackend) (d : backend_device)
    (n k s : String) (o : Option String) :
    (d.load_from_string env n k o).1.find s = none ↔
      d.find s = none ∧
        (k = s → ∃ e, env.create_module_from_string s o = .error e) := by
  cases hf : d.find k with
  | some m =>
    rw [backend_device.load_from_string_hit env d n k o m hf]
    constructor
    · intro h
      refine ⟨h, ?_⟩
      intro e
      subst e
      rw [h] at hf
      cases hf
    · intro h
      exact h.1
  | none =>
    cases hb : env.create_module_from_string k o with
    | error e =>
      rw [backend_device.load_from_string_fail env d n k o e hf hb]
      constructor
      · intro h
        refine ⟨h, ?_⟩
        intro e'
        subst e'
        exact ⟨e, hb⟩
      · intro h
        exact h.1
    | ok m =>
      rw [backend_device.load_from_string_miss env d n k o m hf hb]
      simp only
      rw [backend_device.find_after_insert]
      cases hs : d.find s with
      | some x => simp
      | none =>
        by_cases e : s = k
        · subst e
          simp [hb]
        · have e' : ¬ k = s := fun h => e h.symm
          simp [e, e']

/-- After a sequence of loads a key is not cached iff it was not cached before
and every load of the sequence with that key had a failing build. -/
theorem find_after_run_loads (env : ModuleBackend) (cs : List LoadCall) (d : backend_device)
    (s : String) :
    (run_loads env d cs).1.find s = none ↔
      d.find s = none ∧
        ∀ c ∈ cs, c.kernel_string = s →
          ∃ e, env.create_module_from_string s c.build_options = .error e := by
  induction cs generalizing d with
  | nil => simp [run_loads]
  | cons c cs ih =>
    simp only [run_loads, List.mem_cons, forall_eq_or_imp]
    rw [ih, backend_device.find_after_load]
    tauto

/-- How many compiler invocations a load makes: none iff its key is cached. -/
theorem backend_device.load_compiles_iff (env : ModuleBackend) (d : backend_device)
    (n s : String) (o : Option String) :
    ((d.load_from_string env n s o).2.1 = [CompileCall.from_string s o] ↔ d.find s = none) ∧
    ((d.load_from_string env n s o).2.1 = [] ↔ (d.find s).isSome = true) := by
  unfold backend_device.load_from_string
  cases hf : d.find s with
  | some m => simp
  | none =>
    cases hb : env.create_module_from_string s o <;> simp

/-- C15, as stated, fails: on a device with an empty cache, a first
`load_from_string` asks for a kernel that the source does not define, so the
load fails after the module was built and cached; a second load of the same
text then makes no compiler invocation, although no earlier successful load
used that text. -/
theorem failed_load_fills_cache :
    let env : ModuleBackend :=
      { create_module_from_string := fun _ _ => .ok 7,
        create_module_from_file := fun _ _ => .ok 8,
        get_kernel := fun _ name => if name = "add" then .ok 1 else .error (.backend 500) }
    let d0 := backend_device.of_ordinal 0 0
    let r1 := d0.load_from_string env "sub" "kernel add" none
    let r2 := r1.1.load_from_string env "add" "kernel add" none
    d0.modules_ = [] ∧
    r1.2.1 = [CompileCall.from_string "kernel add" none] ∧
    r1.2.2 = .error (.backend 500) ∧
    r1.1.modules_ = [("kernel add", 7)] ∧
    r2.2.1 = [] ∧ r2.2.2 = .ok 1 := by
  intro env d0 r1 r2
  have h1 : r1 = ({ d0 with modules_ := d0.modules_ ++ [("kernel add", 7)] },
      [CompileCall.from_string "kernel add" none], env.get_kernel 7 "sub") :=
    backend_device.load_from_string_miss env d0 "sub" "kernel add" none 7 rfl rfl
  have hf : r1.1.find "kernel add" = some 7 := by
    rw [h1]
    simp [backend_device.find, d0, backend_device.of_ordinal, List.lookup]
  have h2 : r2 = (r1.1, [], env.get_kernel 7 "add") :=
    backend_device.load_from_string_hit env r1.1 "add" "kernel add" none 7 hf
  refine ⟨rfl, ?_, ?_, ?_, ?_, ?_⟩
  · rw [h1]
  · rw [h1]
    simp [env]
  · rw [h1]
    rfl
  · rw [h2]
  · rw [h2]
    simp [env]

/-- C15, amended: a `load_from_string` call made after a sequence of such calls
on a device invokes the compiler iff the cache holds no entry for its text,
that is iff the device did not hold the text at the start and every earlier
call with a byte-identical text had a build that failed (an earlier call whose
build succeeded fills the cache even when its kernel lookup then failed); a
call whose text is cached leaves the cache as it is and takes its kernel from
the cached module; after a call whose build succeeded, a repeated call with
the same text compiles nothing and takes its kernel from that same module; and
two calls with different uncached texts whose builds succeed compile twice
and leave two new entries. -/
theorem load_compiles_iff_not_cached (env : ModuleBackend) (d : backend_device)
    (pre : List LoadCall) (c : LoadCall) :
    let d' := (run_loads env d pre).1
    let r := d'.load_from_string env c.kernel_name c.kernel_string c.build_options
    (r.2.1 = [CompileCall.from_string c.kernel_string c.build_options] ↔
      (d.find c.kernel_string = none ∧
        ∀ c' ∈ pre, c'.kernel_string = c.kernel_string →
          ∃ e, env.create_module_from_string c.kernel_string c'.build_options = .error e)) ∧
    (r.2.1 = [] ↔ (d'.find c.kernel_string).isSome = true) ∧
    (∀ m, d'.find c.kernel_string = some m → r = (d', [], env.get_kernel m c.kernel_name)) ∧
    (∀ m n2 o2, d'.find c.kernel_string = none →
      env.create_module_from_string c.kernel_string c.build_options = .ok m →
      r.2.1 = [CompileCall.from_string c.kernel_string c.build_options] ∧
      r.2.2 = env.get_kernel m c.kernel_name ∧
      r.1.load_from_string env n2 c.kernel_string o2 = (r.1, [], env.get_kernel m n2)) ∧
    (∀ (c2 : LoadCall) m1 m2, c2.kernel_string ≠ c.kernel_string →
      d'.find c.kernel_string = none → d'.find c2.kernel_string = none →
      env.create_module_from_string c.kernel_string c.build_options = .ok m1 →
      env.create_module_from_string c2.kernel_string c2.build_options = .ok m2 →
      (r.1.load_from_string env c2.kernel_name c2.kernel_string c2.build_options).2.1
        = [CompileCall.from_string c2.kernel_string c2.build_options] ∧
      (r.1.load_from_string env c2.kernel_name c2.kernel_string c2.build_options).1.modules_
        = d'.modules_ ++ [(c.kernel_string, m1), (c2.kernel_string, m2)]) := by
  intro d' r
  have hiff := backend_device.load_compiles_iff env d' c.kernel_name c.kernel_string
    c.build_options
  refine ⟨?_, hiff.2, ?_, ?_, ?_⟩
  · rw [← find_after_run_loads env pre d c.kernel_string]
    exact hiff.1
  · intro m hm
    exact backend_device.load_from_string_hit env d' _ _ _ m hm
  · intro m n2 o2 hf hb
    have hr : r = ({ d' with modules_ := d'.modules_ ++ [(c.kernel_string, m)] },
        [CompileCall.from_string c.kernel_string c.build_options],
        env.get_kernel m c.kernel_name) :=
      backend_device.load_from_string_miss env d' _ _ _ m hf hb
    have hf2 : r.1.find c.kernel_string = some m := by
      rw [hr]
      simp only
      rw [backend_device.find_after_insert, hf]
      simp
    refine ⟨by rw [hr], by rw [hr], ?_⟩
    exact backend_device.load_from_string_hit env r.1 n2 c.kernel_string o2 m hf2
  · intro c2 m1 m2 hne hf1 hf2 hb1 hb2
    have hr : r = ({ d' with modules_ := d'.modules_ ++ [(c.kernel_string, m1)] },
        [CompileCall.from_string c.kernel_string c.build_options],
        env.get_kernel m1 c.kernel_name) :=
      backend_device.load_from_string_miss env d' _ _ _ m1 hf1 hb1
    have hf3 : r.1.find c2.kernel_string = none := by
      rw [hr]
      simp only
      rw [backend_device.find_after_insert, hf2]
      simp [hne]
    rw [backend_device.load_from_string_miss env r.1 _ _ _ m2 hf3 hb2]
    refine ⟨rfl, ?_⟩
    rw [hr]
    simp

/-- C16: a `load_from_string` or `load_from_file` call whose module build
fails leaves the module cache of the device exactly as it was, reports the
failure of the build, and a later call with the same key invokes the compiler
again. -/
theorem failed_build_leaves_cache (env : ModuleBackend) (d : backend_device)
    (n key : String) (o : Option String) (e : Fault) (hf : d.find key = none) :
    (env.create_module_from_string key o = .error e →
      (d.load_from_string env n key o).1 = d ∧
      (d.load_from_string env n key o).2.1 = [CompileCall.from_string key o] ∧
      (d.load_from_string env n key o).2.2 = .error e ∧
      ∀ n2 o2, ((d.load_from_string env n key o).1.load_from_string env n2 key o2).2.1
        = [CompileCall.from_string key o2]) ∧
    (env.create_module_from_file key o = .error e →
      (d.load_from_file env n key o).1 = d ∧
      (d.load_from_file env n key o).2.1 = [CompileCall.from_file key o] ∧
      (d.load_from_file env n key o).2.2 = .error e ∧
      ∀ n2 o2, ((d.load_from_file env n key o).1.load_from_file env n2 key o2).2.1
        = [CompileCall.from_file key o2]) := by
  constructor
  · intro hb
    rw [backend_device.load_from_string_fail env d n key o e hf hb]
    refine ⟨rfl, rfl, rfl, ?_⟩
    intro n2 o2
    exact (backend_device.load_compiles_iff env d n2 key o2).1.mpr hf
  · intro hb
    have h1 : d.load_from_file env n key o = (d, [CompileCall.from_file key o], .error e) := by
      unfold backend_device.load_from_file
      rw [hf]
      simp only [hb]
    rw [h1]
    refine ⟨rfl, rfl, rfl, ?_⟩
    intro n2 o2
    unfold backend_device.load_from_file
    rw [hf]
    cases env.create_module_from_file key o2 <;> rfl

/-- C16, at a device with an empty cache and a compiler that rejects every
source. -/
theorem failed_build_leaves_cache_witness :
    let env : ModuleBackend :=
      { create_module_from_string := fun _ _ => .error (.backend 6),
        create_module_from_file := fun _ _ => .error (.backend 6),
        get_kernel := fun _ _ => .ok 1 }
    let d := backend_device.of_ordinal 0 0
    (d.find "kernel add" = none ∧
      env.create_module_from_string "kernel add" none = .error (.backend 6) ∧
      env.create_module_from_file "kernel add" none = .error (.backend 6)) ∧
    ((d.load_from_string env "add" "kernel add" none).1 = d ∧
      (d.load_from_string env "add" "kernel add" none).2.1
        = [CompileCall.from_string "kernel add" none] ∧
      (d.load_from_string env "add" "kernel add" none).2.2 = .error (.backend 6) ∧
      ∀ n2 o2,
        ((d.load_from_string env "add" "kernel add" none).1.load_from_string env n2
          "kernel add" o2).2.1 = [CompileCall.from_string "kernel add" o2]) ∧
    ((d.load_from_file env "add" "kernel add" none).1 = d ∧
      (d.load_from_file env "add" "kernel add" none).2.1
        = [CompileCall.from_file "kernel add" none] ∧
      (d.load_from_file env "add" "kernel add" none).2.2 = .error (.backend 6) ∧
      ∀ n2 o2,
        ((d.load_from_file env "add" "kernel add" none).1.load_from_file env n2
          "kernel add" o2).2.1 = [CompileCall.from_file "kernel add" o2]) := by
  intro env d
  exact ⟨⟨rfl, rfl, rfl⟩,
    (failed_build_leaves_cache env d "add" "kernel add" none (.backend 6) rfl).1 rfl,
    (failed_build_leaves_cache env d "add" "kernel add" none (.backend 6) rfl).2 rfl⟩

/-! ## Copy overloads -/

/-- C17, as stated, fails: copying a vector or a device array of 5 elements to
a device array or a vector of 3 elements hands 5 elements to the backend copy,
not the 3 of the destination. -/
theorem copy_count_follows_source :
    let dst : device_array := { size_ := 3, begin_ := 0 }
    let src : device_array := { size_ := 5, begin_ := 0 }
    let vsrc : host_vector := { data_ := 1000, size_ := 5 }
    let vdst : host_vector := { data_ := 2000, size_ := 3 }
    dst.size = 3 ∧ vdst.size_ = 3 ∧
    (boost_copy_vector_to_array vsrc dst).elements = 5 ∧
    (boost_copy_array_to_array src dst).elements = 5 ∧
    (boost_copy_array_to_vector src vdst).elements = 5 ∧
    (aura_copy_array_to_array src dst).elements = 5 ∧
    (aura_copy_array_to_vector src vdst).elements = 5 := by
  decide

/-- C17, amended: the number of elements handed to the backend copy is the
element count of the destination device array in the overloads whose source is
a host pointer or an iterator and, in `aura/copy.hpp` only, a vector; in every
overload whose source is a device array, and in `boost/aura/copy.hpp` also
when the source is a vector, it is the element count of the source. -/
theorem copy_counts (p : Nat) (v : host_vector) (src dst : device_array) :
    (aura_copy_ptr_to_array p dst).elements = dst.size ∧
    (aura_copy_vector_to_array v dst).elements = dst.size ∧
    (aura_copy_array_to_ptr src p).elements = src.size ∧
    (aura_copy_array_to_vector src v).elements = src.size ∧
    (aura_copy_array_to_array src dst).elements = src.size ∧
    (boost_copy_iterator_to_array p dst).elements = dst.size ∧
    (boost_copy_ptr_to_array p dst).elements = dst.size ∧
    (boost_copy_array_to_ptr src p).elements = src.size ∧
    (boost_copy_vector_to_array v dst).elements = v.size_ ∧
    (boost_copy_array_to_vector src v).elements = src.size ∧
    (boost_copy_array_to_array src dst).elements = src.size := by
  simp [aura_copy_ptr_to_array, aura_copy_vector_to_array, aura_copy_array_to_ptr,
    aura_copy_array_to_vector, aura_copy_array_to_array, boost_copy_iterator_to_array,
    boost_copy_ptr_to_array, boost_copy_array_to_ptr, boost_copy_vector_to_array,
    boost_copy_array_to_vector, boost_copy_array_to_array, BackendCopy.elements, CopyPos.pos,
    device_array.size, device_array.begin, device_array.end_, host_vector.begin,
    host_vector.end_, host_vector.data]

/-! ## Metal library -/

theorem c_str_of_no_nul (s : String) (h : Char.ofNat 0 ∉ s.data) : c_str s = s := by
  unfold c_str
  have e : s.data.takeWhile (fun c => decide (c ≠ Char.ofNat 0)) = s.data := by
    rw [List.takeWhile_eq_self_iff]
    intro x hx
    simp only [decide_eq_true_eq]
    intro e
    rw [e] at hx
    exact h hx
  rw [e]

theorem library_create_from_string_calls (env : MetalLibraryBackend) (d : Nat)
    (k opt : String) (inject : Bool) :
    (library_create_from_string env d k opt inject).1 =
      [{ source := c_str (if inject then
          "#define AURA_BASE_METAL\n" ++ env.shared_alang_header ++ "\n" ++ env.alang_header
            ++ "\n" ++ k
          else k),
         options := none }] := by
  unfold library_create_from_string
  simp only
  split <;> rfl

/-- C19: a Metal library built from the source `kernel void f();` with the
options string `-DFOO`, from a string or from a file, invokes the compiler
with `nil` options: the options string does not reach the compiler. -/
theorem library_drops_options :
    let env : MetalLibraryBackend :=
      { shared_alang_header := "", alang_header := "",
        read_all := fun _ => "kernel void f();",
        newLibraryWithSource := fun _ _ _ => some 1 }
    (library_of_string env "kernel void f();" 1 false "-DFOO").1
      = [{ source := "kernel void f();", options := none }] ∧
    (library_of_file env "kernels.al" 1 false "-DFOO").1
      = [{ source := "kernel void f();", options := none }] ∧
    ∀ c ∈ (library_of_string env "kernel void f();" 1 false "-DFOO").1
        ++ (library_of_file env "kernels.al" 1 false "-DFOO").1,
      c.options ≠ some "-DFOO" := by
  intro env
  have h1 : (library_of_string env "kernel void f();" 1 false "-DFOO").1
      = [{ source := "kernel void f();", options := none }] := by
    unfold library_of_string
    rw [library_create_from_string_calls]
    rw [if_neg (by decide), c_str_of_no_nul _ (by decide)]
  have h2 : (library_of_file env "kernels.al" 1 false "-DFOO").1
      = [{ source := "kernel void f();", options := none }] := by
    unfold library_of_file
    simp only
    rw [library_create_from_string_calls]
    rw [if_neg (by decide), c_str_of_no_nul _ (by decide)]
  refine ⟨h1, h2, ?_⟩
  rw [h1, h2]
  intro c hc
  simp only [List.mem_append, List.mem_singleton, or_self] at hc
  rw [hc]
  simp

/-- C20, as stated, fails: for the kernel string `a`, NUL, `b` with preamble
injection suppressed, the text handed to the compiler is `a`, which is not the
kernel string, and the kernel string is not a suffix of it. -/
theorem library_source_cut_at_nul :
    let env : MetalLibraryBackend :=
      { shared_alang_header := "", alang_header := "", read_all := fun _ => "",
        newLibraryWithSource := fun _ _ _ => some 1 }
    let k : String := String.mk ['a', Char.ofNat 0, 'b']
    (library_of_string env k 1 false "").1 = [{ source := "a", options := none }] ∧
    "a" ≠ k ∧
    ¬ (k.data <:+ "a".data) := by
  intro env k
  refine ⟨?_, by decide, by decide⟩
  unfold library_of_string
  rw [library_create_from_string_calls]
  rw [if_neg (by decide)]
  decide

/-- C20, amended: for a kernel string `k` and preamble texts without NUL
character, the one text handed to the compiler is exactly `k` when preamble
injection is suppressed, and `#define AURA_BASE_METAL`, newline, the shared
header, newline, the backend header, newline and `k` when it is enabled, so it
starts with the definition of the backend macro and ends with `k`; and a
library built from a file invokes the compiler exactly as a library built from
the content of that file as a string. -/
theorem library_source_text (env : MetalLibraryBackend) (d : Nat) (k opt : String)
    (hk : Char.ofNat 0 ∉ k.data) (hs : Char.ofNat 0 ∉ env.shared_alang_header.data)
    (ha : Char.ofNat 0 ∉ env.alang_header.data) :
    (library_of_string env k d false opt).1 = [{ source := k, options := none }] ∧
    (library_of_string env k d true opt).1 =
      [{ source := "#define AURA_BASE_METAL\n" ++ env.shared_alang_header ++ "\n"
          ++ env.alang_header ++ "\n" ++ k,
         options := none }] ∧
    (∀ inject, ∃ src, (library_of_string env k d inject opt).1.map MetalCompile.source = [src] ∧
      k.data <:+ src.data) ∧
    (∃ src, (library_of_string env k d true opt).1.map MetalCompile.source = [src] ∧
      "#define AURA_BASE_METAL\n".data <+: src.data) ∧
    (∀ p inject, library_of_file env p d inject opt
      = library_of_string env (env.read_all p) d inject opt) := by
  have hfull : Char.ofNat 0 ∉ ("#define AURA_BASE_METAL\n" ++ env.shared_alang_header ++ "\n"
      ++ env.alang_header ++ "\n" ++ k).data := by
    simp only [String.data_append, List.mem_append, not_or]
    exact ⟨⟨⟨⟨⟨by decide, hs⟩, by decide⟩, ha⟩, by decide⟩, hk⟩
  have h0 : (library_of_string env k d false opt).1 = [{ source := k, options := none }] := by
    unfold library_of_string
    rw [library_create_from_string_calls, if_neg (by decide), c_str_of_no_nul k hk]
  have h1 : (library_of_string env k d true opt).1 =
      [{ source := "#define AURA_BASE_METAL\n" ++ env.shared_alang_header ++ "\n"
          ++ env.alang_header ++ "\n" ++ k,
         options := none }] := by
    unfold library_of_string
    rw [library_create_from_string_calls, if_pos rfl, c_str_of_no_nul _ hfull]
  refine ⟨h0, h1, ?_, ?_, ?_⟩
  · intro inject
    cases inject with
    | false =>
      rw [h0]
      exact ⟨k, rfl, List.suffix_refl _⟩
    | true =>
      rw [h1]
      refine ⟨_, rfl, ?_⟩
      simp only [String.data_append]
      exact List.suffix_append _ _
  · rw [h1]
    refine ⟨_, rfl, ?_⟩
    simp only [String.data_append, List.append_assoc]
    exact List.prefix_append _ _
  · intro p inject
    rfl

/-- C20, amended, at the kernel string `kernel void f();` with the preamble
texts `shared` and `metal`. -/
theorem library_source_text_witness :
    let env : MetalLibraryBackend :=
      { shared_alang_header := "shared", alang_header := "metal",
        read_all := fun _ => "kernel void f();",
        newLibraryWithSource := fun _ _ _ => some 1 }
    let k : String := "kernel void f();"
    (Char.ofNat 0 ∉ k.data ∧ Char.ofNat 0 ∉ env.shared_alang_header.data ∧
      Char.ofNat 0 ∉ env.alang_header.data) ∧
    (library_of_string env k 1 false "").1 = [{ source := k, options := none }] ∧
    (library_of_string env k 1 true "").1 =
      [{ source := "#define AURA_BASE_METAL\nshared\nmetal\nkernel void f();",
         options := none }] ∧
    (∀ p inject, library_of_file env p 1 inject "" = library_of_string env k 1 inject "") := by
  intro env k
  have h := library_source_text env 1 k "" (by decide) (by decide) (by decide)
  refine ⟨⟨by decide, by decide, by decide⟩, h.1, ?_, h.2.2.2.2⟩
  rw [h.2.1]
  decide

/-! ## Exclusive device creation -/

/-- Every iteration of the loop asks for the lock of `num`; so the loop
returns the device of its first counter value if that lock is granted. -/
theorem create_device_exclusive_loop_granted (env : LockBackend) (num remaining n dl : Nat)
    (hpos : 0 < remaining) (h : env.create_device_lock num = some dl) :
    create_device_exclusive_loop env num remaining n =
      .ok (backend_device.of_ordinal_lock (env.new_context n) n dl) := by
  cases remaining with
  | zero => omega
  | succ k => simp [create_device_exclusive_loop, h]

/-- The loop throws if the lock of `num` is refused. -/
theorem create_device_exclusive_loop_refused (env : LockBackend) (num remaining n : Nat)
    (h : env.create_device_lock num = none) :
    create_device_exclusive_loop env num remaining n = .error .resource := by
  induction remaining generalizing n with
  | zero => rfl
  | succ k ih => simp [create_device_exclusive_loop, h, ih]

/-- C21 fails in the code: `create_device_exclusive` asks for
`create_device_lock(num)`, the lock of the device count, in every iteration and
never for the lock of the loop counter `n`. Whatever the locks of the ordinals
below the count do, the call throws when the lock of the count is refused and
it returns a device for ordinal 0 holding the lock of the count when that one
is granted. With two devices of which only ordinal 1 can be locked, and the
lock of 2 free, the result is a device for ordinal 0 that holds the lock of 2,
where the claim gives a device for ordinal 1 holding the lock of 1; and with
every ordinal below the count lockable but the lock of 2 taken the call
throws. -/
theorem create_device_exclusive_locks_count :
    (∀ env : LockBackend, env.create_device_lock env.device_get_count = none →
      create_device_exclusive env = .error .resource) ∧
    (∀ (env : LockBackend) (dl : Nat), 0 < env.device_get_count →
      env.create_device_lock env.device_get_count = some dl →
      create_device_exclusive env =
        .ok (backend_device.of_ordinal_lock (env.new_context 0) 0 dl)) ∧
    create_device_exclusive
      { device_get_count := 2,
        create_device_lock := fun o => if o = 0 then none else some (100 + o),
        new_context := fun o => 10 + o } =
      .ok { context_ := some 10, ordinal_ := some 0, modules_ := [], device_lock_ := some 102 } ∧
    create_device_exclusive
      { device_get_count := 2,
        create_device_lock := fun o => if o < 2 then some (100 + o) else none,
        new_context := fun o => 10 + o } = .error .resource := by
  refine ⟨?_, ?_, rfl, rfl⟩
  · intro env h
    exact create_device_exclusive_loop_refused env _ _ _ h
  · intro env dl hpos h
    exact create_device_exclusive_loop_granted env _ _ 0 dl hpos h

/-! ## Kernel index helpers -/

/-- A number below `m * n` has one way to be written as `q * n + a`, `a < n`. -/
theorem digit_unique (n a b q r : Nat) (ha : a < n) (hb : b < n)
    (h : q * n + a = r * n + b) : q = r ∧ a = b := by
  have hn : 0 < n := by omega
  have h1 : (q * n + a) / n = q := by
    rw [Nat.add_comm, Nat.add_mul_div_right _ _ hn, Nat.div_eq_of_lt ha, Nat.zero_add]
  have h2 : (r * n + b) / n = r := by
    rw [Nat.add_comm, Nat.add_mul_div_right _ _ hn, Nat.div_eq_of_lt hb, Nat.zero_add]
  have hq : q = r := by rw [← h1, ← h2, h]
  subst hq
  exact ⟨rfl, by omega⟩

/-- Two digits `q < m` and `a < n` give a number below `m * n`. -/
theorem digit_bound (m n q a : Nat) (hq : q < m) (ha : a < n) : q * n + a < m * n := by
  have h1 : (q + 1) * n ≤ m * n := Nat.mul_le_mul_right n hq
  rw [Nat.succ_mul] at h1
  omega

/-- A linear index is below the number of coordinates. -/
theorem dim3.linear_lt (dim idx : dim3) (h : dim.in_range idx) :
    dim.linear idx < dim.volume := by
  obtain ⟨hx, hy, hz⟩ := h
  have h1 : idx.z * dim.y + idx.y < dim.z * dim.y := digit_bound _ _ _ _ hz hy
  have h2 := digit_bound _ _ _ _ h1 hx
  have e1 : dim.linear idx = (idx.z * dim.y + idx.y) * dim.x + idx.x := by
    unfold dim3.linear; ring
  have e2 : dim.volume = dim.z * dim.y * dim.x := by unfold dim3.volume; ring
  rw [e1, e2]
  exact h2

/-- Coordinates in range with the same linear index are the same. -/
theorem dim3.linear_inj (dim i j : dim3) (hi : dim.in_range i) (hj : dim.in_range j)
    (h : dim.linear i = dim.linear j) : i = j := by
  obtain ⟨hix, hiy, hiz⟩ := hi
  obtain ⟨hjx, hjy, hjz⟩ := hj
  have e1 : ∀ k : dim3, dim.linear k = (k.z * dim.y + k.y) * dim.x + k.x := by
    intro k; unfold dim3.linear; ring
  rw [e1 i, e1 j] at h
  obtain ⟨h1, hx⟩ := digit_unique _ _ _ _ _ hix hjx h
  obtain ⟨hz, hy⟩ := digit_unique _ _ _ _ _ hiy hjy h1
  cases i
  cases j
  simp only [dim3.mk.injEq]
  exact ⟨hx, hy, hz⟩

/-- Every number below the number of coordinates is the linear index of
coordinates in range. -/
theorem dim3.linear_surj (dim : dim3) (v : Nat) (hv : v < dim.volume) :
    ∃ idx : dim3, dim.in_range idx ∧ dim.linear idx = v := by
  unfold dim3.volume at hv
  have hx : 0 < dim.x := by
    rcases Nat.eq_zero_or_pos dim.x with h0 | h0
    · rw [h0] at hv; simp at hv
    · exact h0
  have hy : 0 < dim.y := by
    rcases Nat.eq_zero_or_pos dim.y with h0 | h0
    · rw [h0] at hv; simp at hv
    · exact h0
  refine ⟨⟨v % dim.x, (v / dim.x) % dim.y, v / dim.x / dim.y⟩, ⟨Nat.mod_lt _ hx, Nat.mod_lt _ hy, ?_⟩, ?_⟩
  · show v / dim.x / dim.y < dim.z
    rw [Nat.div_div_eq_div_mul]
    exact (Nat.div_lt_iff_lt_mul (Nat.mul_pos hx hy)).mpr (by rw [Nat.mul_comm]; exact hv)
  · show dim.y * dim.x * (v / dim.x / dim.y) + dim.x * ((v / dim.x) % dim.y) + v % dim.x = v
    have h1 := Nat.div_add_mod (v / dim.x) dim.y
    have h2 := Nat.div_add_mod v dim.x
    calc dim.y * dim.x * (v / dim.x / dim.y) + dim.x * ((v / dim.x) % dim.y) + v % dim.x
        = dim.x * (dim.y * (v / dim.x / dim.y) + (v / dim.x) % dim.y) + v % dim.x := by ring
      _ = dim.x * (v / dim.x) + v % dim.x := by rw [h1]
      _ = v := h2

/-- Addition of `unsigned int` respects congruence modulo `2 ^ 32`. -/
theorem uint_add_modEq (a b c d : Nat) (h1 : a ≡ c [MOD UINT_MOD]) (h2 : b ≡ d [MOD UINT_MOD]) :
    uint_add a b ≡ c + d [MOD UINT_MOD] :=
  (Nat.mod_modEq (a + b) UINT_MOD).trans (Nat.ModEq.add h1 h2)

/-- Multiplication of `unsigned int` respects congruence modulo `2 ^ 32`. -/
theorem uint_mul_modEq (a b c d : Nat) (h1 : a ≡ c [MOD UINT_MOD]) (h2 : b ≡ d [MOD UINT_MOD]) :
    uint_mul a b ≡ c * d [MOD UINT_MOD] :=
  (Nat.mod_modEq (a * b) UINT_MOD).trans (Nat.ModEq.mul h1 h2)

/-- The value of `get_bundle_id` is the linear thread index modulo `2 ^ 32`. -/
theorem get_bundle_id_modEq (blockDim threadIdx : dim3) :
    get_bundle_id blockDim threadIdx ≡ blockDim.linear threadIdx [MOD UINT_MOD] := by
  unfold get_bundle_id dim3.linear
  exact uint_add_modEq _ _ _ _
    (uint_add_modEq _ _ _ _
      (uint_mul_modEq _ _ _ _ (uint_mul_modEq _ _ _ _ rfl rfl) rfl)
      (uint_mul_modEq _ _ _ _ rfl rfl)) rfl

/-- The value of `get_mesh_id` is the linear block index times the threads
per block plus the linear thread index, modulo `2 ^ 32`. -/
theorem get_mesh_id_modEq (gridDim blockIdx blockDim threadIdx : dim3) :
    get_mesh_id gridDim blockIdx blockDim threadIdx ≡
      gridDim.linear blockIdx * blockDim.volume + blockDim.linear threadIdx [MOD UINT_MOD] := by
  have e : gridDim.linear blockIdx * blockDim.volume + blockDim.linear threadIdx =
      (gridDim.y * gridDim.x * blockIdx.z + gridDim.x * blockIdx.y + blockIdx.x) *
        (blockDim.z * blockDim.y * blockDim.x) + blockDim.y * blockDim.x * threadIdx.z +
        blockDim.x * threadIdx.y + threadIdx.x := by
    unfold dim3.linear dim3.volume; ring
  rw [e]
  unfold get_mesh_id
  exact uint_add_modEq _ _ _ _
    (uint_add_modEq _ _ _ _
      (uint_add_modEq _ _ _ _
        (uint_mul_modEq _ _ _ _
          (uint_add_modEq _ _ _ _
            (uint_add_modEq _ _ _ _
              (uint_mul_modEq _ _ _ _ (uint_mul_modEq _ _ _ _ rfl rfl) rfl)
              (uint_mul_modEq _ _ _ _ rfl rfl)) rfl)
          (uint_mul_modEq _ _ _ _ (uint_mul_modEq _ _ _ _ rfl rfl) rfl))
        (uint_mul_modEq _ _ _ _ (uint_mul_modEq _ _ _ _ rfl rfl) rfl))
      (uint_mul_modEq _ _ _ _ rfl rfl)) rfl

/-- The two helpers do not wrap in a launch of at most `2 ^ 32` threads. -/
theorem get_mesh_id_eq (gridDim blockIdx blockDim threadIdx : dim3)
    (htotal : gridDim.volume * blockDim.volume ≤ 2 ^ 32)
    (hb : gridDim.in_range blockIdx) (ht : blockDim.in_range threadIdx) :
    get_mesh_id gridDim blockIdx blockDim threadIdx =
      gridDim.linear blockIdx * blockDim.volume + blockDim.linear threadIdx ∧
    get_bundle_id blockDim threadIdx = blockDim.linear threadIdx := by
  have h1 := dim3.linear_lt _ _ hb
  have h2 := dim3.linear_lt _ _ ht
  have h3 := digit_bound _ _ _ _ h1 h2
  have hg : 0 < gridDim.volume := by omega
  have h4 : blockDim.volume ≤ gridDim.volume * blockDim.volume := Nat.le_mul_of_pos_left _ hg
  have hM : UINT_MOD = 2 ^ 32 := rfl
  constructor
  · refine Nat.ModEq.eq_of_lt_of_lt (get_mesh_id_modEq _ _ _ _) ?_ (by omega)
    unfold get_mesh_id uint_add
    exact Nat.mod_lt _ (by rw [hM]; norm_num)
  · refine Nat.ModEq.eq_of_lt_of_lt (get_bundle_id_modEq _ _) ?_ (by omega)
    unfold get_bundle_id uint_add
    exact Nat.mod_lt _ (by rw [hM]; norm_num)

/-- C22: in a launch whose thread count
`gridDim.x*gridDim.y*gridDim.z*blockDim.x*blockDim.y*blockDim.z` is at most
`2 ^ 32`, `get_mesh_id` maps the in-range pairs of `blockIdx` and `threadIdx`
one-to-one onto the numbers below the thread count: every id is below the
count, it is the linear block index times the threads per block plus
`get_bundle_id`, `get_bundle_id` is below the threads per block, two threads
with the same id are the same thread, and every number below the count is the
id of a thread. (A dimension of 0 leaves no coordinate in range, so the bound
of 1 on the dimensions is not needed.) -/
theorem get_mesh_id_bijection (gridDim blockDim : dim3)
    (htotal : gridDim.x * gridDim.y * gridDim.z * blockDim.x * blockDim.y * blockDim.z
      ≤ 2 ^ 32) :
    (∀ blockIdx threadIdx : dim3, gridDim.in_range blockIdx → blockDim.in_range threadIdx →
      get_mesh_id gridDim blockIdx blockDim threadIdx <
        gridDim.x * gridDim.y * gridDim.z * blockDim.x * blockDim.y * blockDim.z ∧
      get_mesh_id gridDim blockIdx blockDim threadIdx =
        gridDim.linear blockIdx * blockDim.volume + get_bundle_id blockDim threadIdx ∧
      get_bundle_id blockDim threadIdx < blockDim.volume) ∧
    (∀ b1 t1 b2 t2 : dim3, gridDim.in_range b1 → blockDim.in_range t1 →
      gridDim.in_range b2 → blockDim.in_range t2 →
      get_mesh_id gridDim b1 blockDim t1 = get_mesh_id gridDim b2 blockDim t2 →
      b1 = b2 ∧ t1 = t2) ∧
    (∀ id : Nat,
      id < gridDim.x * gridDim.y * gridDim.z * blockDim.x * blockDim.y * blockDim.z →
      ∃ blockIdx threadIdx : dim3, gridDim.in_range blockIdx ∧ blockDim.in_range threadIdx ∧
        get_mesh_id gridDim blockIdx blockDim threadIdx = id) := by
  have etot : gridDim.x * gridDim.y * gridDim.z * blockDim.x * blockDim.y * blockDim.z =
      gridDim.volume * blockDim.volume := by
    unfold dim3.volume; ring
  rw [etot] at htotal ⊢
  refine ⟨?_, ?_, ?_⟩
  · intro blockIdx threadIdx hb ht
    obtain ⟨e1, e2⟩ := get_mesh_id_eq _ _ _ _ htotal hb ht
    rw [e1, e2]
    exact ⟨digit_bound _ _ _ _ (dim3.linear_lt _ _ hb) (dim3.linear_lt _ _ ht), rfl,
      dim3.linear_lt _ _ ht⟩
  · intro b1 t1 b2 t2 hb1 ht1 hb2 ht2 h
    rw [(get_mesh_id_eq _ _ _ _ htotal hb1 ht1).1, (get_mesh_id_eq _ _ _ _ htotal hb2 ht2).1] at h
    obtain ⟨hq, ha⟩ := digit_unique _ _ _ _ _ (dim3.linear_lt _ _ ht1) (dim3.linear_lt _ _ ht2) h
    exact ⟨dim3.linear_inj _ _ _ hb1 hb2 hq, dim3.linear_inj _ _ _ ht1 ht2 ha⟩
  · intro id hid
    have hbv : 0 < blockDim.volume := by
      rcases Nat.eq_zero_or_pos blockDim.volume with h0 | h0
      · rw [h0] at hid; simp at hid
      · exact h0
    have hq : id / blockDim.volume < gridDim.volume :=
      (Nat.div_lt_iff_lt_mul hbv).mpr hid
    obtain ⟨blockIdx, hb, eb⟩ := dim3.linear_surj gridDim _ hq
    obtain ⟨threadIdx, ht, et⟩ := dim3.linear_surj blockDim _ (Nat.mod_lt id hbv)
    refine ⟨blockIdx, threadIdx, hb, ht, ?_⟩
    rw [(get_mesh_id_eq _ _ _ _ htotal hb ht).1, eb, et, Nat.mul_comm]
    exact Nat.div_add_mod id blockDim.volume

/-- C22, at a grid of 2 x 3 x 1 blocks of 4 x 2 x 1 threads: thread (3, 1, 0) of
block (1, 2, 0) has the id 47, and every id below 48 belongs to a thread. -/
theorem get_mesh_id_bijection_witness :
    (2 * 3 * 1 * 4 * 2 * 1 ≤ 2 ^ 32) ∧
    get_mesh_id ⟨2, 3, 1⟩ ⟨1, 2, 0⟩ ⟨4, 2, 1⟩ ⟨3, 1, 0⟩ = 47 ∧
    (∀ id : Nat, id < 2 * 3 * 1 * 4 * 2 * 1 →
      ∃ blockIdx threadIdx : dim3, dim3.in_range ⟨2, 3, 1⟩ blockIdx ∧
        dim3.in_range ⟨4, 2, 1⟩ threadIdx ∧
        get_mesh_id ⟨2, 3, 1⟩ blockIdx ⟨4, 2, 1⟩ threadIdx = id) :=
  ⟨by decide, by decide, (get_mesh_id_bijection ⟨2, 3, 1⟩ ⟨4, 2, 1⟩ (by decide)).2.2⟩

/-! ## Fixed-arity and variadic `args` -/

/-- A load never replaces an entry of the cache. -/
theorem backend_device.find_kept_by_load (env : ModuleBackend) (d : backend_device)
    (n k s : String) (o : Option String) (m : Nat) (h : d.find s = some m) :
    (d.load_from_string env n k o).1.find s = some m := by
  cases hf : d.find k with
  | some m2 =>
    rw [backend_device.load_from_string_hit env d n k o m2 hf]
    exact h
  | none =>
    cases hb : env.create_module_from_string k o with
    | error e =>
      rw [backend_device.load_from_string_fail env d n k o e hf hb]
      exact h
    | ok m2 =>
      rw [backend_device.load_from_string_miss env d n k o m2 hf hb]
      simp only
      rw [backend_device.find_after_insert, h]

/-- A sequence of loads never replaces an entry of the cache. -/
theorem find_kept_by_run_loads (env : ModuleBackend) (cs : List LoadCall) (d : backend_device)
    (s : String) (m : Nat) (h : d.find s = some m) :
    (run_loads env d cs).1.find s = some m := by
  induction cs generalizing d with
  | nil => exact h
  | cons c cs ih =>
    simp only [run_loads]
    exact ih _ (backend_device.find_kept_by_load env d _ _ s _ m h)

/-- C24, as stated, fails: a first load of the text with the options `-DA`
builds module 1 and caches it, but asks for a kernel the module does not have
and fails; the second load, with `-DB`, is served from the cache and is the
first load that succeeds; a third load with `-DC` compiles nothing and returns
kernel 101 of module 1, the module built with `-DA`, not kernel 102 of the
module that the options `-DB` of the first successful load build. -/
theorem cached_module_keeps_first_build_options :
    let env : ModuleBackend :=
      { create_module_from_string := fun _ o =>
          if o = some "-DA" then .ok 1 else if o = some "-DB" then .ok 2 else .ok 3,
        create_module_from_file := fun _ _ => .ok 9,
        get_kernel := fun m name => if name = "add" then .ok (100 + m) else .error (.backend 500) }
    let d0 := backend_device.of_ordinal 0 0
    let r1 := d0.load_from_string env "sub" "kernel add" (some "-DA")
    let r2 := r1.1.load_from_string env "add" "kernel add" (some "-DB")
    let r3 := r2.1.load_from_string env "add" "kernel add" (some "-DC")
    r1.2.2 = .error (.backend 500) ∧
    r2.2.2 = .ok 101 ∧
    r3.2.1 = [] ∧ r3.2.2 = .ok 101 ∧
    env.create_module_from_string "kernel add" (some "-DB") = .ok 2 ∧
    env.get_kernel 2 "add" = .ok 102 ∧
    r3.2.2 ≠ env.get_kernel 2 "add" := by
  intro env d0 r1 r2 r3
  have hA : env.create_module_from_string "kernel add" (some "-DA") = .ok 1 := rfl
  have h1 : r1 = ({ d0 with modules_ := d0.modules_ ++ [("kernel add", 1)] },
      [CompileCall.from_string "kernel add" (some "-DA")], env.get_kernel 1 "sub") :=
    backend_device.load_from_string_miss env d0 "sub" "kernel add" (some "-DA") 1 rfl hA
  have hf1 : r1.1.find "kernel add" = some 1 := by
    rw [h1]
    simp [backend_device.find, d0, backend_device.of_ordinal, List.lookup]
  have h2 : r2 = (r1.1, [], env.get_kernel 1 "add") :=
    backend_device.load_from_string_hit env r1.1 "add" "kernel add" (some "-DB") 1 hf1
  have hf2 : r2.1.find "kernel add" = some 1 := by
    rw [h2]
    exact hf1
  have h3 : r3 = (r2.1, [], env.get_kernel 1 "add") :=
    backend_device.load_from_string_hit env r2.1 "add" "kernel add" (some "-DC") 1 hf2
  have k1 : env.get_kernel 1 "add" = .ok 101 := by simp [env]
  have k2 : env.get_kernel 2 "add" = .ok 102 := by simp [env]
  have ks : env.get_kernel 1 "sub" = .error (.backend 500) := by simp [env]
  have hB : env.create_module_from_string "kernel add" (some "-DB") = .ok 2 := by simp [env]
  refine ⟨?_, ?_, ?_, ?_, hB, k2, ?_⟩
  · rw [h1]; exact ks
  · rw [h2]; exact k1
  · rw [h3]
  · rw [h3]; exact k1
  · rw [h3, k2]
    show env.get_kernel 1 "add" ≠ Except.ok 102
    rw [k1]
    intro h
    cases h

/-- C24, amended: a `load_from_string` whose text has an entry in the cache
makes no compiler invocation, leaves the cache as it is and returns the kernel
of the cached module, whatever its build options. The cached module is the one
built by the first load of that text whose build succeeded, with the options of
that load, whether or not that load found its kernel, and no later load
replaces it. Likewise, after a `load_from_file` that built a module for a
path, a `load_from_string` whose text equals the path returns the kernel of
that module. -/
theorem cached_module_ignores_options (env : ModuleBackend) :
    (∀ (d : backend_device) (name s : String) (options2 : Option String) (m : Nat),
      d.find s = some m →
      d.load_from_string env name s options2 = (d, [], env.get_kernel m name)) ∧
    (∀ (d0 : backend_device) (n1 s : String) (o1 : Option String) (m1 : Nat)
      (cs : List LoadCall) (name : String) (options2 : Option String),
      d0.find s = none → env.create_module_from_string s o1 = .ok m1 →
      (run_loads env (d0.load_from_string env n1 s o1).1 cs).1.load_from_string
          env name s options2 =
        ((run_loads env (d0.load_from_string env n1 s o1).1 cs).1, [],
          env.get_kernel m1 name)) ∧
    (∀ (d0 : backend_device) (n1 path : String) (o1 : Option String) (m1 : Nat)
      (name : String) (options2 : Option String),
      d0.find path = none → env.create_module_from_file path o1 = .ok m1 →
      (d0.load_from_file env n1 path o1).1.load_from_string env name path options2 =
        ((d0.load_from_file env n1 path o1).1, [], env.get_kernel m1 name)) := by
  refine ⟨?_, ?_, ?_⟩
  · intro d name s options2 m h
    exact backend_device.load_from_string_hit env d name s options2 m h
  · intro d0 n1 s o1 m1 cs name options2 hf hb
    apply backend_device.load_from_string_hit
    apply find_kept_by_run_loads
    rw [backend_device.load_from_string_miss env d0 n1 s o1 m1 hf hb]
    simp only
    rw [backend_device.find_after_insert, hf]
    simp
  · intro d0 n1 path o1 m1 name options2 hf hb
    apply backend_device.load_from_string_hit
    have h1 : d0.load_from_file env n1 path o1 =
        ({ d0 with modules_ := d0.modules_ ++ [(path, m1)] },
          [CompileCall.from_file path o1], env.get_kernel m1 n1) := by
      unfold backend_device.load_from_file
      rw [hf]
      simp only [hb]
    rw [h1]
    simp only
    rw [backend_device.find_after_insert, hf]
    simp

/-! ## Base device pointer: inverse operations -/

/-- Subtracting what was added gives the offset back. -/
theorem size_t_add_neg_cancel (o n : Nat) (ho : o < SIZE_T_MOD) :
    ((o + n) % SIZE_T_MOD + size_t_neg n) % SIZE_T_MOD = o := by
  unfold size_t_neg
  rw [size_t_mod_eq] at *
  omega

/-- Adding what was subtracted gives the offset back. -/
theorem size_t_neg_add_cancel (o n : Nat) (ho : o < SIZE_T_MOD) :
    ((o + size_t_neg n) % SIZE_T_MOD + n) % SIZE_T_MOD = o := by
  unfold size_t_neg
  rw [size_t_mod_eq] at *
  omega

/-- Decrementing after incrementing gives the offset back. -/
theorem size_t_inc_dec_cancel (o : Nat) (ho : o < SIZE_T_MOD) :
    ((o + 1) % SIZE_T_MOD + (SIZE_T_MOD - 1)) % SIZE_T_MOD = o := by
  rw [size_t_mod_eq] at *
  omega

/-- The difference of the offsets `o + n` and `o`, as a `std::ptrdiff_t`. -/
theorem to_ptrdiff_add_sub (o n : Nat) (hn : n < 2 ^ 63) :
    to_ptrdiff (((o + n) % SIZE_T_MOD + size_t_neg o) % SIZE_T_MOD) = (n : Int) := by
  unfold to_ptrdiff size_t_neg
  rw [size_t_mod_eq]
  norm_num at hn
  have e : (((o + n) % 18446744073709551616 +
      (18446744073709551616 - o % 18446744073709551616) % 18446744073709551616) %
      18446744073709551616) % 18446744073709551616 = n := by omega
  rw [e, if_pos (by norm_num; exact hn)]

namespace base_device_ptr

variable {BaseType : Type}

/-- A pointer to an initialized device compares equal to itself. -/
theorem eq_self [DecidableEq BaseType] (heap : DeviceHeap) (p : base_device_ptr BaseType)
    (d : Nat) (dev : device) (hd : p.device_ = some d) (hdev : heap d = some dev)
    (hinit : dev.initialized_ = true) : eq heap p p = .ok true := by
  cases p with
  | mk m o dv t =>
    simp only at hd
    subst hd
    simp [eq, deref_get_ordinal, hdev, device.get_ordinal, AURA_CHECK_INITIALIZED, hinit, bind,
      Except.bind, pure, Except.pure]

/-- C25, amended: for a pointer `p` whose device reference refers to an
initialized device and every `n`, `(p + n) - n` and `(p - n) + n` return pointers that compare equal to `p` under `operator==`,
as does `p` after `p += n; p -= n`, after `p -= n; p += n` and after `++p; --p`;
and the pointer difference `(p + n) - p` is `n` whenever `n` is below `2 ^ 63`,
the values of `std::ptrdiff_t`. The offset of `p` is a `std::size_t`. -/
theorem sub_inverts_add [DecidableEq BaseType] (heap : DeviceHeap)
    (p : base_device_ptr BaseType) (n d : Nat) (dev : device)
    (hd : p.device_ = some d) (hdev : heap d = some dev) (hinit : dev.initialized_ = true)
    (ho : p.offset_ < SIZE_T_MOD) :
    (∃ q r, p.add n = .ok q ∧ q.sub n = .ok r ∧ eq heap r p = .ok true) ∧
    (∃ q r, p.sub n = .ok q ∧ q.add n = .ok r ∧ eq heap r p = .ok true) ∧
    eq heap ((p.add_assign n).sub_assign n) p = .ok true ∧
    eq heap ((p.sub_assign n).add_assign n) p = .ok true ∧
    eq heap p.pre_inc.pre_dec p = .ok true ∧
    (∃ q, p.add n = .ok q ∧ (n < 2 ^ 63 → q.sub_ptr p = (n : Int))) := by
  have hs := eq_self heap p d dev hd hdev hinit
  cases p with
  | mk m o dv t =>
    simp only at hd ho
    subst hd
    have e1 := size_t_add_neg_cancel o n ho
    have e2 := size_t_neg_add_cancel o n ho
    have e3 := size_t_inc_dec_cancel o ho
    refine ⟨⟨_, _, rfl, rfl, ?_⟩, ⟨_, _, rfl, rfl, ?_⟩, ?_, ?_, ?_, ⟨_, rfl, ?_⟩⟩
    · simp only [of_memory_offset, e1]
      exact hs
    · simp only [of_memory_offset, e2]
      exact hs
    · simp only [sub_assign, add_assign, e1]
      exact hs
    · simp only [sub_assign, add_assign, e2]
      exact hs
    · simp only [pre_inc, pre_dec, e3]
      exact hs
    · intro hn
      exact to_ptrdiff_add_sub o n hn

end base_device_ptr

/-- C25, at a read-only pointer with handle 7 and offset 3 on an initialized
device at address 1, after `p += 10; p -= 10`. -/
theorem sub_inverts_add_witness :
    base_device_ptr.eq
      (fun a => if a = 1 then some (⟨true, 0, some 5, some 6⟩ : device) else none)
      ((({ memory_ := 7, offset_ := 3, device_ := some 1, tag_ := memory_access_tag.ro } :
        base_device_ptr Nat).add_assign 10).sub_assign 10)
      { memory_ := 7, offset_ := 3, device_ := some 1, tag_ := memory_access_tag.ro } = .ok true :=
  (base_device_ptr.sub_inverts_add
    (fun a => if a = 1 then some (⟨true, 0, some 5, some 6⟩ : device) else none)
    { memory_ := 7, offset_ := 3, device_ := some 1, tag_ := memory_access_tag.ro } 10 1
    (⟨true, 0, some 5, some 6⟩ : device)
    rfl rfl rfl (by decide)).2.2.1

/-- C25, as stated, fails: a read-only pointer with handle 7 and offset 3 has
a device reference that is not null but refers to a device that was moved
from, which is not initialized. `(p + 10) - 10` and `(p - 10) + 10` return
pointers with the fields of `p`, but comparing them with `p` does not give
`true`: `operator==` calls `get_ordinal()` on the device, which throws the
invalid-state error. -/
theorem eq_throws_on_moved_from_device :
    (⟨7, 3, some 1, memory_access_tag.ro⟩ : base_device_ptr Nat).device_ ≠ none ∧
    ((⟨7, 3, some 1, memory_access_tag.ro⟩ : base_device_ptr Nat).add 10).bind
        (fun q => q.sub 10) =
      .ok (⟨7, 3, some 1, memory_access_tag.ro⟩ : base_device_ptr Nat) ∧
    ((⟨7, 3, some 1, memory_access_tag.ro⟩ : base_device_ptr Nat).sub 10).bind
        (fun q => q.add 10) =
      .ok (⟨7, 3, some 1, memory_access_tag.ro⟩ : base_device_ptr Nat) ∧
    base_device_ptr.eq
      (fun a => if a = 1 then some (⟨false, 18446744073709551615, some 5, some 6⟩ : device)
        else none)
      (⟨7, 3, some 1, memory_access_tag.ro⟩ : base_device_ptr Nat)
      (⟨7, 3, some 1, memory_access_tag.ro⟩ : base_device_ptr Nat) =
      .error .invalid_state := by
  refine ⟨by decide, ?_, ?_, rfl⟩
  · have e := size_t_add_neg_cancel 3 10 (by decide)
    show Except.ok (base_device_ptr.of_memory_offset 7
      (((3 + 10) % SIZE_T_MOD + size_t_neg 10) % SIZE_T_MOD) 1 memory_access_tag.ro) = _
    rw [e]
    rfl
  · have e := size_t_neg_add_cancel 3 10 (by decide)
    show Except.ok (base_device_ptr.of_memory_offset 7
      (((3 + size_t_neg 10) % SIZE_T_MOD + 10) % SIZE_T_MOD) 1 memory_access_tag.ro) = _
    rw [e]
    rfl

/-! ## Metal device memory: the length formula -/

/-- C26, as stated, fails: for `2 ^ 64 - 16384` elements of one byte the byte
count `b` is `2 ^ 64 - 16384`, a multiple of 16384 that fits `std::size_t`, and
the length requested from `posix_memalign` and from the buffer constructor is
`0`. That is not `16384 * (b / 16384 + 1)`, it is not greater than `b`, and it
is not `b` padded by 1 to 16384 bytes. -/
theorem aligned_size_formula_fails :
    let env : MetalBackend :=
      { posix_memalign := fun _ _ => (0, 4096),
        newBufferWithBytesNoCopy := fun _ _ _ => some 1 }
    (2 ^ 64 - 16384) * 1 < 2 ^ 64 ∧
    (device_malloc 1 env (2 ^ 64 - 16384) 1 memory_access_tag.rw).1 =
      [MetalCall.posix_memalign 16384 0, MetalCall.newBufferWithBytesNoCopy 1 4096 0] ∧
    16384 * ((2 ^ 64 - 16384) * 1 / 16384 + 1) ≠ 0 ∧
    ¬ ((2 ^ 64 - 16384) * 1 < 0) ∧
    (∀ pad : Nat, 1 ≤ pad → pad ≤ 16384 → (2 ^ 64 - 16384) * 1 + pad ≠ 0) := by
  refine ⟨by norm_num, ?_, by norm_num, by norm_num, ?_⟩
  · simp [device_malloc, SIZE_T_MOD, AURA_METAL_CHECK_ERROR]
  · intro pad h1 _
    omega

/-- C26, amended: whenever the byte count `b = count * sizeof(T)` is below
`2 ^ 64 - 16384`, the length `L` that `device_malloc` asks `posix_memalign` for
is `16384 * (b / 16384 + 1)`. It is the smallest multiple of 16384 above `b`,
the padding `L - b` is between 1 and 16384, it is 16384 when `b` is a multiple
of 16384, and a request of 0 elements asks for 16384 bytes. -/
theorem device_malloc_length_formula (sizeof_T size d : Nat) (tag : memory_access_tag)
    (env : MetalBackend) (h : size * sizeof_T < 2 ^ 64 - 16384) :
    (device_malloc sizeof_T env size d tag).1.head? =
      some (MetalCall.posix_memalign 16384 (16384 * (size * sizeof_T / 16384 + 1))) ∧
    size * sizeof_T < 16384 * (size * sizeof_T / 16384 + 1) ∧
    (∀ M, 16384 ∣ M → size * sizeof_T < M → 16384 * (size * sizeof_T / 16384 + 1) ≤ M) ∧
    16384 * (size * sizeof_T / 16384 + 1) - size * sizeof_T ≤ 16384 ∧
    1 ≤ 16384 * (size * sizeof_T / 16384 + 1) - size * sizeof_T ∧
    (16384 ∣ size * sizeof_T →
      16384 * (size * sizeof_T / 16384 + 1) = size * sizeof_T + 16384) ∧
    (device_malloc sizeof_T env 0 d tag).1.head? =
      some (MetalCall.posix_memalign 16384 16384) := by
  have hL := aligned_size_eq (size * sizeof_T) h
  have h0 := aligned_size_eq (0 * sizeof_T) (by norm_num)
  refine ⟨?_, by omega, ?_, by omega, by omega, ?_, ?_⟩
  · unfold device_malloc
    simp only [hL]
    rcases hr : env.posix_memalign 16384 (16384 * (size * sizeof_T / 16384 + 1)) with ⟨err, host⟩
    by_cases herr : err = 0
    · subst herr
      cases hb : env.newBufferWithBytesNoCopy d host (16384 * (size * sizeof_T / 16384 + 1)) <;>
        simp [AURA_METAL_CHECK_ERROR, hb]
    · simp [AURA_METAL_CHECK_ERROR, herr]
  · intro M hM hlt
    obtain ⟨k, rfl⟩ := hM
    have : size * sizeof_T / 16384 < k := by
      apply (Nat.div_lt_iff_lt_mul (by norm_num)).mpr
      omega
    omega
  · intro hdvd
    obtain ⟨k, hk⟩ := hdvd
    omega
  · unfold device_malloc
    simp only [h0]
    norm_num
    rcases hr : env.posix_memalign 16384 16384 with ⟨err, host⟩
    by_cases herr : err = 0
    · subst herr
      cases hb : env.newBufferWithBytesNoCopy d host 16384 <;>
        simp [AURA_METAL_CHECK_ERROR, hb]
    · simp [AURA_METAL_CHECK_ERROR, herr]

/-- C26, amended, at 4096 elements of 4 bytes: the 16384 bytes asked for are
rounded up to 32768. -/
theorem device_malloc_length_formula_witness :
    (device_malloc 4 (⟨fun _ _ => (0, 4096), fun _ _ _ => some 1⟩ : MetalBackend) 4096 1
        memory_access_tag.rw).1.head? =
      some (MetalCall.posix_memalign 16384 32768) :=
  (device_malloc_length_formula 4 4096 1 memory_access_tag.rw
    (⟨fun _ _ => (0, 4096), fun _ _ _ => some 1⟩ : MetalBackend) (by decide)).1

/-! ## Base device pointer: reachable pointers -/

namespace base_device_ptr

variable {BaseType : Type}

/-- A pointer returned by `operator+` has a non-null device reference. -/
theorem add_device_ne_none (p r : base_device_ptr BaseType) (b : Nat) (h : p.add b = .ok r) :
    r.device_ ≠ none := by
  cases p with
  | mk m o dv t =>
    cases dv with
    | none => cases h
    | some d =>
      have e : r = of_memory_offset m ((o + b) % SIZE_T_MOD) d t := by
        injection h with h'
        exact h'.symm
      rw [e]
      exact Option.some_ne_none d

/-- A pointer returned by the postfix `operator++` has a non-null device
reference. -/
theorem post_inc_device_ne_none (p r : base_device_ptr BaseType) (h : p.post_inc = .ok r) :
    r.device_ ≠ none := by
  cases p with
  | mk m o dv t =>
    cases dv with
    | none => cases h
    | some d =>
      have e : r = of_memory_offset m ((o + 1) % SIZE_T_MOD) d memory_access_tag.rw := by
        injection h with h'
        exact h'.symm
      rw [e]
      exact Option.some_ne_none d

/-- A pointer returned by the postfix `operator--` has a non-null device
reference. -/
theorem post_dec_device_ne_none (p r : base_device_ptr BaseType) (h : p.post_dec = .ok r) :
    r.device_ ≠ none := by
  cases p with
  | mk m o dv t =>
    cases dv with
    | none => cases h
    | some d =>
      have e : r = of_memory_offset m ((o + (SIZE_T_MOD - 1)) % SIZE_T_MOD) d t := by
        injection h with h'
        exact h'.symm
      rw [e]
      exact Option.some_ne_none d

/-- A reachable pointer with a null device reference has the zero handle and
the read-write tag. -/
theorem Reachable.null_state [Zero BaseType] (p : base_device_ptr BaseType) (h : Reachable p) :
    p.device_ = none → p.memory_ = 0 ∧ p.tag_ = memory_access_tag.rw := by
  induction h with
  | default => intro _; exact ⟨rfl, rfl⟩
  | of_nullptr => intro _; exact ⟨rfl, rfl⟩
  | of_memory m d tag => intro hd; cases hd
  | of_memory_offset m o d tag => intro hd; cases hd
  | reset p _ _ => intro _; exact ⟨rfl, rfl⟩
  | assign p b _ _ _ ihb => exact ihb
  | assign_nullptr p _ _ => intro _; exact ⟨rfl, rfl⟩
  | add p r b _ hadd _ => intro hd; exact absurd hd (add_device_ne_none p r b hadd)
  | add_assign p b _ ih => exact ih
  | pre_inc p _ ih => exact ih
  | post_inc p r _ hr _ => intro hd; exact absurd hd (post_inc_device_ne_none p r hr)
  | sub p r b _ hsub _ => intro hd; exact absurd hd (add_device_ne_none p r _ hsub)
  | sub_assign p b _ ih => exact ih
  | pre_dec p _ ih =>
    cases p
    exact ih
  | post_dec p r _ hr _ => intro hd; exact absurd hd (post_dec_device_ne_none p r hr)

/-- C27: every pointer reachable from the constructors through `reset`, the
two assignments and the arithmetic operators has the zero handle and the
read-write tag whenever its device reference is null; so for a reachable
pointer `p` the comparison `p == base_device_ptr()` returns, and `p == nullptr`
holds iff it returns `true`, although the comparison with `nullptr` does not
look at the tag. -/
theorem reachable_null_invariant [Zero BaseType] [DecidableEq BaseType] (heap : DeviceHeap)
    (p : base_device_ptr BaseType) (h : Reachable p) :
    (p.device_ = none → p.memory_ = 0 ∧ p.tag_ = memory_access_tag.rw) ∧
    (∃ r, eq heap p default = .ok r) ∧
    (p.eq_nullptr = true ↔ eq heap p default = .ok true) := by
  have hinv := Reachable.null_state p h
  refine ⟨hinv, ?_, ?_⟩
  · cases p with
    | mk m o dv t =>
      cases dv with
      | none => exact ⟨_, rfl⟩
      | some d => exact ⟨_, rfl⟩
  · cases p with
    | mk m o dv t =>
      cases dv with
      | none =>
        obtain ⟨hm, ht⟩ := hinv rfl
        simp only at hm ht
        subst hm
        subst ht
        simp [eq_nullptr, eq, default, pure, Except.pure, eq_comm]
      | some d =>
        simp [eq_nullptr, eq, default, pure, Except.pure]

end base_device_ptr

/-- C27, at a default-constructed pointer after `p += 5`. -/
theorem reachable_null_invariant_witness :
    (((base_device_ptr.default : base_device_ptr Nat).add_assign 5).eq_nullptr = true ↔
      base_device_ptr.eq (fun _ => none)
        ((base_device_ptr.default : base_device_ptr Nat).add_assign 5)
        base_device_ptr.default = .ok true) :=
  (base_device_ptr.reachable_null_invariant (fun _ => none)
    ((base_device_ptr.default : base_device_ptr Nat).add_assign 5)
    (base_device_ptr.Reachable.add_assign _ 5 base_device_ptr.Reachable.default)).2.2

/-! ## Base device pointer: the postfix operators -/

/-- C28: for a pointer `p` with a non-null device reference, a call `p++`
returns a pointer whose offset is the offset of `p` plus 1 and a call `p--`
one whose offset is the offset of `p` minus 1 (modulo `2 ^ 64`), and after
either call the offset, the handle, the device reference and the tag of `p`
are what they were; a call `++p` or `--p` changes the offset of `p` and
returns `p` as changed. -/
theorem postfix_leaves_pointer {BaseType : Type} (p : base_device_ptr BaseType)
    (hd : p.device_ ≠ none) :
    (∃ q r, p.post_inc_call = .ok (q, r) ∧ q.offset_ = p.offset_ ∧ q.memory_ = p.memory_ ∧
        q.device_ = p.device_ ∧ q.tag_ = p.tag_ ∧ r.offset_ = (p.offset_ + 1) % 2 ^ 64) ∧
    (∃ q r, p.post_dec_call = .ok (q, r) ∧ q.offset_ = p.offset_ ∧ q.memory_ = p.memory_ ∧
        q.device_ = p.device_ ∧ q.tag_ = p.tag_ ∧
        (r.offset_ : Int) = ((p.offset_ : Int) - 1) % 2 ^ 64) ∧
    (p.pre_inc_call.2 = p.pre_inc_call.1 ∧
        p.pre_inc_call.1.offset_ = (p.offset_ + 1) % 2 ^ 64) ∧
    (p.pre_dec_call.2 = p.pre_dec_call.1 ∧
        (p.pre_dec_call.1.offset_ : Int) = ((p.offset_ : Int) - 1) % 2 ^ 64) := by
  have hm : (2 : Nat) ^ 64 = SIZE_T_MOD := rfl
  rw [hm]
  cases p with
  | mk m o dev t =>
    cases dev with
    | none => exact absurd rfl hd
    | some d =>
    refine ⟨⟨_, _, rfl, rfl, rfl, rfl, rfl, rfl⟩, ⟨_, _, rfl, rfl, rfl, rfl, rfl, ?_⟩,
      ⟨rfl, rfl⟩, ⟨rfl, ?_⟩⟩
    · exact add_size_t_pred o
    · exact add_size_t_pred o

/-- C28, at a read-only pointer with handle 7 and offset 5 on the device at
address 1. -/
theorem postfix_leaves_pointer_witness :
    (∃ r, base_device_ptr.post_inc_call
        ({ memory_ := 7, offset_ := 5, device_ := some 1, tag_ := memory_access_tag.ro } :
          base_device_ptr Nat) =
        .ok ({ memory_ := 7, offset_ := 5, device_ := some 1, tag_ := memory_access_tag.ro }, r) ∧
      r.offset_ = 6) := by
  obtain ⟨q, r, h, ho, hm, hd, ht, hr⟩ := (postfix_leaves_pointer
    ({ memory_ := 7, offset_ := 5, device_ := some 1, tag_ := memory_access_tag.ro } :
      base_device_ptr Nat) (by decide)).1
  refine ⟨r, ?_, hr⟩
  rw [h]
  cases q
  simp only at ho hm hd ht
  subst ho hm hd ht
  rfl

/-! ## Tiny vector -/

namespace tiny_vector

variable {T : Type} {max_size_ : Nat}

/-- Decrementing a size that was just incremented gives it back. -/
theorem size_t_dec_succ (s : Nat) (h : s + 1 < SIZE_T_MOD) :
    size_t_dec ((s + 1) % SIZE_T_MOD) = s := by
  unfold size_t_dec
  rw [size_t_mod_eq] at *
  have e : (s + 1) % 18446744073709551616 % 18446744073709551616 = s + 1 := by omega
  rw [e, if_neg (by omega)]
  omega

/-- What `push_back` returns on a vector that is not full. -/
theorem push_back_ok (v : tiny_vector T max_size_) (e : T) (hN : max_size_ < SIZE_T_MOD)
    (h : v.size_ < max_size_) :
    v.push_back e =
      .ok { size_ := v.size_ + 1, data_ := Function.update v.data_ v.size_ (some e) } := by
  unfold push_back
  rw [if_pos h, Nat.mod_eq_of_lt (by omega)]

/-- C29: on a vector `v` with `size() < capacity()`, `push_back(e)` returns,
`size()` is then larger by exactly 1, the slots below the old size hold what
they held and the slot at the old size, the new last position, holds `e`; a
following `pop_back()` returns `e` and restores the size and those slots; and
`clear()` gives size 0 on every vector. The capacity is a `std::size_t`. -/
theorem push_back_pop_back (v : tiny_vector T max_size_) (e : T)
    (hN : max_size_ < SIZE_T_MOD) (h : v.size < v.capacity) :
    (∃ v1 : tiny_vector T max_size_, v.push_back e = .ok v1 ∧ v1.size = v.size + 1 ∧
      (∀ i, i < v.size → v1.data_ i = v.data_ i) ∧
      v1.data_ v.size = some e ∧ v1.index (v.size : Int) = .ok e ∧
      ∃ v2 : tiny_vector T max_size_, v1.pop_back = .ok (v2, e) ∧ v2.size = v.size ∧
        (∀ i, i < v.size → v2.data_ i = v.data_ i)) ∧
    (∀ w : tiny_vector T max_size_, w.clear.size = 0) := by
  have hlt : v.size_ < max_size_ := h
  refine ⟨⟨_, push_back_ok v e hN hlt, rfl, ?_, ?_, ?_, ?_⟩, fun _ => rfl⟩
  · intro i hi
    have hne : i ≠ v.size_ := Nat.ne_of_lt hi
    simp only [Function.update_noteq hne]
  · simp only [size, Function.update_same]
  · unfold index
    have hc : (0 : Int) ≤ (v.size : Int) ∧ (v.size : Int) < (max_size_ : Int) :=
      ⟨Int.ofNat_nonneg _, Int.ofNat_lt.mpr hlt⟩
    rw [if_pos hc]
    simp only [Int.toNat_ofNat, size, Function.update_same]
  · have hd : size_t_dec (v.size_ + 1) = v.size_ := by
      have := size_t_dec_succ v.size_ (by omega)
      rwa [Nat.mod_eq_of_lt (by omega)] at this
    refine ⟨{ size_ := v.size_, data_ := Function.update v.data_ v.size_ (some e) }, ?_, rfl, ?_⟩
    · have hu : Function.update v.data_ v.size_ (some e) (size_t_dec (v.size_ + 1)) = some e := by
        rw [hd, Function.update_same]
      unfold pop_back
      simp only [hd, if_pos hlt, hu]
    · intro i hi
      have hne : i ≠ v.size_ := Nat.ne_of_lt hi
      simp only [Function.update_noteq hne]

end tiny_vector

/-- C29, at an empty vector of capacity 3 and the element 128. -/
theorem push_back_pop_back_witness :
    (tiny_vector.empty : tiny_vector Nat 3).size < (tiny_vector.empty : tiny_vector Nat 3).capacity ∧
    ∃ v1 : tiny_vector Nat 3, (tiny_vector.empty : tiny_vector Nat 3).push_back 128 = .ok v1 ∧
      v1.size = 1 :=
  ⟨by decide,
    match (tiny_vector.push_back_pop_back (tiny_vector.empty : tiny_vector Nat 3) 128
      (by decide) (by decide)).1 with
    | ⟨v1, h1, h2, _⟩ => ⟨v1, h1, h2⟩⟩

namespace tiny_vector

variable {T : Type} {max_size_ : Nat}

end tiny_vector

end Aura
